import Mathlib

/-! Controller: model-load and GPU-resource lifecycle of the VR hand controller.

A shallow embedding of `app/src/main/jni/scene/Controller.{h,cpp}`.

Conventions of the embedding
* The per-component C++ arrays of size `CtrlerComp_MaxCompNumber` are functions on `Fin 20`.
* Pointers that may be null are `Option`s; dereferencing a null pointer makes the
  enclosing routine return `none`.
* `float` data (matrix entries, vertex data) is only copied by the modelled code and is
  carried as integer tokens; the touchpad-plane arithmetic is not modelled.
* Calls into the vendor runtime and the rendering collaborators are inputs of the
  functions that make them.
-/

namespace Vrdji

/-! ## Controller.h : enumerations -/

def CtrlerComp_Body : Nat := 0
def CtrlerComp_TouchPad : Nat := 1
def CtrlerComp_AppButton : Nat := 2
def CtrlerComp_HomeButton : Nat := 3
def CtrlerComp_DigitalTriggerKey : Nat := 4
def CtrlerComp_TriggerKey : Nat := 5
def CtrlerComp_VolumeKey : Nat := 6
def CtrlerComp_VolumeUpKey : Nat := 7
def CtrlerComp_VolumeDownKey : Nat := 8
def CtrlerComp_Grip : Nat := 9
def CtrlerComp_DPad_Left : Nat := 10
def CtrlerComp_DPad_Right : Nat := 11
def CtrlerComp_DPad_Up : Nat := 12
def CtrlerComp_DPad_Down : Nat := 13
def CtrlerComp_TouchPad_Touch : Nat := 14
def CtrlerComp_BeamOrigin : Nat := 15
def CtrlerComp_Emitter : Nat := 16
def CtrlerComp_Battery : Nat := 17
def CtrlerComp_BumperKey : Nat := 18
def CtrlerComp_Thumbstick : Nat := 19
def CtrlerComp_MaxCompNumber : Nat := 20

/-- Index type of the arrays declared with `CtrlerComp_MaxCompNumber` elements. -/
abbrev CompIdx : Type := Fin 20

inductive CtrlerBtnStateEnum where
  | CtrlerBtnState_None
  | CtrlerBtnState_Tapped
  | CtrlerBtnState_Pressed
  deriving DecidableEq, Repr

open CtrlerBtnStateEnum

inductive CtrlerDrawModeEnum where
  | CtrlerDrawMode_General
  | CtrlerDrawMode_Multiview
  deriving DecidableEq, Repr

open CtrlerDrawModeEnum

/-! ## Controller.cpp : component registry -/

/-- The table `Controller::sControllerCompNames`, in declaration order. -/
def sControllerCompNames : List String :=
  [ "__CM__Body",
    "__CM__TouchPad",
    "__CM__AppButton",
    "__CM__HomeButton",
    "__CM__DigitalTriggerKey",
    "__CM__TriggerKey",
    "__CM__VolumeKey",
    "__CM__VolumeUp",
    "__CM__VolumeDown",
    "__CM__Grip",
    "__CM__DPad_Left",
    "__CM__DPad_Right",
    "__CM__DPad_Up",
    "__CM__DPad_Down",
    "__CM__TouchPad_Touch",
    "__CM__BeamOrigin",
    "__CM__Emitter",
    "__CM__Battery",
    "__CM__BumperKey",
    "__CM__Thumbstick" ]

/-- The loop of `getCompIdxByName`, started at index `compID` with the table
entries from that index on: the first entry equal to `iName` returns its index,
running off the end returns `CtrlerComp_MaxCompNumber`. -/
def getCompIdxByNameLoop (iName : String) : List String → Nat → Nat
  | [], _ => CtrlerComp_MaxCompNumber
  | n :: rest, compID =>
    if n = iName then compID else getCompIdxByNameLoop iName rest (compID + 1)

/-- The lookup `Controller::getCompIdxByName`. -/
def getCompIdxByName (iName : String) : Nat :=
  getCompIdxByNameLoop iName sControllerCompNames 0

/-! ## Vendor and collaborator data -/

/-- A 4x4 `float` matrix (`Matrix4`, `WVR_Matrix4f_t`). The modelled code only copies
matrices, so the 16 entries are carried as integer tokens. -/
structure Matrix4 where
  m : List Int
  deriving DecidableEq, Repr

/-- The default-constructed `Matrix4()`: the identity matrix. -/
def Matrix4.identity : Matrix4 :=
  ⟨[1, 0, 0, 0, 0, 1, 0, 0, 0, 0, 1, 0, 0, 0, 0, 1]⟩

/-- Modelled from the spec: the vendor header `wvr/wvr_ctrller_render_model.h` is not
among the sources. A vertex attribute buffer of a component (buffer, size, dimension);
the `float` data is carried as integer tokens. -/
structure WVR_VertexBuffer where
  buffer : List Int
  dimension : Nat
  deriving DecidableEq, Repr

/-- Modelled from the spec: the index buffer of a component (buffer, size, type). -/
structure WVR_IndexBuffer where
  buffer : List Nat
  type : Nat
  deriving DecidableEq, Repr

/-- Modelled from the spec: one entry of the bundle's component table, with the fields
`initializeCtrlerModelGLComp` reads. -/
structure WVR_CtrlerCompInfo where
  name : String
  vertices : WVR_VertexBuffer
  texCoords : WVR_VertexBuffer
  indices : WVR_IndexBuffer
  localMat : Matrix4
  texIndex : Int
  deriving DecidableEq, Repr

/-- Modelled from the spec: a bitmap descriptor; `bitmap` is the pixel pointer, which
may be null. -/
structure WVR_CtrlerTexBitmap where
  bitmap : Option Nat
  deriving DecidableEq, Repr

/-- Modelled from the spec: entry `lv` of the three parallel battery tables
(`minLvTable[lv]`, `maxLvTable[lv]`, `texTable[lv]`); the thresholds are `int32_t`. -/
structure WVR_BatteryLevel where
  minLv : Int
  maxLv : Int
  tex : WVR_CtrlerTexBitmap
  deriving DecidableEq, Repr

/-- Modelled from the spec: the raw model bundle `WVR_CtrlerModel_t`. Each table with
its `size` field is a list. Of the touchpad-plane descriptor only the fields that are
not `float` arithmetic inputs are kept (none is read by the modelled routines). -/
structure WVR_CtrlerModel where
  compInfos : List WVR_CtrlerCompInfo
  bitmapInfos : List WVR_CtrlerTexBitmap
  batteryLevels : List WVR_BatteryLevel
  deriving DecidableEq, Repr

/-- A `Texture` object, identified by the allocation that created it. -/
structure Texture where
  handle : Nat
  deriving DecidableEq, Repr

/-- A `Shader` object; `compiled` records the result of `compile()`. -/
structure Shader where
  compiled : Bool
  deriving DecidableEq, Repr

/-- The GPU buffers of a `Mesh`: what the three `create...BufferData` calls and
`createVAO` have stored; `releaseGLComp` empties it. -/
structure Mesh where
  vertices : Option WVR_VertexBuffer
  texCoords : Option WVR_VertexBuffer
  indices : Option WVR_IndexBuffer
  vao : Bool
  deriving DecidableEq, Repr

/-- A mesh holding no GPU buffer. -/
def Mesh.empty : Mesh := ⟨none, none, none, false⟩

/-- The call `Mesh::releaseGLComp`. -/
def Mesh.releaseGLComp (_m : Mesh) : Mesh := Mesh.empty

/-! ## Controller.h : the object state -/

/-- The data members of `class Controller` that the modelled routines use. The mutexes
and the thread handle are represented by the steps further down; `texNext` and
`texFreed` are bookkeeping of the texture objects allocated and deleted so far. Left
out: the device type (it only selects the device the runtime is asked about), the
effect colour, the uniform locations, `mShift`, the touchpad-plane members (all
`float` data) and `mCalmDownTime` (1 second, never changed after construction). -/
structure Controller where
  mIsShowBattery : Bool
  mBatteryLevel : Int
  mCachedData : Option WVR_CtrlerModel
  mIsDataReady : Bool
  mInitialized : Bool
  mCompExistFlags : CompIdx → Bool
  mCompMeshes : CompIdx → Mesh
  mCompTexID : CompIdx → Int
  mCompLocalMats : CompIdx → Matrix4
  mCompStates : CompIdx → CtrlerBtnStateEnum
  mBatLvTex : List (Option Texture)
  mBatMinLevels : List Int
  mBatMaxLevels : List Int
  mLastUpdateTime : Int
  mIsOneVolumeKey : Bool
  mEmitterPose : Matrix4
  mRayMesh : Mesh
  mTextureTable : List (Option Texture)
  mShaders : CtrlerDrawModeEnum → Option Shader
  mCurrentRenderModelName : String
  texNext : Nat
  texFreed : List Nat

/-! ## Machine integers -/

/-- Conversion of an `int32_t` to `uint32_t` (the usual arithmetic conversion applied
when it is compared with an unsigned value). -/
def toUInt32 (i : Int) : Nat := (i % 4294967296).toNat

/-- Conversion of a `uint32_t` to `int32_t` (two's complement). -/
def toInt32 (n : Nat) : Int :=
  if n % 4294967296 < 2147483648 then ((n % 4294967296 : Nat) : Int)
  else ((n % 4294967296 : Nat) : Int) - 4294967296

/-- The call `std::vector::resize(n)`: keeps the first `n` elements and pads with
value-initialised elements `d`. -/
def vectorResize {α : Type} (xs : List α) (n : Nat) (d : α) : List α :=
  xs.take n ++ List.replicate (n - xs.length) d

/-! ## Shader and ray set-up -/

/-- What `initializeGLComp` meets for one draw mode: the shader is already cached
(`findShader` returns it), or a shader file cannot be opened, or the shader is built
from the files and `compile()` returns `compiled`. -/
inductive ShaderLookup where
  | found (sh : Shader)
  | openFailed
  | built (compiled : Bool)
  deriving DecidableEq, Repr

/-- The ray mesh built at the end of `initializeGLComp`; the `float` coordinates are
carried as integers in units of 0.00001. -/
def rayMesh : Mesh :=
  { vertices := some ⟨[], 3⟩, texCoords := some ⟨[0, 0, 0, 0, 0, 0, 0, 0, 0, 0], 2⟩,
    indices := some ⟨[0, 1, 2, 0, 2, 3, 0, 4, 1, 0, 3, 4, 2, 4, 3, 1, 4, 2], 3⟩,
    vao := true }

/-- The shader pointer `initializeGLComp` ends up with for one mode, before the
uniform locations are queried: the cached shader, the freshly made one (also when
`compile()` fails), or none when a shader file cannot be opened. -/
def shaderOf : ShaderLookup → Option Shader
  | ShaderLookup.found sh => some sh
  | ShaderLookup.openFailed => none
  | ShaderLookup.built compiled => some ⟨compiled⟩

/-- The routine `Controller::initializeGLComp`; `lookup` is what the shader service and
the asset files answer per mode. A file that cannot be opened returns from the whole
routine: the shader of that mode and of the later mode stay null and the ray mesh is
not built. -/
def initializeGLComp (lookup : CtrlerDrawModeEnum → ShaderLookup) (s : Controller) :
    Controller :=
  match shaderOf (lookup CtrlerDrawMode_General) with
  | none => s
  | some sh0 =>
    let s0 : Controller :=
      { s with mShaders := Function.update s.mShaders CtrlerDrawMode_General (some sh0) }
    match shaderOf (lookup CtrlerDrawMode_Multiview) with
    | none => s0
    | some sh1 =>
      { s0 with
        mShaders := Function.update s0.mShaders CtrlerDrawMode_Multiview (some sh1)
        mRayMesh := rayMesh }

/-- The constructor `Controller::Controller`; `now` is the clock reading stored in
`mLastUpdateTime`. -/
def ctor (lookup : CtrlerDrawModeEnum → ShaderLookup) (now : Int) : Controller :=
  initializeGLComp lookup
    { mIsShowBattery := true
      mBatteryLevel := -1
      mCachedData := none
      mIsDataReady := false
      mInitialized := false
      mCompExistFlags := fun _ => false
      mCompMeshes := fun _ => Mesh.empty
      mCompTexID := fun _ => -1
      mCompLocalMats := fun _ => Matrix4.identity
      mCompStates := fun _ => CtrlerBtnState_None
      mBatLvTex := []
      mBatMinLevels := []
      mBatMaxLevels := []
      mLastUpdateTime := now
      mIsOneVolumeKey := false
      mEmitterPose := Matrix4.identity
      mRayMesh := Mesh.empty
      mTextureTable := []
      mShaders := fun _ => none
      mCurrentRenderModelName := ""
      texNext := 0
      texFreed := [] }

/-! ## GPU resource manager -/

/-- The collaborator call `Texture::loadTextureFromBitmapWithoutCached`: `texLoad` tells
whether the texture service returns an object for the bitmap (a null pointer
otherwise); a returned object is a fresh allocation numbered `next`. -/
def loadTextureFromBitmapWithoutCached (texLoad : WVR_CtrlerTexBitmap → Bool)
    (bmp : WVR_CtrlerTexBitmap) (next : Nat) : Option Texture × Nat :=
  if texLoad bmp then (some ⟨next⟩, next + 1) else (none, next)

/-- One iteration of the component loop of `initializeCtrlerModelGLComp`
(Controller.cpp lines 340-378) for the bundle entry `info`. -/
def uploadComp (s : Controller) (info : WVR_CtrlerCompInfo) : Controller :=
  let ctrlerCompID := getCompIdxByName info.name
  if h : ctrlerCompID < CtrlerComp_MaxCompNumber then
    let c : CompIdx := ⟨ctrlerCompID, h⟩
    let s1 : Controller :=
      { s with
        mCompMeshes := Function.update s.mCompMeshes c
          { vertices := some info.vertices, texCoords := some info.texCoords,
            indices := some info.indices, vao := true }
        mCompLocalMats := Function.update s.mCompLocalMats c info.localMat
        mCompTexID := Function.update s.mCompTexID c info.texIndex
        mCompExistFlags := Function.update s.mCompExistFlags c true }
    if ctrlerCompID = CtrlerComp_Emitter then
      { s1 with mEmitterPose := s1.mCompLocalMats c }
    else s1
  else s

/-- The texture loop (lines 417-424) after `mTextureTable.resize`: every slot
`0 .. size-1` is assigned the loaded texture of the bitmap with that index. -/
def uploadTextures (texLoad : WVR_CtrlerTexBitmap → Bool) :
    List WVR_CtrlerTexBitmap → Nat → List (Option Texture) × Nat
  | [], next => ([], next)
  | bmp :: rest, next =>
    let r := loadTextureFromBitmapWithoutCached texLoad bmp next
    let rs := uploadTextures texLoad rest r.2
    (r.1 :: rs.1, rs.2)

/-- The battery loop (lines 430-437), from level index `lv` on. -/
def uploadBattery (texLoad : WVR_CtrlerTexBitmap → Bool) :
    List WVR_BatteryLevel → Nat → Controller → Controller
  | [], _, s => s
  | e :: rest, lv, s =>
    let s1 : Controller :=
      { s with
        mBatMinLevels := s.mBatMinLevels.set lv e.minLv
        mBatMaxLevels := s.mBatMaxLevels.set lv e.maxLv }
    let s2 : Controller :=
      if e.tex.bitmap.isSome then
        let r := loadTextureFromBitmapWithoutCached texLoad e.tex s1.texNext
        { s1 with mBatLvTex := s1.mBatLvTex.set lv r.1, texNext := r.2 }
      else s1
    uploadBattery texLoad rest (lv + 1) s2

/-- The routine `Controller::initializeCtrlerModelGLComp`, with `d` the bundle that
`mCachedData` points to (the routine is only called with a non-null pointer). Step 1.2,
the touchpad-plane matrix, is `float` arithmetic on members no modelled routine reads
and is left out. -/
def initializeCtrlerModelGLComp (texLoad : WVR_CtrlerTexBitmap → Bool)
    (d : WVR_CtrlerModel) (s : Controller) : Controller :=
  -- 1. meshes
  let s1 : Controller := d.compInfos.foldl uploadComp { s with mEmitterPose := Matrix4.identity }
  -- 1.1 one volume key check
  let s2 : Controller :=
    if s1.mCompExistFlags ⟨CtrlerComp_VolumeKey, by decide⟩ = true ∧
        s1.mCompExistFlags ⟨CtrlerComp_VolumeUpKey, by decide⟩ = false ∧
        s1.mCompExistFlags ⟨CtrlerComp_VolumeDownKey, by decide⟩ = false then
      { s1 with mIsOneVolumeKey := true }
    else
      { s1 with mIsOneVolumeKey := false }
  -- 2. textures
  let ts := uploadTextures texLoad d.bitmapInfos s2.texNext
  let s3 : Controller := { s2 with mTextureTable := ts.1, texNext := ts.2 }
  -- 3. battery textures
  let n := d.batteryLevels.length
  let s4 : Controller :=
    { s3 with
      mBatLvTex := vectorResize s3.mBatLvTex n none
      mBatMinLevels := vectorResize s3.mBatMinLevels n 0
      mBatMaxLevels := vectorResize s3.mBatMaxLevels n 0 }
  uploadBattery texLoad d.batteryLevels 0 s4

/-- The handles of the non-null entries of a texture vector: the objects the
`delete` loops of `releaseCtrlerModelGLComp` free. -/
def deletedHandles (table : List (Option Texture)) : List Nat :=
  table.filterMap (fun t => t.map Texture.handle)

/-- The routine `Controller::releaseCtrlerModelGLComp`. -/
def releaseCtrlerModelGLComp (s : Controller) : Controller :=
  { s with
    mCompMeshes := fun c => (s.mCompMeshes c).releaseGLComp
    mTextureTable := []
    mCompTexID := fun _ => -1
    mCompExistFlags := fun _ => false
    mCompStates := fun _ => CtrlerBtnState_None
    mBatLvTex := []
    mBatMinLevels := []
    mBatMaxLevels := []
    texFreed := s.texFreed ++ deletedHandles s.mTextureTable ++ deletedHandles s.mBatLvTex }

/-! ## Model load coordinator -/

/-- Modelled from the spec: the status `WVR_Result` of the model-fetch call; the code
only tests it against `WVR_Success`. -/
inductive WVR_Result where
  | WVR_Success
  | WVR_Error (code : Nat)
  deriving DecidableEq, Repr

open WVR_Result

/-- The first critical section of `loadModelFunc` (lines 106-113): the cached bundle is
released and both flags are cleared. -/
def loadModelFunc_clear (s : Controller) : Controller :=
  { s with mCachedData := none, mIsDataReady := false, mInitialized := false }

/-- The call `WVR_GetCurrentControllerModel(mCtrlerType, &mCachedData)` (line 115),
made outside the data lock: `data` is what the runtime leaves in `mCachedData`. -/
def loadModelFunc_fetch (data : Option WVR_CtrlerModel) (s : Controller) : Controller :=
  { s with mCachedData := data }

/-- The end of `loadModelFunc` (lines 116-123): on success the second critical section
sets the ready flag, on failure only a log line is written. -/
def loadModelFunc_finish (result : WVR_Result) (s : Controller) : Controller :=
  if result = WVR_Success then { s with mIsDataReady := true } else s

/-- A whole background task `loadModelFunc`, run without interruption. -/
def loadModelFunc (result : WVR_Result) (data : Option WVR_CtrlerModel) (s : Controller) :
    Controller :=
  loadModelFunc_finish result (loadModelFunc_fetch data (loadModelFunc_clear s))

/-- The caller part of `Controller::loadControllerModelAsync` (lines 126-145);
`newRenderModelName` is the name the device reports. The second component tells
whether a background thread running `loadModelFunc` was started. -/
def loadControllerModelAsync (newRenderModelName : String) (s : Controller) :
    Controller × Bool :=
  if newRenderModelName = s.mCurrentRenderModelName then (s, false)
  else ({ s with mCurrentRenderModelName := newRenderModelName }, true)

/-- The routine `Controller::handleDisconnected`. -/
def handleDisconnected (s : Controller) : Controller :=
  let s1 : Controller := { s with mCurrentRenderModelName := "" }
  let s2 := releaseCtrlerModelGLComp s1
  { s2 with mInitialized := false }

/-- The routine `Controller::resetButtonEffects`. -/
def resetButtonEffects (s : Controller) : Controller :=
  { s with mCompStates := fun _ => CtrlerBtnState_None }

/-- The first block of `Controller::render` (lines 150-167), run under the data lock. -/
def render_initStep (texLoad : WVR_CtrlerTexBitmap → Bool) (s : Controller) : Controller :=
  if s.mInitialized = false ∧ s.mIsDataReady = true then
    match s.mCachedData with
    | some d =>
      let s1 := releaseCtrlerModelGLComp s
      let s2 := initializeCtrlerModelGLComp texLoad d s1
      { s2 with mCachedData := none, mIsDataReady := false, mInitialized := true }
    | none => s
  else s

/-! ## Input state tracker -/

/-- Modelled from the spec: the vendor header declaring `WVR_InputId` is not among the
sources. The 13 identifiers that are `case` labels of the `switch` in
`refreshButtonStatus` (pairwise distinct, being labels of one `switch`), and `other`
for every identifier that is none of them. -/
inductive WVR_InputId where
  | WVR_InputId_Alias1_System
  | WVR_InputId_Alias1_Menu
  | WVR_InputId_Alias1_Volume_Up
  | WVR_InputId_Alias1_Volume_Down
  | WVR_InputId_Alias1_Touchpad
  | WVR_InputId_Alias1_Bumper
  | WVR_InputId_Alias1_Trigger
  | WVR_InputId_Alias1_Grip
  | WVR_InputId_Alias1_DPad_Down
  | WVR_InputId_Alias1_DPad_Up
  | WVR_InputId_Alias1_DPad_Left
  | WVR_InputId_Alias1_DPad_Right
  | WVR_InputId_Alias1_Thumbstick
  | other (raw : Nat)
  deriving DecidableEq, Repr

open WVR_InputId

/-- Modelled from the spec: the vendor header declaring `WVR_EventType` is not among
the sources. The four event types that are `case` labels of the action `switch`, and
`other` for every type that is none of them. -/
inductive WVR_EventType where
  | WVR_EventType_TouchTapped
  | WVR_EventType_ButtonPressed
  | WVR_EventType_ButtonUnpressed
  | WVR_EventType_TouchUntapped
  | other (raw : Nat)
  deriving DecidableEq, Repr

open WVR_EventType

/-- Modelled from the spec: the fields of `WVR_Event_t` that `refreshButtonStatus`
reads: `input.inputId` and `input.device.common.type`. -/
structure WVR_Event where
  inputId : WVR_InputId
  type : WVR_EventType
  deriving DecidableEq, Repr

/-- The first `switch` of `refreshButtonStatus` (lines 859-910): the component of an
input identifier, `CtrlerComp_MaxCompNumber` when there is none. -/
def btnIDOf (mIsOneVolumeKey : Bool) (eventBtnID : WVR_InputId) : Nat :=
  match eventBtnID with
  | WVR_InputId_Alias1_System => CtrlerComp_HomeButton
  | WVR_InputId_Alias1_Menu => CtrlerComp_AppButton
  | WVR_InputId_Alias1_Volume_Up =>
    if mIsOneVolumeKey = true then CtrlerComp_VolumeKey else CtrlerComp_VolumeUpKey
  | WVR_InputId_Alias1_Volume_Down =>
    if mIsOneVolumeKey = true then CtrlerComp_VolumeKey else CtrlerComp_VolumeDownKey
  | WVR_InputId_Alias1_Touchpad => CtrlerComp_TouchPad
  | WVR_InputId_Alias1_Bumper => CtrlerComp_BumperKey
  | WVR_InputId_Alias1_Trigger => CtrlerComp_TriggerKey
  | WVR_InputId_Alias1_Grip => CtrlerComp_Grip
  | WVR_InputId_Alias1_DPad_Down => CtrlerComp_DPad_Down
  | WVR_InputId_Alias1_DPad_Up => CtrlerComp_DPad_Up
  | WVR_InputId_Alias1_DPad_Left => CtrlerComp_DPad_Left
  | WVR_InputId_Alias1_DPad_Right => CtrlerComp_DPad_Right
  | WVR_InputId_Alias1_Thumbstick => CtrlerComp_Thumbstick
  | WVR_InputId.other _ => CtrlerComp_MaxCompNumber

/-- The second `switch` of `refreshButtonStatus` (lines 914-943). -/
def btnStateOf (eventBtnActionID : WVR_EventType) : CtrlerBtnStateEnum :=
  match eventBtnActionID with
  | WVR_EventType_TouchTapped => CtrlerBtnState_Tapped
  | WVR_EventType_ButtonPressed => CtrlerBtnState_Pressed
  | WVR_EventType_ButtonUnpressed => CtrlerBtnState_Tapped
  | WVR_EventType_TouchUntapped => CtrlerBtnState_None
  | WVR_EventType.other _ => CtrlerBtnState_None

/-- The identifier `eventBtnID` of `refreshButtonStatus` (lines 851-858): the source
identifier of the mapping pair when `WVR_GetInputMappingPair` returns true (`mapping`
is `some` of it), the event's own identifier otherwise. -/
def eventBtnIDOf (mapping : Option WVR_InputId) (iEvent : WVR_Event) : WVR_InputId :=
  match mapping with
  | some src => src
  | none => iEvent.inputId

/-- The routine `Controller::refreshButtonStatus`. `mapping` is the answer of
`WVR_GetInputMappingPair`: `some id` when it returns true with `element.source.id = id`,
`none` when it returns false. -/
def refreshButtonStatus (mapping : Option WVR_InputId) (iEvent : WVR_Event)
    (s : Controller) : Controller :=
  let eventBtnID := eventBtnIDOf mapping iEvent
  let btnID := btnIDOf s.mIsOneVolumeKey eventBtnID
  let btnState := btnStateOf iEvent.type
  if h : btnID < CtrlerComp_MaxCompNumber then
    let states1 := Function.update s.mCompStates ⟨btnID, h⟩ btnState
    if btnID = CtrlerComp_BumperKey then
      { s with mCompStates :=
          Function.update states1 ⟨CtrlerComp_DigitalTriggerKey, by decide⟩ btnState }
    else
      { s with mCompStates := states1 }
  else s

/-! ## Battery status sampler -/

/-- The scan of `refreshBatteryStatus` (lines 965-971) from level index `lv` on, over
the remaining minimum thresholds `mins`; `maxs` is the whole `mBatMaxLevels`. The
`uint32_t` percentage is compared with the `int32_t` thresholds after their conversion
to `uint32_t`. Returns the level assigned to `mBatteryLevel`, if any. -/
def batteryScan (percentage : Nat) (maxs : List Int) : List Int → Nat → Option Int
  | [], _ => none
  | mn :: rest, lv =>
    if toUInt32 mn ≤ percentage % 4294967296 ∧
        percentage % 4294967296 ≤ toUInt32 (maxs.getD lv 0) then
      some (toInt32 lv)
    else batteryScan percentage maxs rest (lv + 1)

/-- The routine `Controller::refreshBatteryStatus`. `current` is the clock reading,
`diffs` the whole seconds elapsed since `mLastUpdateTime` as the clock library
computes them (compared with `mCalmDownTime`, which is 1 second throughout), and
`percentage` the value of `static_cast<uint32_t>(power * 100.0f)`. -/
def refreshBatteryStatus (current : Int) (diffs : Int) (percentage : Nat)
    (s : Controller) : Controller :=
  if s.mCompExistFlags ⟨CtrlerComp_Battery, by decide⟩ = false then s
  else if diffs ≥ 1 then
    let s1 : Controller := { s with mLastUpdateTime := current }
    match batteryScan percentage s1.mBatMaxLevels s1.mBatMinLevels 0 with
    | some lv => { s1 with mBatteryLevel := lv }
    | none => s1
  else s

/-! ## Render orchestrator -/

/-- A mesh draw issued to the GPU: `Mesh::draw` on the mesh of a component or on the
ray mesh. -/
inductive DrawCall where
  | comp (c : CompIdx)
  | ray
  deriving DecidableEq, Repr

/-- The guarded texture bind shared by the draw routines: when `mCompTexID[c]` is a
valid index of `mTextureTable`, the texture pointer at that index is dereferenced
(`none` when it is null) and the mesh of `c` is drawn; otherwise nothing is drawn. -/
def drawWithTexture (s : Controller) (c : CompIdx) : Option (List DrawCall) :=
  if 0 ≤ s.mCompTexID c ∧ s.mCompTexID c < (s.mTextureTable.length : Int) then
    match s.mTextureTable.getD (s.mCompTexID c).toNat none with
    | some _ => some [DrawCall.comp c]
    | none => none
  else some []

/-- The routine `Controller::drawCtrlerBody`. -/
def drawCtrlerBody (iMode : CtrlerDrawModeEnum) (s : Controller) : Option (List DrawCall) :=
  match s.mShaders iMode with
  | some _ => drawWithTexture s ⟨CtrlerComp_Body, by decide⟩
  | none => some []

/-- The routine `Controller::drawCtrlerBattery`. -/
def drawCtrlerBattery (iMode : CtrlerDrawModeEnum) (s : Controller) :
    Option (List DrawCall) :=
  if s.mIsShowBattery = false ∨ s.mCompExistFlags ⟨CtrlerComp_Battery, by decide⟩ = false then
    some []
  else
    match s.mShaders iMode with
    | some _ =>
      if 0 ≤ s.mBatteryLevel ∧ s.mBatteryLevel < (s.mBatLvTex.length : Int) then
        match s.mBatLvTex.getD s.mBatteryLevel.toNat none with
        | some _ => some [DrawCall.comp ⟨CtrlerComp_Battery, by decide⟩]
        | none => some []
      else some []
    | none => some []

/-- The body of the loop of `drawCtrlerButtonEffect` for component `c`. -/
def drawButtonEffectOf (iMode : CtrlerDrawModeEnum) (s : Controller) (c : CompIdx) :
    Option (List DrawCall) :=
  if c.val = CtrlerComp_TouchPad_Touch ∨ c.val = CtrlerComp_BeamOrigin ∨
      c.val = CtrlerComp_Emitter ∨ c.val = CtrlerComp_Battery then some []
  else if s.mCompStates c = CtrlerBtnState_Pressed ∧ s.mCompExistFlags c = true then
    match s.mShaders iMode with
    | some _ => drawWithTexture s c
    | none => some []
  else some []

/-- The loop of `drawCtrlerButtonEffect` over the components in `cs`, in order; a null
dereference ends it. -/
def drawButtonEffects (iMode : CtrlerDrawModeEnum) (s : Controller) :
    List CompIdx → Option (List DrawCall)
  | [] => some []
  | c :: rest =>
    match drawButtonEffectOf iMode s c with
    | none => none
    | some ds =>
      match drawButtonEffects iMode s rest with
      | none => none
      | some es => some (ds ++ es)

/-- The routine `Controller::drawCtrlerButtonEffect`: the loop runs from
`CtrlerComp_AppButton` to the last component. -/
def drawCtrlerButtonEffect (iMode : CtrlerDrawModeEnum) (s : Controller) :
    Option (List DrawCall) :=
  drawButtonEffects iMode s
    ((List.finRange 20).filter (fun c => decide (CtrlerComp_AppButton ≤ c.val)))

/-- The routine `Controller::drawCtrlerTouchPad`. In the touch-dot branch the shader
pointer is used without a null test (line 604). -/
def drawCtrlerTouchPad (iMode : CtrlerDrawModeEnum) (s : Controller) :
    Option (List DrawCall) :=
  if s.mCompExistFlags ⟨CtrlerComp_TouchPad, by decide⟩ = true then
    if s.mCompStates ⟨CtrlerComp_TouchPad, by decide⟩ = CtrlerBtnState_Tapped ∧
        s.mCompExistFlags ⟨CtrlerComp_TouchPad_Touch, by decide⟩ = true then
      match s.mShaders iMode with
      | some _ => drawWithTexture s ⟨CtrlerComp_TouchPad_Touch, by decide⟩
      | none => none
    else if s.mCompStates ⟨CtrlerComp_TouchPad, by decide⟩ = CtrlerBtnState_Pressed then
      match s.mShaders iMode with
      | some _ => drawWithTexture s ⟨CtrlerComp_TouchPad, by decide⟩
      | none => some []
    else some []
  else some []

/-- The routine `Controller::drawCtrlerRay`. -/
def drawCtrlerRay (iMode : CtrlerDrawModeEnum) (s : Controller) : Option (List DrawCall) :=
  match s.mShaders iMode with
  | some _ => some [DrawCall.ray]
  | none => some []

/-- What the vendor runtime answers during one `render` call. -/
structure RenderEnv where
  texLoad : WVR_CtrlerTexBitmap → Bool
  connected : Bool
  current : Int
  diffs : Int
  percentage : Nat

/-- The routine `Controller::render`: the state after the call and the mesh draws
issued, in order; `none` when a null pointer is dereferenced. -/
def render (env : RenderEnv) (iMode : CtrlerDrawModeEnum) (s : Controller) :
    Option (Controller × List DrawCall) :=
  let s1 := render_initStep env.texLoad s
  if s1.mInitialized = false ∨ env.connected = false then some (s1, [])
  else
    let s2 := refreshBatteryStatus env.current env.diffs env.percentage s1
    match drawCtrlerBody iMode s2 with
    | none => none
    | some body =>
      match drawCtrlerBattery iMode s2 with
      | none => none
      | some battery =>
        match drawCtrlerButtonEffect iMode s2 with
        | none => none
        | some buttons =>
          match drawCtrlerTouchPad iMode s2 with
          | none => none
          | some touchpad =>
            match drawCtrlerRay iMode s2 with
            | none => none
            | some ray => some (s2, body ++ battery ++ buttons ++ touchpad ++ ray)

/-! ## Views and runs used by the statements -/

/-- The uploaded model of the data model: per-component existence flag, mesh, texture
index and local transform, the texture table, the battery tables, the emitter pose and
the single-volume-key flag. -/
structure UploadedModel where
  existFlags : CompIdx → Bool
  meshes : CompIdx → Mesh
  texIDs : CompIdx → Int
  localMats : CompIdx → Matrix4
  textureTable : List (Option Texture)
  batLvTex : List (Option Texture)
  batMinLevels : List Int
  batMaxLevels : List Int
  emitterPose : Matrix4
  isOneVolumeKey : Bool

/-- The uploaded model held by a controller state. -/
def uploadedModel (s : Controller) : UploadedModel :=
  { existFlags := s.mCompExistFlags
    meshes := s.mCompMeshes
    texIDs := s.mCompTexID
    localMats := s.mCompLocalMats
    textureTable := s.mTextureTable
    batLvTex := s.mBatLvTex
    batMinLevels := s.mBatMinLevels
    batMaxLevels := s.mBatMaxLevels
    emitterPose := s.mEmitterPose
    isOneVolumeKey := s.mIsOneVolumeKey }

/-- Where the background task that holds `mLoadingThreadMutex` stands: no task holds
it, a task has run its clear step, or a task has also made its fetch call, which
returned `result`. -/
inductive TaskPhase where
  | idle
  | cleared
  | fetched (result : WVR_Result)
  deriving DecidableEq, Repr

/-- The controller together with the progress of the background task that holds the
loading mutex. -/
structure Sys where
  ctrl : Controller
  task : TaskPhase

/-- The steps that threads take on the shared state. Each step is atomic: the clear
step, the set-ready step and the render upload step hold `mCachedDataMutex`; the fetch
call writes only `mCachedData`; `handleDisconnected` runs on the render thread and
touches nothing a task step touches except `mInitialized`, written under the lock. -/
inductive Action where
  | taskClear
  | taskFetch (result : WVR_Result) (data : Option WVR_CtrlerModel)
  | taskFinish
  | renderInit (texLoad : WVR_CtrlerTexBitmap → Bool)
  | disconnected
  | loadAsync (newRenderModelName : String)
  | buttonEvent (mapping : Option WVR_InputId) (iEvent : WVR_Event)
  | batteryRefresh (current : Int) (diffs : Int) (percentage : Nat)
  | resetEffects

/-- One step; `none` when the step is not enabled (a task step out of its turn:
`mLoadingThreadMutex` lets a task start only when no other task is inside). -/
def step (a : Action) (s : Sys) : Option Sys :=
  match a with
  | Action.taskClear =>
    match s.task with
    | TaskPhase.idle => some ⟨loadModelFunc_clear s.ctrl, TaskPhase.cleared⟩
    | _ => none
  | Action.taskFetch result data =>
    match s.task with
    | TaskPhase.cleared => some ⟨loadModelFunc_fetch data s.ctrl, TaskPhase.fetched result⟩
    | _ => none
  | Action.taskFinish =>
    match s.task with
    | TaskPhase.fetched result => some ⟨loadModelFunc_finish result s.ctrl, TaskPhase.idle⟩
    | _ => none
  | Action.renderInit texLoad => some ⟨render_initStep texLoad s.ctrl, s.task⟩
  | Action.disconnected => some ⟨handleDisconnected s.ctrl, s.task⟩
  | Action.loadAsync name => some ⟨(loadControllerModelAsync name s.ctrl).1, s.task⟩
  | Action.buttonEvent mapping iEvent => some ⟨refreshButtonStatus mapping iEvent s.ctrl, s.task⟩
  | Action.batteryRefresh current diffs percentage =>
    some ⟨refreshBatteryStatus current diffs percentage s.ctrl, s.task⟩
  | Action.resetEffects => some ⟨resetButtonEffects s.ctrl, s.task⟩

/-- A schedule of steps, run from left to right. -/
def run : List Action → Sys → Option Sys
  | [], s => some s
  | a :: rest, s =>
    match step a s with
    | some s1 => run rest s1
    | none => none

/-- The state of a freshly constructed controller: no task is running. -/
def initSys (lookup : CtrlerDrawModeEnum → ShaderLookup) (now : Int) : Sys :=
  ⟨ctor lookup now, TaskPhase.idle⟩

/-- Consecutive calls of `loadControllerModelAsync`, `n` of them, during which the
device reports `name`: the state afterwards and the number of background threads
started. -/
def loadRepeated (name : String) : Nat → Controller → Controller × Nat
  | 0, s => (s, 0)
  | n + 1, s =>
    let r := loadControllerModelAsync name s
    let rs := loadRepeated name n r.1
    (rs.1, (if r.2 = true then 1 else 0) + rs.2)

/-- The bucket test as the code evaluates it: the percentage against the thresholds
of level `lv` converted to `uint32_t`. -/
def bucketMatches (mins maxs : List Int) (percentage : Nat) (lv : Nat) : Prop :=
  toUInt32 (mins.getD lv 0) ≤ percentage ∧ percentage ≤ toUInt32 (maxs.getD lv 0)

/-- The bucket test as the specification words it: `min[lv] <= p <= max[lv]` on the
integers. -/
def specBucketMatches (mins maxs : List Int) (percentage : Nat) (lv : Nat) : Prop :=
  mins.getD lv 0 ≤ (percentage : Int) ∧ (percentage : Int) ≤ maxs.getD lv 0

instance (mins maxs : List Int) (p lv : Nat) : Decidable (bucketMatches mins maxs p lv) := by
  unfold bucketMatches; infer_instance

instance (mins maxs : List Int) (p lv : Nat) : Decidable (specBucketMatches mins maxs p lv) := by
  unfold specBucketMatches; infer_instance

/-- The invariant of the lifecycle flags: they are never both set, and while a
background task is between its clear step and its end both are clear. -/
def flagsInv (s : Sys) : Prop :=
  ¬ (s.ctrl.mIsDataReady = true ∧ s.ctrl.mInitialized = true) ∧
  (s.task ≠ TaskPhase.idle → s.ctrl.mIsDataReady = false ∧ s.ctrl.mInitialized = false)

/-- The state `render` draws from: the state after its upload step and the battery
sample. -/
def renderDrawState (env : RenderEnv) (s : Controller) : Controller :=
  refreshBatteryStatus env.current env.diffs env.percentage (render_initStep env.texLoad s)

/-- The link between existence flags and texture indices: a component whose
existence flag is clear has the texture index -1. -/
def texIdInv (s : Controller) : Prop :=
  ∀ c : CompIdx, s.mCompExistFlags c = false → s.mCompTexID c = -1

/-- One iteration of the battery loop of `initializeCtrlerModelGLComp`
(lines 431-436) for the level index `lv`. -/
def uploadBatteryStep (texLoad : WVR_CtrlerTexBitmap → Bool) (e : WVR_BatteryLevel)
    (lv : Nat) (s : Controller) : Controller :=
  let s1 : Controller :=
    { s with
      mBatMinLevels := s.mBatMinLevels.set lv e.minLv
      mBatMaxLevels := s.mBatMaxLevels.set lv e.maxLv }
  if e.tex.bitmap.isSome then
    let r := loadTextureFromBitmapWithoutCached texLoad e.tex s1.texNext
    { s1 with mBatLvTex := s1.mBatLvTex.set lv r.1, texNext := r.2 }
  else s1

/-- Soundness of the texture bookkeeping: every handle in the deletion log, in the
texture table and in the battery-texture vector was allocated before, that is, lies
below the allocation counter. -/
def texSound (s : Controller) : Prop :=
  (∀ h ∈ s.texFreed, h < s.texNext) ∧
  (∀ h ∈ deletedHandles s.mTextureTable, h < s.texNext) ∧
  (∀ h ∈ deletedHandles s.mBatLvTex, h < s.texNext)

/-! ## Sample data -/

/-- Both shaders are built from their files and compile. -/
def sampleLookup : CtrlerDrawModeEnum → ShaderLookup := fun _ => ShaderLookup.built true

/-- A body component using texture 0. -/
def sampleBody : WVR_CtrlerCompInfo :=
  { name := "__CM__Body", vertices := ⟨[0, 0, 0], 3⟩, texCoords := ⟨[0, 0], 2⟩,
    indices := ⟨[0, 0, 0], 0⟩, localMat := Matrix4.identity, texIndex := 0 }

/-- A bundle with a body and one bitmap. -/
def sampleModel : WVR_CtrlerModel :=
  { compInfos := [sampleBody], bitmapInfos := [⟨some 0⟩], batteryLevels := [] }

/-- A fresh controller whose first background task has fetched `sampleModel`:
the bundle is ready and not yet uploaded. -/
def sampleReady : Controller :=
  loadModelFunc WVR_Success (some sampleModel) (ctor sampleLookup 0)

/-- The state after the next render has uploaded the bundle of `sampleReady`. -/
def sampleActive : Controller := render_initStep (fun _ => true) sampleReady

/-- A render call during which the device reports connected. -/
def sampleEnv : RenderEnv :=
  { texLoad := fun _ => true, connected := true, current := 0, diffs := 0, percentage := 50 }

/-- A bundle whose only component carries a name outside the registry. -/
def sampleUnresolvedModel : WVR_CtrlerModel :=
  { compInfos := [{ sampleBody with name := "__CM__Unknown" }], bitmapInfos := [⟨some 0⟩],
    batteryLevels := [] }

/-- The state `sampleActive` (the body of `sampleModel` is uploaded) after a second
background task has fetched `sampleUnresolvedModel`. -/
def sampleUnresolvedReady : Controller :=
  loadModelFunc WVR_Success (some sampleUnresolvedModel) sampleActive

/-- A bundle with the combined volume key and neither the up nor the down key. -/
def sampleVolumeModel : WVR_CtrlerModel :=
  { compInfos := [sampleBody, { sampleBody with name := "__CM__VolumeKey" }],
    bitmapInfos := [⟨some 0⟩], batteryLevels := [] }

/-- A schedule in which a task fetches `sampleModel`, the render thread uploads it, a
second task starts, the device disconnects and the second fetch fails. -/
def sampleSchedule : List Action :=
  [ Action.loadAsync "vive", Action.taskClear,
    Action.taskFetch WVR_Success (some sampleModel), Action.taskFinish,
    Action.renderInit (fun _ => true), Action.taskClear, Action.disconnected,
    Action.taskFetch (WVR_Error 1) none, Action.taskFinish ]

/-- The state `sampleSchedule` reaches from a fresh controller. -/
def sampleFinal : Sys :=
  ⟨loadModelFunc_finish (WVR_Error 1)
    (loadModelFunc_fetch none
      (handleDisconnected
        (loadModelFunc_clear
          (render_initStep (fun _ => true)
            (loadModelFunc_finish WVR_Success
              (loadModelFunc_fetch (some sampleModel)
                (loadModelFunc_clear
                  (loadControllerModelAsync "vive" (ctor sampleLookup 0)).1))))))),
    TaskPhase.idle⟩

/-- A bundle with a body, a battery component and the battery table `levels`. -/
def sampleBatteryModel (levels : List WVR_BatteryLevel) : WVR_CtrlerModel :=
  { compInfos := [sampleBody, { sampleBody with name := "__CM__Battery" }],
    bitmapInfos := [⟨some 0⟩], batteryLevels := levels }

/-- A controller that has fetched and uploaded a bundle with the battery table
[(0,20),(21,50),(51,100)]; the battery level is still the constructor's -1. -/
def sampleBatteryState : Controller :=
  render_initStep (fun _ => true)
    (loadModelFunc WVR_Success
      (some (sampleBatteryModel
        [⟨0, 20, ⟨some 1⟩⟩, ⟨21, 50, ⟨some 2⟩⟩, ⟨51, 100, ⟨some 3⟩⟩]))
      (ctor sampleLookup 0))

/-- A controller that has fetched and uploaded a bundle with the single battery
bucket (-1,100). -/
def sampleNegativeBatteryState : Controller :=
  render_initStep (fun _ => true)
    (loadModelFunc WVR_Success (some (sampleBatteryModel [⟨-1, 100, ⟨some 1⟩⟩]))
      (ctor sampleLookup 0))

/-- The routine `Controller::getEmitterPose`. -/
def getEmitterPose (s : Controller) : Matrix4 := s.mEmitterPose

/-- The state `sampleActive` after a button press on the menu button. -/
def sampleMenuPressed : Controller :=
  refreshButtonStatus none ⟨WVR_InputId_Alias1_Menu, WVR_EventType_ButtonPressed⟩ sampleActive

/-- A local transform different from the identity. -/
def sampleMat : Matrix4 := ⟨[1, 0, 0, 0, 0, 1, 0, 0, 0, 0, 1, 0, 5, 6, 7, 1]⟩

/-- A bundle with two emitter entries around an entry with an unregistered name; the
last emitter entry carries `sampleMat` and texture index 3. -/
def sampleEmitterModel : WVR_CtrlerModel :=
  { compInfos :=
      [ { sampleBody with name := "__CM__Emitter", texIndex := 1 },
        { sampleBody with name := "__CM__Unknown" },
        { sampleBody with name := "__CM__Emitter", localMat := sampleMat, texIndex := 3 } ],
    bitmapInfos := [⟨some 0⟩], batteryLevels := [] }

/-- The shader files cannot be opened: both shader pointers stay null. -/
def sampleLookupFailed : CtrlerDrawModeEnum → ShaderLookup := fun _ => ShaderLookup.openFailed

/-- A bundle with a body, a menu button, a touchpad, a touch dot and a battery, all
using texture 0, and one battery bucket (0,100) with a texture. -/
def sampleFullModel : WVR_CtrlerModel :=
  { compInfos :=
      [ sampleBody,
        { sampleBody with name := "__CM__Battery" },
        { sampleBody with name := "__CM__AppButton" },
        { sampleBody with name := "__CM__TouchPad" },
        { sampleBody with name := "__CM__TouchPad_Touch" } ],
    bitmapInfos := [⟨some 0⟩],
    batteryLevels := [⟨0, 100, ⟨some 1⟩⟩] }

/-- A controller built while the shader files cannot be opened, which has fetched and
uploaded `sampleFullModel` and then received a touch-tap on the touchpad. -/
def sampleNullShaderTapped : Controller :=
  refreshButtonStatus none ⟨WVR_InputId_Alias1_Touchpad, WVR_EventType_TouchTapped⟩
    (render_initStep (fun _ => true)
      (loadModelFunc WVR_Success (some sampleFullModel) (ctor sampleLookupFailed 0)))

/-- The state after the upload of `sampleFullModel` on a controller with both
shaders, a press on the menu button and a press on the touchpad. -/
def sampleFullPressed : Controller :=
  refreshButtonStatus none ⟨WVR_InputId_Alias1_Touchpad, WVR_EventType_ButtonPressed⟩
    (refreshButtonStatus none ⟨WVR_InputId_Alias1_Menu, WVR_EventType_ButtonPressed⟩
      (render_initStep (fun _ => true)
        (loadModelFunc WVR_Success (some sampleFullModel) (ctor sampleLookup 0))))

/-- A render call during which the device reports connected and a battery sample of
50 percent is due. -/
def sampleSamplingEnv : RenderEnv :=
  { texLoad := fun _ => true, connected := true, current := 1, diffs := 1, percentage := 50 }

/-- A bundle with a body and a battery component whose texture index is -1, one
bitmap, and one battery bucket (0,100) with a texture. -/
def sampleBatteryNoTexModel : WVR_CtrlerModel :=
  { compInfos := [sampleBody, { sampleBody with name := "__CM__Battery", texIndex := -1 }],
    bitmapInfos := [⟨some 0⟩],
    batteryLevels := [⟨0, 100, ⟨some 1⟩⟩] }

/-- A background task on a fresh controller that fetches `sampleBatteryNoTexModel`. -/
def sampleNoTexSchedule : List Action :=
  [ Action.taskClear, Action.taskFetch WVR_Success (some sampleBatteryNoTexModel),
    Action.taskFinish ]

/-- The state `sampleNoTexSchedule` reaches from a fresh controller. -/
def sampleNoTexSys : Sys :=
  ⟨loadModelFunc_finish WVR_Success
    (loadModelFunc_fetch (some sampleBatteryNoTexModel)
      (loadModelFunc_clear (ctor sampleLookup 0))),
    TaskPhase.idle⟩

/-- What the render call of `sampleSamplingEnv` on `sampleNoTexSys` returns. -/
def sampleNoTexRendered : Controller × List DrawCall :=
  (renderDrawState sampleSamplingEnv sampleNoTexSys.ctrl,
    [DrawCall.comp ⟨CtrlerComp_Body, by decide⟩,
      DrawCall.comp ⟨CtrlerComp_Battery, by decide⟩, DrawCall.ray])

/-- A controller that has fetched and uploaded a bundle with the battery table
[(-1,100),(0,-1)]: a bucket with a negative minimum, then a bucket with a negative
maximum. -/
def sampleWrapBatteryState : Controller :=
  render_initStep (fun _ => true)
    (loadModelFunc WVR_Success
      (some (sampleBatteryModel [⟨-1, 100, ⟨some 1⟩⟩, ⟨0, -1, ⟨some 2⟩⟩]))
      (ctor sampleLookup 0))

/-! ## Component registry: proofs -/

/-- A name that is not in the scanned table falls through the loop. -/
theorem getCompIdxByNameLoop_not_mem (iName : String) (l : List String) (k : Nat)
    (h : iName ∉ l) : getCompIdxByNameLoop iName l k = CtrlerComp_MaxCompNumber := by
  induction l generalizing k with
  | nil => rfl
  | cons n rest ih =>
    have hn : ¬ n = iName := fun e => h (by simp [e])
    have hr : iName ∉ rest := fun e => h (by simp [e])
    simp [getCompIdxByNameLoop, hn, ih _ hr]

/-- A name in the scanned table is found at its first position. -/
theorem getCompIdxByNameLoop_mem (iName : String) (l : List String) (k : Nat)
    (h : iName ∈ l) : getCompIdxByNameLoop iName l k = k + l.indexOf iName := by
  induction l generalizing k with
  | nil => simp at h
  | cons n rest ih =>
    by_cases hn : n = iName
    · simp [getCompIdxByNameLoop, hn]
    · have hr : iName ∈ rest := by
        rcases List.mem_cons.mp h with e | e
        · exact absurd e.symm hn
        · exact e
      simp only [getCompIdxByNameLoop, hn, if_false, ih _ hr, List.indexOf_cons]
      have : (n == iName) = false := by simpa using hn
      simp [this]
      omega

/-- The lookup returns `c` exactly for the registry name of `c`. -/
theorem getCompIdxByName_eq_iff (iName : String) (c : CompIdx) :
    getCompIdxByName iName = c.val ↔ iName = sControllerCompNames.getD c.val "" := by
  constructor
  · intro h
    by_cases hm : iName ∈ sControllerCompNames
    · have hidx := getCompIdxByNameLoop_mem iName sControllerCompNames 0 hm
      have hlt : sControllerCompNames.indexOf iName < sControllerCompNames.length :=
        List.indexOf_lt_length.mpr hm
      have hget := List.getElem_indexOf hlt
      have hc : sControllerCompNames.indexOf iName = c.val := by
        unfold getCompIdxByName at h
        omega
      rw [List.getD_eq_getElem _ _ (by rw [← hc]; exact hlt)]
      simp only [← hc]
      exact hget.symm
    · have := getCompIdxByNameLoop_not_mem iName sControllerCompNames 0 hm
      unfold getCompIdxByName at h
      have hc := c.isLt
      have h20 : CtrlerComp_MaxCompNumber = 20 := rfl
      omega
  · intro h
    subst h
    revert c
    decide

/-- C6: `getCompIdxByName` returns `i` for the registry name of every component
identifier `i` in 0..19, the 20 registry names are pairwise distinct, and every string
that is not a registry name gives the not-found value `CtrlerComp_MaxCompNumber` = 20. -/
theorem getCompIdxByName_registry :
    (∀ i : Fin 20, getCompIdxByName (sControllerCompNames.getD i.val "") = i.val) ∧
    sControllerCompNames.length = 20 ∧
    sControllerCompNames.Nodup ∧
    (∀ iName : String, iName ∉ sControllerCompNames →
      getCompIdxByName iName = CtrlerComp_MaxCompNumber) ∧
    CtrlerComp_MaxCompNumber = 20 := by
  refine ⟨by decide, by decide, by decide, ?_, rfl⟩
  intro iName h
  exact getCompIdxByNameLoop_not_mem iName sControllerCompNames 0 h

/-! ## GPU resource manager: proofs -/

/-- What one iteration of the component loop leaves alone. -/
theorem uploadComp_frame (s : Controller) (info : WVR_CtrlerCompInfo) :
    (uploadComp s info).mCachedData = s.mCachedData ∧
    (uploadComp s info).mIsDataReady = s.mIsDataReady ∧
    (uploadComp s info).mInitialized = s.mInitialized ∧
    (uploadComp s info).mTextureTable = s.mTextureTable ∧
    (uploadComp s info).mBatLvTex = s.mBatLvTex ∧
    (uploadComp s info).mBatMinLevels = s.mBatMinLevels ∧
    (uploadComp s info).mBatMaxLevels = s.mBatMaxLevels ∧
    (uploadComp s info).texNext = s.texNext ∧
    (uploadComp s info).texFreed = s.texFreed ∧
    (uploadComp s info).mCompStates = s.mCompStates ∧
    (uploadComp s info).mCurrentRenderModelName = s.mCurrentRenderModelName := by
  simp only [uploadComp]
  split_ifs <;> exact ⟨rfl, rfl, rfl, rfl, rfl, rfl, rfl, rfl, rfl, rfl, rfl⟩

/-- What the component loop leaves alone. -/
theorem foldl_uploadComp_frame (l : List WVR_CtrlerCompInfo) (s : Controller) :
    (l.foldl uploadComp s).mCachedData = s.mCachedData ∧
    (l.foldl uploadComp s).mIsDataReady = s.mIsDataReady ∧
    (l.foldl uploadComp s).mInitialized = s.mInitialized ∧
    (l.foldl uploadComp s).mTextureTable = s.mTextureTable ∧
    (l.foldl uploadComp s).mBatLvTex = s.mBatLvTex ∧
    (l.foldl uploadComp s).mBatMinLevels = s.mBatMinLevels ∧
    (l.foldl uploadComp s).mBatMaxLevels = s.mBatMaxLevels ∧
    (l.foldl uploadComp s).texNext = s.texNext ∧
    (l.foldl uploadComp s).texFreed = s.texFreed ∧
    (l.foldl uploadComp s).mCompStates = s.mCompStates ∧
    (l.foldl uploadComp s).mCurrentRenderModelName = s.mCurrentRenderModelName := by
  induction l generalizing s with
  | nil => simp
  | cons info rest ih =>
    have h := uploadComp_frame s info
    have h2 := ih (uploadComp s info)
    simp only [List.foldl_cons]
    obtain ⟨a1, a2, a3, a4, a5, a6, a7, a8, a9, a10, a11⟩ := h
    obtain ⟨b1, b2, b3, b4, b5, b6, b7, b8, b9, b10, b11⟩ := h2
    exact ⟨b1.trans a1, b2.trans a2, b3.trans a3, b4.trans a4, b5.trans a5, b6.trans a6,
      b7.trans a7, b8.trans a8, b9.trans a9, b10.trans a10, b11.trans a11⟩

/-- The existence flag of `c` after one iteration of the component loop. -/
theorem uploadComp_existFlag (s : Controller) (info : WVR_CtrlerCompInfo) (c : CompIdx) :
    (uploadComp s info).mCompExistFlags c
      = (s.mCompExistFlags c || decide (getCompIdxByName info.name = c.val)) := by
  have hflags : (uploadComp s info).mCompExistFlags =
      if h : getCompIdxByName info.name < CtrlerComp_MaxCompNumber then
        Function.update s.mCompExistFlags ⟨getCompIdxByName info.name, h⟩ true
      else s.mCompExistFlags := by
    simp only [uploadComp]
    split_ifs <;> rfl
  rw [hflags]
  by_cases h : getCompIdxByName info.name < CtrlerComp_MaxCompNumber
  · simp only [h, dite_true, Function.update_apply]
    by_cases hc : c = ⟨getCompIdxByName info.name, h⟩
    · have : getCompIdxByName info.name = c.val := by rw [hc]
      simp [hc]
    · have : ¬ getCompIdxByName info.name = c.val := fun e => hc (Fin.ext e.symm)
      simp [hc, this]
  · have : ¬ getCompIdxByName info.name = c.val := fun e => h (by rw [e]; exact c.isLt)
    simp [h, this]

/-- The existence flag of `c` after the component loop: set before, or set by an
entry whose name resolves to `c`. -/
theorem foldl_uploadComp_existFlag (l : List WVR_CtrlerCompInfo) (s : Controller)
    (c : CompIdx) :
    (l.foldl uploadComp s).mCompExistFlags c
      = (s.mCompExistFlags c ||
          l.any (fun info => decide (getCompIdxByName info.name = c.val))) := by
  induction l generalizing s with
  | nil => simp
  | cons info rest ih =>
    simp only [List.foldl_cons, List.any_cons, ih, uploadComp_existFlag, Bool.or_assoc]

/-- What the battery loop leaves alone. -/
theorem uploadBattery_frame (texLoad : WVR_CtrlerTexBitmap → Bool)
    (l : List WVR_BatteryLevel) (lv : Nat) (s : Controller) :
    (uploadBattery texLoad l lv s).mCachedData = s.mCachedData ∧
    (uploadBattery texLoad l lv s).mIsDataReady = s.mIsDataReady ∧
    (uploadBattery texLoad l lv s).mInitialized = s.mInitialized ∧
    (uploadBattery texLoad l lv s).mTextureTable = s.mTextureTable ∧
    (uploadBattery texLoad l lv s).mCompExistFlags = s.mCompExistFlags ∧
    (uploadBattery texLoad l lv s).mIsOneVolumeKey = s.mIsOneVolumeKey ∧
    (uploadBattery texLoad l lv s).texFreed = s.texFreed ∧
    (uploadBattery texLoad l lv s).mCompStates = s.mCompStates ∧
    (uploadBattery texLoad l lv s).mEmitterPose = s.mEmitterPose ∧
    (uploadBattery texLoad l lv s).mCurrentRenderModelName = s.mCurrentRenderModelName := by
  induction l generalizing lv s with
  | nil => simp [uploadBattery]
  | cons e rest ih =>
    simp only [uploadBattery]
    split
    · obtain ⟨b1, b2, b3, b4, b5, b6, b7, b8, b9, b10⟩ := ih (lv + 1)
        { s with
          mBatMinLevels := s.mBatMinLevels.set lv e.minLv
          mBatMaxLevels := s.mBatMaxLevels.set lv e.maxLv
          mBatLvTex := s.mBatLvTex.set lv
            (loadTextureFromBitmapWithoutCached texLoad e.tex s.texNext).1
          texNext := (loadTextureFromBitmapWithoutCached texLoad e.tex s.texNext).2 }
      exact ⟨b1, b2, b3, b4, b5, b6, b7, b8, b9, b10⟩
    · obtain ⟨b1, b2, b3, b4, b5, b6, b7, b8, b9, b10⟩ := ih (lv + 1)
        { s with
          mBatMinLevels := s.mBatMinLevels.set lv e.minLv
          mBatMaxLevels := s.mBatMaxLevels.set lv e.maxLv }
      exact ⟨b1, b2, b3, b4, b5, b6, b7, b8, b9, b10⟩

/-- The texture loop fills one slot per bitmap. -/
theorem uploadTextures_length (texLoad : WVR_CtrlerTexBitmap → Bool)
    (l : List WVR_CtrlerTexBitmap) (next : Nat) :
    (uploadTextures texLoad l next).1.length = l.length := by
  induction l generalizing next with
  | nil => rfl
  | cons b rest ih => simp [uploadTextures, ih]

/-- The existence flags after an upload are those the component loop produced. -/
theorem initializeCtrlerModelGLComp_existFlag (texLoad : WVR_CtrlerTexBitmap → Bool)
    (d : WVR_CtrlerModel) (s : Controller) (c : CompIdx) :
    (initializeCtrlerModelGLComp texLoad d s).mCompExistFlags c
      = (s.mCompExistFlags c ||
          d.compInfos.any (fun info => decide (getCompIdxByName info.name = c.val))) := by
  unfold initializeCtrlerModelGLComp
  simp only [(uploadBattery_frame texLoad _ _ _).2.2.2.2.1]
  split <;> simp [foldl_uploadComp_existFlag]

/-- The single-volume-key flag after an upload, in terms of the existence flags the
component loop produced. -/
theorem initializeCtrlerModelGLComp_isOneVolumeKey (texLoad : WVR_CtrlerTexBitmap → Bool)
    (d : WVR_CtrlerModel) (s : Controller) :
    (initializeCtrlerModelGLComp texLoad d s).mIsOneVolumeKey
      = ((initializeCtrlerModelGLComp texLoad d s).mCompExistFlags ⟨CtrlerComp_VolumeKey, by decide⟩
          && !(initializeCtrlerModelGLComp texLoad d s).mCompExistFlags
              ⟨CtrlerComp_VolumeUpKey, by decide⟩
          && !(initializeCtrlerModelGLComp texLoad d s).mCompExistFlags
              ⟨CtrlerComp_VolumeDownKey, by decide⟩) := by
  unfold initializeCtrlerModelGLComp
  simp only [(uploadBattery_frame texLoad _ _ _).2.2.2.2.1,
    (uploadBattery_frame texLoad _ _ _).2.2.2.2.2.1]
  split
  · rename_i h
    obtain ⟨h1, h2, h3⟩ := h
    simp [h1, h2, h3]
  · rename_i h
    simp only [not_and] at h
    simp only
    cases h1 : (List.foldl uploadComp { s with mEmitterPose := Matrix4.identity }
        d.compInfos).mCompExistFlags ⟨CtrlerComp_VolumeKey, by decide⟩
    · simp
    · cases h2 : (List.foldl uploadComp { s with mEmitterPose := Matrix4.identity }
          d.compInfos).mCompExistFlags ⟨CtrlerComp_VolumeUpKey, by decide⟩
      · have h3 := h h1 h2
        simp at h3
        simp [h3]
      · simp

/-- Whether a bundle has an entry carrying a given name. -/
theorem any_resolves_iff (l : List WVR_CtrlerCompInfo) (c : CompIdx) :
    l.any (fun info => decide (getCompIdxByName info.name = c.val)) = true ↔
      ∃ info ∈ l, info.name = sControllerCompNames.getD c.val "" := by
  simp only [List.any_eq_true, decide_eq_true_eq, getCompIdxByName_eq_iff]

/-- What an upload leaves alone, and the size of the texture table it builds. -/
theorem initializeCtrlerModelGLComp_frame (texLoad : WVR_CtrlerTexBitmap → Bool)
    (d : WVR_CtrlerModel) (s : Controller) :
    (initializeCtrlerModelGLComp texLoad d s).texFreed = s.texFreed ∧
    (initializeCtrlerModelGLComp texLoad d s).mTextureTable.length = d.bitmapInfos.length ∧
    (initializeCtrlerModelGLComp texLoad d s).mCompStates = s.mCompStates ∧
    (initializeCtrlerModelGLComp texLoad d s).mCurrentRenderModelName
      = s.mCurrentRenderModelName := by
  unfold initializeCtrlerModelGLComp
  obtain ⟨-, -, -, b4, -, -, b7, b8, -, b10⟩ := uploadBattery_frame texLoad d.batteryLevels 0
    (let s1 : Controller :=
        d.compInfos.foldl uploadComp { s with mEmitterPose := Matrix4.identity }
      let s2 : Controller :=
        if s1.mCompExistFlags ⟨CtrlerComp_VolumeKey, by decide⟩ = true ∧
            s1.mCompExistFlags ⟨CtrlerComp_VolumeUpKey, by decide⟩ = false ∧
            s1.mCompExistFlags ⟨CtrlerComp_VolumeDownKey, by decide⟩ = false then
          { s1 with mIsOneVolumeKey := true }
        else
          { s1 with mIsOneVolumeKey := false }
      let ts := uploadTextures texLoad d.bitmapInfos s2.texNext
      let s3 : Controller := { s2 with mTextureTable := ts.1, texNext := ts.2 }
      { s3 with
        mBatLvTex := vectorResize s3.mBatLvTex d.batteryLevels.length none
        mBatMinLevels := vectorResize s3.mBatMinLevels d.batteryLevels.length 0
        mBatMaxLevels := vectorResize s3.mBatMaxLevels d.batteryLevels.length 0 })
  obtain ⟨-, -, -, -, -, -, -, -, a9, a10, a11⟩ :=
    foldl_uploadComp_frame d.compInfos { s with mEmitterPose := Matrix4.identity }
  refine ⟨?_, ?_, ?_, ?_⟩
  · rw [b7]; simp only []; split <;> exact a9
  · rw [b4]; simp only [uploadTextures_length]
  · rw [b8]; simp only []; split <;> exact a10
  · rw [b10]; simp only []; split <;> exact a11

/-- The single-volume-key flag after release followed by upload of a bundle: true
exactly when the bundle has the combined volume key and neither the up nor the down
key. -/
theorem isOneVolumeKey_after_reupload (texLoad : WVR_CtrlerTexBitmap → Bool)
    (d : WVR_CtrlerModel) (s : Controller) :
    (initializeCtrlerModelGLComp texLoad d (releaseCtrlerModelGLComp s)).mIsOneVolumeKey = true ↔
      ((∃ info ∈ d.compInfos, info.name = "__CM__VolumeKey") ∧
        (¬ ∃ info ∈ d.compInfos, info.name = "__CM__VolumeUp") ∧
        (¬ ∃ info ∈ d.compInfos, info.name = "__CM__VolumeDown")) := by
  rw [initializeCtrlerModelGLComp_isOneVolumeKey]
  simp only [initializeCtrlerModelGLComp_existFlag, Bool.and_eq_true, Bool.not_eq_true',
    Bool.or_eq_true, Bool.or_eq_false_iff]
  have hrel : ∀ c, (releaseCtrlerModelGLComp s).mCompExistFlags c = false := fun _ => rfl
  have e6 := any_resolves_iff d.compInfos ⟨CtrlerComp_VolumeKey, by decide⟩
  have e7 := any_resolves_iff d.compInfos ⟨CtrlerComp_VolumeUpKey, by decide⟩
  have e8 := any_resolves_iff d.compInfos ⟨CtrlerComp_VolumeDownKey, by decide⟩
  have n6 : sControllerCompNames.getD CtrlerComp_VolumeKey "" = "__CM__VolumeKey" := by decide
  have n7 : sControllerCompNames.getD CtrlerComp_VolumeUpKey "" = "__CM__VolumeUp" := by decide
  have n8 : sControllerCompNames.getD CtrlerComp_VolumeDownKey "" = "__CM__VolumeDown" := by
    decide
  simp only [n6] at e6
  simp only [n7] at e7
  simp only [n8] at e8
  simp only [hrel, false_or, true_and, ← e6, ← e7, ← e8, Bool.not_eq_true, false_and,
    Bool.false_eq_true]
  exact and_assoc

/-- C7: after the render upload step (release followed by upload) of the cached
bundle, the single-volume-key flag is true if and only if the bundle has a component
named for the combined volume key and has neither the volume-up nor the volume-down
component. -/
theorem render_initStep_isOneVolumeKey (texLoad : WVR_CtrlerTexBitmap → Bool)
    (s : Controller) (d : WVR_CtrlerModel)
    (hi : s.mInitialized = false) (hr : s.mIsDataReady = true) (hd : s.mCachedData = some d) :
    (render_initStep texLoad s).mIsOneVolumeKey = true ↔
      ((∃ info ∈ d.compInfos, info.name = "__CM__VolumeKey") ∧
        (¬ ∃ info ∈ d.compInfos, info.name = "__CM__VolumeUp") ∧
        (¬ ∃ info ∈ d.compInfos, info.name = "__CM__VolumeDown")) := by
  have h : (render_initStep texLoad s).mIsOneVolumeKey
      = (initializeCtrlerModelGLComp texLoad d (releaseCtrlerModelGLComp s)).mIsOneVolumeKey := by
    simp [render_initStep, hi, hr, hd]
  rw [h]
  exact isOneVolumeKey_after_reupload texLoad d s

/-- The witness of C7: a bundle with the combined volume key only sets the flag. -/
theorem render_initStep_isOneVolumeKey_witness :
    (render_initStep (fun _ => true)
      (loadModelFunc WVR_Success (some sampleVolumeModel) sampleActive)).mIsOneVolumeKey = true ↔
      ((∃ info ∈ sampleVolumeModel.compInfos, info.name = "__CM__VolumeKey") ∧
        (¬ ∃ info ∈ sampleVolumeModel.compInfos, info.name = "__CM__VolumeUp") ∧
        (¬ ∃ info ∈ sampleVolumeModel.compInfos, info.name = "__CM__VolumeDown")) :=
  render_initStep_isOneVolumeKey (fun _ => true)
    (loadModelFunc WVR_Success (some sampleVolumeModel) sampleActive) sampleVolumeModel
    rfl rfl rfl

/-- C3: the first step of `render`. With `initialized` false, `dataReady` true and a
cached bundle `d` (whatever its component names resolve to), the step releases the old
uploaded model (its texture objects are deleted, its existence flags do not survive),
uploads `d`, drops the cached bundle and ends with `dataReady` false and `initialized`
true. With `initialized` true or `dataReady` false the step changes nothing. -/
theorem render_initStep_spec (texLoad : WVR_CtrlerTexBitmap → Bool) (s : Controller) :
    (∀ d : WVR_CtrlerModel,
      s.mInitialized = false → s.mIsDataReady = true → s.mCachedData = some d →
        (render_initStep texLoad s).mCachedData = none ∧
        (render_initStep texLoad s).mIsDataReady = false ∧
        (render_initStep texLoad s).mInitialized = true ∧
        uploadedModel (render_initStep texLoad s)
          = uploadedModel (initializeCtrlerModelGLComp texLoad d (releaseCtrlerModelGLComp s)) ∧
        (render_initStep texLoad s).texFreed
          = s.texFreed ++ deletedHandles s.mTextureTable ++ deletedHandles s.mBatLvTex ∧
        (∀ c : CompIdx, (render_initStep texLoad s).mCompExistFlags c = true ↔
          ∃ info ∈ d.compInfos, info.name = sControllerCompNames.getD c.val "") ∧
        (render_initStep texLoad s).mTextureTable.length = d.bitmapInfos.length) ∧
    ((s.mInitialized = true ∨ s.mIsDataReady = false) → render_initStep texLoad s = s) := by
  constructor
  · intro d hi hr hd
    have h : render_initStep texLoad s =
        { initializeCtrlerModelGLComp texLoad d (releaseCtrlerModelGLComp s) with
          mCachedData := none, mIsDataReady := false, mInitialized := true } := by
      simp [render_initStep, hi, hr, hd]
    rw [h]
    obtain ⟨f1, f2, -, -⟩ := initializeCtrlerModelGLComp_frame texLoad d (releaseCtrlerModelGLComp s)
    refine ⟨rfl, rfl, rfl, rfl, ?_, ?_, ?_⟩
    · show (initializeCtrlerModelGLComp texLoad d (releaseCtrlerModelGLComp s)).texFreed = _
      rw [f1]; rfl
    · intro c
      show (initializeCtrlerModelGLComp texLoad d (releaseCtrlerModelGLComp s)).mCompExistFlags c
        = true ↔ _
      rw [initializeCtrlerModelGLComp_existFlag, ← any_resolves_iff]
      have hrel : (releaseCtrlerModelGLComp s).mCompExistFlags c = false := rfl
      simp [hrel]
    · exact f2
  · intro h
    unfold render_initStep
    rcases h with h | h
    · simp [h]
    · simp [h]

/-- The witness of C3: the body uploaded in `sampleActive` is gone after the step
uploads a bundle in which no name resolves, and the step does nothing on
`sampleActive` itself. -/
theorem render_initStep_spec_witness :
    ((render_initStep (fun _ => true) sampleUnresolvedReady).mInitialized = true ∧
      (render_initStep (fun _ => true) sampleUnresolvedReady).mCompExistFlags
        ⟨CtrlerComp_Body, by decide⟩ = false ∧
      sampleUnresolvedReady.mCompExistFlags ⟨CtrlerComp_Body, by decide⟩ = true) ∧
    render_initStep (fun _ => true) sampleActive = sampleActive :=
  ⟨⟨((render_initStep_spec (fun _ => true) sampleUnresolvedReady).1
        sampleUnresolvedModel rfl rfl rfl).2.2.1, by decide, by decide⟩,
    (render_initStep_spec (fun _ => true) sampleActive).2 (Or.inl rfl)⟩

/-! ## Lifecycle flags: proofs -/

/-- Shader set-up does not touch the lifecycle flags. -/
theorem initializeGLComp_flags (lookup : CtrlerDrawModeEnum → ShaderLookup) (s : Controller) :
    (initializeGLComp lookup s).mIsDataReady = s.mIsDataReady ∧
    (initializeGLComp lookup s).mInitialized = s.mInitialized ∧
    (initializeGLComp lookup s).mCurrentRenderModelName = s.mCurrentRenderModelName := by
  unfold initializeGLComp
  cases shaderOf (lookup CtrlerDrawMode_General) with
  | none => exact ⟨rfl, rfl, rfl⟩
  | some sh0 =>
    simp only []
    cases shaderOf (lookup CtrlerDrawMode_Multiview) <;> exact ⟨rfl, rfl, rfl⟩

/-- An input event does not touch the lifecycle flags. -/
theorem refreshButtonStatus_flags (mapping : Option WVR_InputId) (iEvent : WVR_Event)
    (s : Controller) :
    (refreshButtonStatus mapping iEvent s).mIsDataReady = s.mIsDataReady ∧
    (refreshButtonStatus mapping iEvent s).mInitialized = s.mInitialized := by
  simp only [refreshButtonStatus]
  split_ifs <;> exact ⟨rfl, rfl⟩

/-- A battery sample does not touch the lifecycle flags. -/
theorem refreshBatteryStatus_flags (current diffs : Int) (percentage : Nat) (s : Controller) :
    (refreshBatteryStatus current diffs percentage s).mIsDataReady = s.mIsDataReady ∧
    (refreshBatteryStatus current diffs percentage s).mInitialized = s.mInitialized := by
  simp only [refreshBatteryStatus]
  split_ifs
  · exact ⟨rfl, rfl⟩
  · split <;> exact ⟨rfl, rfl⟩
  · exact ⟨rfl, rfl⟩

/-- The flags after the first step of `render`: either the step uploaded, which needs
the ready flag and ends with ready clear and initialized set, or nothing changed. -/
theorem render_initStep_flags (texLoad : WVR_CtrlerTexBitmap → Bool) (s : Controller) :
    (s.mIsDataReady = true ∧ s.mInitialized = false ∧
      (render_initStep texLoad s).mIsDataReady = false ∧
      (render_initStep texLoad s).mInitialized = true) ∨
    render_initStep texLoad s = s := by
  unfold render_initStep
  by_cases h : s.mInitialized = false ∧ s.mIsDataReady = true
  · cases hd : s.mCachedData with
    | none => right; simp [h]
    | some d => left; simp [h]
  · right; simp [h]

/-- Every enabled step keeps the invariant of the lifecycle flags. -/
theorem step_flagsInv (a : Action) (s t : Sys) (hs : flagsInv s) (h : step a s = some t) :
    flagsInv t := by
  obtain ⟨h1, h2⟩ := hs
  cases a with
  | taskClear =>
    cases hp : s.task <;> simp [step, hp] at h
    subst h
    simp [flagsInv, loadModelFunc_clear]
  | taskFetch result data =>
    cases hp : s.task <;> simp [step, hp] at h
    subst h
    have := h2 (by simp [hp])
    simp [flagsInv, loadModelFunc_fetch, this]
  | taskFinish =>
    cases hp : s.task <;> simp [step, hp] at h
    subst h
    have := h2 (by simp [hp])
    unfold flagsInv loadModelFunc_finish
    split <;> simp [this]
  | renderInit texLoad =>
    simp only [step, Option.some.injEq] at h
    subst h
    rcases render_initStep_flags texLoad s.ctrl with ⟨hr, -, hr2, hi2⟩ | hsame
    · refine ⟨by simp [hr2], ?_⟩
      intro hne
      have := (h2 hne).1
      simp [hr] at this
    · exact ⟨by simpa [hsame] using h1, by simpa [hsame] using h2⟩
  | disconnected =>
    simp only [step, Option.some.injEq] at h
    subst h
    have hr : (handleDisconnected s.ctrl).mIsDataReady = s.ctrl.mIsDataReady := rfl
    have hi : (handleDisconnected s.ctrl).mInitialized = false := rfl
    refine ⟨by simp [hi], ?_⟩
    intro hne
    exact ⟨by rw [hr]; exact (h2 hne).1, hi⟩
  | loadAsync name =>
    simp only [step, Option.some.injEq] at h
    subst h
    have hr : (loadControllerModelAsync name s.ctrl).1.mIsDataReady = s.ctrl.mIsDataReady := by
      unfold loadControllerModelAsync; split <;> rfl
    have hi : (loadControllerModelAsync name s.ctrl).1.mInitialized = s.ctrl.mInitialized := by
      unfold loadControllerModelAsync; split <;> rfl
    exact ⟨by simpa [hr, hi] using h1, by simpa [hr, hi] using h2⟩
  | buttonEvent mapping iEvent =>
    simp only [step, Option.some.injEq] at h
    subst h
    obtain ⟨hr, hi⟩ := refreshButtonStatus_flags mapping iEvent s.ctrl
    exact ⟨by simpa [hr, hi] using h1, by simpa [hr, hi] using h2⟩
  | batteryRefresh current diffs percentage =>
    simp only [step, Option.some.injEq] at h
    subst h
    obtain ⟨hr, hi⟩ := refreshBatteryStatus_flags current diffs percentage s.ctrl
    exact ⟨by simpa [hr, hi] using h1, by simpa [hr, hi] using h2⟩
  | resetEffects =>
    simp only [step, Option.some.injEq] at h
    subst h
    exact ⟨h1, h2⟩

/-- Every schedule keeps the invariant of the lifecycle flags. -/
theorem run_flagsInv (acts : List Action) (s t : Sys) (hs : flagsInv s)
    (h : run acts s = some t) : flagsInv t := by
  induction acts generalizing s with
  | nil =>
    simp only [run, Option.some.injEq] at h
    subst h
    exact hs
  | cons a rest ih =>
    simp only [run] at h
    cases hstep : step a s with
    | none => simp [hstep] at h
    | some s1 =>
      simp only [hstep] at h
      exact ih s1 (step_flagsInv a s s1 hs hstep) h

/-- C1: in every state reached from a freshly constructed controller by any schedule
of the steps (task clear, task fetch, task end, render upload step, disconnect, and
the caller-side routines), `dataReady` and `initialized` are not both true. -/
theorem flags_never_both (lookup : CtrlerDrawModeEnum → ShaderLookup) (now : Int)
    (acts : List Action) (s : Sys) (h : run acts (initSys lookup now) = some s) :
    ¬ (s.ctrl.mIsDataReady = true ∧ s.ctrl.mInitialized = true) := by
  have h0 : flagsInv (initSys lookup now) := by
    obtain ⟨hr, hi, -⟩ := initializeGLComp_flags lookup
      { mIsShowBattery := true
        mBatteryLevel := -1
        mCachedData := none
        mIsDataReady := false
        mInitialized := false
        mCompExistFlags := fun _ => false
        mCompMeshes := fun _ => Mesh.empty
        mCompTexID := fun _ => -1
        mCompLocalMats := fun _ => Matrix4.identity
        mCompStates := fun _ => CtrlerBtnState_None
        mBatLvTex := []
        mBatMinLevels := []
        mBatMaxLevels := []
        mLastUpdateTime := now
        mIsOneVolumeKey := false
        mEmitterPose := Matrix4.identity
        mRayMesh := Mesh.empty
        mTextureTable := []
        mShaders := fun _ => none
        mCurrentRenderModelName := ""
        texNext := 0
        texFreed := [] }
    have hr2 : (initSys lookup now).ctrl.mIsDataReady = false := hr
    have hi2 : (initSys lookup now).ctrl.mInitialized = false := hi
    exact ⟨by simp [hr2], fun _ => ⟨hr2, hi2⟩⟩
  exact (run_flagsInv acts _ s h0 h).1

/-- The witness of C1: `sampleSchedule` runs from a fresh controller to
`sampleFinal`, where the flags are not both set. -/
theorem flags_never_both_witness :
    run sampleSchedule (initSys sampleLookup 0) = some sampleFinal ∧
    ¬ (sampleFinal.ctrl.mIsDataReady = true ∧ sampleFinal.ctrl.mInitialized = true) :=
  ⟨rfl, flags_never_both sampleLookup 0 sampleSchedule sampleFinal rfl⟩

/-! ## Model load coordinator and disconnect: proofs -/

/-- A render call on a state that is not initialized and has no ready bundle draws
nothing and changes nothing. -/
theorem render_idle (env : RenderEnv) (iMode : CtrlerDrawModeEnum) (s : Controller)
    (hi : s.mInitialized = false) (hr : s.mIsDataReady = false) :
    render env iMode s = some (s, []) := by
  have h : render_initStep env.texLoad s = s := by
    unfold render_initStep
    simp [hr]
  unfold render
  simp [h, hi]

/-- The counterexample of C2: in `sampleActive` a model is uploaded and
`initialized` is true; after a background task whose fetch fails, `initialized` is
false. -/
theorem loadModelFunc_failure_counterexample :
    sampleActive.mInitialized = true ∧
    (loadModelFunc (WVR_Error 1) none sampleActive).mInitialized = false := by
  decide

/-- C2, amended: a background task whose fetch returns a non-success status leaves
`dataReady` false and `initialized` false, so the next render call draws nothing; the
uploaded per-component data (flags, meshes, texture indices, transforms, textures,
battery tables) and the visual states are unchanged. -/
theorem loadModelFunc_failure (s : Controller) (result : WVR_Result)
    (data : Option WVR_CtrlerModel) (hf : result ≠ WVR_Success) :
    (loadModelFunc result data s).mIsDataReady = false ∧
    (loadModelFunc result data s).mInitialized = false ∧
    uploadedModel (loadModelFunc result data s) = uploadedModel s ∧
    (loadModelFunc result data s).mCompStates = s.mCompStates ∧
    (∀ (env : RenderEnv) (iMode : CtrlerDrawModeEnum),
      render env iMode (loadModelFunc result data s)
        = some (loadModelFunc result data s, [])) := by
  have h : loadModelFunc result data s
      = { s with mCachedData := data, mIsDataReady := false, mInitialized := false } := by
    simp [loadModelFunc, loadModelFunc_finish, loadModelFunc_fetch, loadModelFunc_clear, hf]
  rw [h]
  refine ⟨rfl, rfl, rfl, rfl, ?_⟩
  intro env iMode
  exact render_idle env iMode _ rfl rfl

/-- The witness of C2: the failing task of the counterexample, run on `sampleActive`. -/
theorem loadModelFunc_failure_witness :
    (loadModelFunc (WVR_Error 1) none sampleActive).mIsDataReady = false ∧
    (loadModelFunc (WVR_Error 1) none sampleActive).mInitialized = false ∧
    uploadedModel (loadModelFunc (WVR_Error 1) none sampleActive) = uploadedModel sampleActive :=
  ⟨(loadModelFunc_failure sampleActive (WVR_Error 1) none (by decide)).1,
    (loadModelFunc_failure sampleActive (WVR_Error 1) none (by decide)).2.1,
    (loadModelFunc_failure sampleActive (WVR_Error 1) none (by decide)).2.2.1⟩

/-- A call that reports the stored name starts no task and changes nothing. -/
theorem loadControllerModelAsync_same (name : String) (s : Controller)
    (h : name = s.mCurrentRenderModelName) :
    loadControllerModelAsync name s = (s, false) := by
  simp [loadControllerModelAsync, h]

/-- Repeated calls that report the stored name start no task and change nothing. -/
theorem loadRepeated_same (name : String) (n : Nat) (s : Controller)
    (h : name = s.mCurrentRenderModelName) : loadRepeated name n s = (s, 0) := by
  induction n with
  | zero => rfl
  | succ k ih =>
    simp only [loadRepeated, loadControllerModelAsync_same name s h, ih]
    simp

/-- The counterexample of C4: a fresh controller stores the empty name, so calls
during which the device reports the empty name start no background fetch at all,
neither 1 nor 3 of them; and 3 calls that follow an accepted call with the same name
start none either. -/
theorem loadRepeated_counterexample :
    (loadRepeated "" 1 (ctor sampleLookup 0)).2 = 0 ∧
    (loadRepeated "" 3 (ctor sampleLookup 0)).2 = 0 ∧
    (loadRepeated "vive" 3 (loadControllerModelAsync "vive" (ctor sampleLookup 0)).1).2 = 0 := by
  decide

/-- C4, amended: for every name different from the stored model name and every
n >= 1, n consecutive `loadControllerModelAsync` calls during which the device reports
that name start exactly one background fetch and leave that name stored; every call
whose reported name equals the stored name starts no task and leaves the state
unchanged, and so do any number of such calls. -/
theorem loadRepeated_one_fetch (name : String) (n : Nat) (s : Controller)
    (hn : 1 ≤ n) (hne : name ≠ s.mCurrentRenderModelName) :
    (loadRepeated name n s).2 = 1 ∧
    (loadRepeated name n s).1.mCurrentRenderModelName = name ∧
    (loadControllerModelAsync name s).2 = true ∧
    (∀ t : Controller, name = t.mCurrentRenderModelName →
      loadControllerModelAsync name t = (t, false)) ∧
    (∀ (m : Nat) (t : Controller), name = t.mCurrentRenderModelName →
      loadRepeated name m t = (t, 0)) := by
  obtain ⟨k, rfl⟩ : ∃ k, n = k + 1 := ⟨n - 1, by omega⟩
  have h1 : loadControllerModelAsync name s
      = ({ s with mCurrentRenderModelName := name }, true) := by
    simp [loadControllerModelAsync, hne]
  have h2 := loadRepeated_same name k { s with mCurrentRenderModelName := name } rfl
  refine ⟨?_, ?_, ?_, fun t ht => loadControllerModelAsync_same name t ht,
    fun m t ht => loadRepeated_same name m t ht⟩
  · simp [loadRepeated, h1, h2]
  · simp [loadRepeated, h1, h2]
  · rw [h1]

/-- The witness of C4: three calls reporting a new name on a fresh controller. -/
theorem loadRepeated_one_fetch_witness :
    (loadRepeated "vive" 3 (ctor sampleLookup 0)).2 = 1 ∧
    (loadRepeated "vive" 3 (ctor sampleLookup 0)).1.mCurrentRenderModelName = "vive" :=
  ⟨(loadRepeated_one_fetch "vive" 3 (ctor sampleLookup 0) (by decide) (by decide)).1,
    (loadRepeated_one_fetch "vive" 3 (ctor sampleLookup 0) (by decide) (by decide)).2.1⟩

/-- The counterexample of C5: in `sampleReady` a fetched bundle waits for upload.
After `handleDisconnected`, the next render call, during which the device reports
connected and with no load task in between, uploads the bundle and draws the body and
the ray. -/
theorem handleDisconnected_counterexample :
    (handleDisconnected sampleReady).mInitialized = false ∧
    (render sampleEnv CtrlerDrawMode_General (handleDisconnected sampleReady)).map Prod.snd
      = some [DrawCall.comp ⟨CtrlerComp_Body, by decide⟩, DrawCall.ray] := by
  decide

/-- C5, amended: after `handleDisconnected` the controller is not initialized, every
existence flag is false and every visual state is None; the next render call, with no
load task in between, issues no draw call provided that no fetched bundle was waiting
for upload at the disconnect (`dataReady` false or no cached bundle) or the device
reports disconnected during that call. -/
theorem handleDisconnected_spec (s : Controller) (env : RenderEnv)
    (iMode : CtrlerDrawModeEnum)
    (h : s.mIsDataReady = false ∨ s.mCachedData = none ∨ env.connected = false) :
    (handleDisconnected s).mInitialized = false ∧
    (∀ c : CompIdx, (handleDisconnected s).mCompExistFlags c = false) ∧
    (∀ c : CompIdx, (handleDisconnected s).mCompStates c = CtrlerBtnState_None) ∧
    (render env iMode (handleDisconnected s)).map Prod.snd = some [] := by
  refine ⟨rfl, fun _ => rfl, fun _ => rfl, ?_⟩
  have hi : (handleDisconnected s).mInitialized = false := rfl
  have hr : (handleDisconnected s).mIsDataReady = s.mIsDataReady := rfl
  have hd : (handleDisconnected s).mCachedData = s.mCachedData := rfl
  rcases h with h | h | h
  · rw [render_idle env iMode _ hi (by rw [hr]; exact h)]
    rfl
  · have hstep : render_initStep env.texLoad (handleDisconnected s) = handleDisconnected s := by
      unfold render_initStep
      rw [hd, h]
      split <;> rfl
    unfold render
    simp [hstep, hi]
  · unfold render
    simp [h]

/-- The witness of C5: a disconnect of `sampleActive`, then a render call during
which the device reports connected. -/
theorem handleDisconnected_spec_witness :
    (handleDisconnected sampleActive).mInitialized = false ∧
    (render sampleEnv CtrlerDrawMode_General (handleDisconnected sampleActive)).map Prod.snd
      = some [] :=
  ⟨(handleDisconnected_spec sampleActive sampleEnv CtrlerDrawMode_General (Or.inl rfl)).1,
    (handleDisconnected_spec sampleActive sampleEnv CtrlerDrawMode_General
      (Or.inl rfl)).2.2.2⟩

/-! ## Input state tracker: proofs -/

/-- C9: for every event whose input identifier maps to a component `c`,
`refreshButtonStatus` leaves `c` in the state given by the action type, whatever the
state before: touch-tap gives Tapped, button-press gives Pressed, button-release gives
Tapped, touch-untap gives None. -/
theorem refreshButtonStatus_action (s : Controller) (mapping : Option WVR_InputId)
    (iEvent : WVR_Event) (c : CompIdx)
    (hc : btnIDOf s.mIsOneVolumeKey (eventBtnIDOf mapping iEvent) = c.val) :
    (iEvent.type = WVR_EventType_TouchTapped →
      (refreshButtonStatus mapping iEvent s).mCompStates c = CtrlerBtnState_Tapped) ∧
    (iEvent.type = WVR_EventType_ButtonPressed →
      (refreshButtonStatus mapping iEvent s).mCompStates c = CtrlerBtnState_Pressed) ∧
    (iEvent.type = WVR_EventType_ButtonUnpressed →
      (refreshButtonStatus mapping iEvent s).mCompStates c = CtrlerBtnState_Tapped) ∧
    (iEvent.type = WVR_EventType_TouchUntapped →
      (refreshButtonStatus mapping iEvent s).mCompStates c = CtrlerBtnState_None) := by
  have hlt : btnIDOf s.mIsOneVolumeKey (eventBtnIDOf mapping iEvent)
      < CtrlerComp_MaxCompNumber := by rw [hc]; exact c.isLt
  have hfin : (⟨btnIDOf s.mIsOneVolumeKey (eventBtnIDOf mapping iEvent), hlt⟩ : CompIdx) = c :=
    Fin.ext hc
  have key : (refreshButtonStatus mapping iEvent s).mCompStates c = btnStateOf iEvent.type := by
    unfold refreshButtonStatus
    simp only [hlt, dite_true]
    split
    · simp only [Function.update_apply, hfin, if_true]
      split <;> rfl
    · simp [Function.update_apply, hfin]
  refine ⟨?_, ?_, ?_, ?_⟩ <;> intro ht <;> rw [key, ht] <;> rfl

/-- The witness of C9: a button release on the menu button of a state where that
button is Pressed leaves it Tapped. -/
theorem refreshButtonStatus_action_witness :
    (refreshButtonStatus none ⟨WVR_InputId_Alias1_Menu, WVR_EventType_ButtonUnpressed⟩
      (refreshButtonStatus none ⟨WVR_InputId_Alias1_Menu, WVR_EventType_ButtonPressed⟩
        sampleActive)).mCompStates ⟨CtrlerComp_AppButton, by decide⟩ = CtrlerBtnState_Tapped :=
  (refreshButtonStatus_action
    (refreshButtonStatus none ⟨WVR_InputId_Alias1_Menu, WVR_EventType_ButtonPressed⟩ sampleActive)
    none ⟨WVR_InputId_Alias1_Menu, WVR_EventType_ButtonUnpressed⟩
    ⟨CtrlerComp_AppButton, by decide⟩ rfl).2.2.1 rfl

/-- C10: after `refreshButtonStatus` on a bumper event (the identifier the routine
switches on is the bumper) of any action type, the bumper component and the
digital-trigger component hold the same state, the one derived from the action type;
a bumper press leaves the digital trigger Pressed. -/
theorem refreshButtonStatus_bumper (s : Controller) (mapping : Option WVR_InputId)
    (iEvent : WVR_Event)
    (hb : eventBtnIDOf mapping iEvent = WVR_InputId_Alias1_Bumper) :
    (refreshButtonStatus mapping iEvent s).mCompStates ⟨CtrlerComp_BumperKey, by decide⟩
      = btnStateOf iEvent.type ∧
    (refreshButtonStatus mapping iEvent s).mCompStates ⟨CtrlerComp_DigitalTriggerKey, by decide⟩
      = btnStateOf iEvent.type ∧
    (refreshButtonStatus mapping iEvent s).mCompStates ⟨CtrlerComp_DigitalTriggerKey, by decide⟩
      = (refreshButtonStatus mapping iEvent s).mCompStates ⟨CtrlerComp_BumperKey, by decide⟩ ∧
    (iEvent.type = WVR_EventType_ButtonPressed →
      (refreshButtonStatus mapping iEvent s).mCompStates ⟨CtrlerComp_DigitalTriggerKey, by decide⟩
        = CtrlerBtnState_Pressed) := by
  have hid : btnIDOf s.mIsOneVolumeKey (eventBtnIDOf mapping iEvent) = CtrlerComp_BumperKey := by
    rw [hb]; rfl
  have h1 : (refreshButtonStatus mapping iEvent s).mCompStates ⟨CtrlerComp_BumperKey, by decide⟩
      = btnStateOf iEvent.type := by
    unfold refreshButtonStatus
    simp only [hid]
    simp [Function.update_apply, CtrlerComp_BumperKey, CtrlerComp_MaxCompNumber,
      CtrlerComp_DigitalTriggerKey]
  have h2 : (refreshButtonStatus mapping iEvent s).mCompStates
      ⟨CtrlerComp_DigitalTriggerKey, by decide⟩ = btnStateOf iEvent.type := by
    unfold refreshButtonStatus
    simp only [hid]
    simp [Function.update_apply, CtrlerComp_BumperKey, CtrlerComp_MaxCompNumber,
      CtrlerComp_DigitalTriggerKey]
  refine ⟨h1, h2, by rw [h1, h2], ?_⟩
  intro ht
  rw [h2, ht]
  rfl

/-- The witness of C10: a bumper press on a state where everything is idle. -/
theorem refreshButtonStatus_bumper_witness :
    (refreshButtonStatus none ⟨WVR_InputId_Alias1_Bumper, WVR_EventType_ButtonPressed⟩
      sampleActive).mCompStates ⟨CtrlerComp_DigitalTriggerKey, by decide⟩
      = CtrlerBtnState_Pressed :=
  (refreshButtonStatus_bumper sampleActive none
    ⟨WVR_InputId_Alias1_Bumper, WVR_EventType_ButtonPressed⟩ rfl).2.2.2 rfl

/-! ## Battery status sampler: proofs -/

/-- Conversion to `uint32_t` leaves a value of the non-negative `int32_t` range
unchanged. -/
theorem toUInt32_of_nonneg (x : Int) (h0 : 0 ≤ x) (h1 : x < 2147483648) :
    ((toUInt32 x : Nat) : Int) = x := by
  unfold toUInt32
  have : x % 4294967296 = x := Int.emod_eq_of_lt h0 (by omega)
  rw [this]
  exact Int.toNat_of_nonneg h0

/-- Conversion to `int32_t` leaves an index below 2^31 unchanged. -/
theorem toInt32_of_lt (n : Nat) (h : n < 2147483648) : toInt32 n = (n : Int) := by
  unfold toInt32
  have : n % 4294967296 = n := Nat.mod_eq_of_lt (by omega)
  simp [this, h]

/-- The scan stops at the first level whose bucket matches. -/
theorem batteryScan_some (p : Nat) (hp : p < 4294967296) (allMins maxs : List Int) :
    ∀ (mins : List Int) (lv0 : Nat),
      (∀ i, i < mins.length → mins.getD i 0 = allMins.getD (lv0 + i) 0) →
      ∀ lv, lv0 ≤ lv → lv < lv0 + mins.length → bucketMatches allMins maxs p lv →
        (∀ j, lv0 ≤ j → j < lv → ¬ bucketMatches allMins maxs p j) →
        batteryScan p maxs mins lv0 = some (toInt32 lv) := by
  intro mins
  induction mins with
  | nil => intro lv0 _ lv h1 h2; simp at h2; omega
  | cons mn rest ih =>
    intro lv0 hsuf lv h1 h2 hm hleast
    have hmn : mn = allMins.getD lv0 0 := by
      have := hsuf 0 (by simp)
      simpa using this
    have hpm : p % 4294967296 = p := Nat.mod_eq_of_lt hp
    by_cases hlv : lv = lv0
    · subst hlv
      unfold bucketMatches at hm
      simp only [batteryScan, hpm, hmn]
      rw [if_pos hm]
    · have hno := hleast lv0 (le_refl _) (by omega)
      unfold bucketMatches at hno
      simp only [batteryScan, hpm, hmn]
      rw [if_neg hno]
      apply ih (lv0 + 1)
      · intro i hi
        have := hsuf (i + 1) (by simp; omega)
        simp only [List.getD_cons_succ] at this
        rw [this]
        congr 1
        omega
      · omega
      · simp only [List.length_cons] at h2; omega
      · exact hm
      · intro j hj1 hj2
        exact hleast j (by omega) hj2

/-- The scan runs off the end when no bucket matches. -/
theorem batteryScan_none (p : Nat) (hp : p < 4294967296) (allMins maxs : List Int) :
    ∀ (mins : List Int) (lv0 : Nat),
      (∀ i, i < mins.length → mins.getD i 0 = allMins.getD (lv0 + i) 0) →
      (∀ j, lv0 ≤ j → j < lv0 + mins.length → ¬ bucketMatches allMins maxs p j) →
      batteryScan p maxs mins lv0 = none := by
  intro mins
  induction mins with
  | nil => intro lv0 _ _; rfl
  | cons mn rest ih =>
    intro lv0 hsuf hnone
    have hmn : mn = allMins.getD lv0 0 := by
      have := hsuf 0 (by simp)
      simpa using this
    have hpm : p % 4294967296 = p := Nat.mod_eq_of_lt hp
    have hno := hnone lv0 (le_refl _) (by simp)
    unfold bucketMatches at hno
    simp only [batteryScan, hpm, hmn]
    rw [if_neg hno]
    apply ih (lv0 + 1)
    · intro i hi
      have := hsuf (i + 1) (by simp; omega)
      simp only [List.getD_cons_succ] at this
      rw [this]
      congr 1
      omega
    · intro j hj1 hj2
      exact hnone j (by omega) (by simp only [List.length_cons]; omega)

/-- The counterexample of C8: with the single bucket (-1,100) and the sample 50, the
integers satisfy -1 <= 50 <= 100, so level 0 is the least matching index, but the
sampled state keeps its previous level -1. -/
theorem refreshBatteryStatus_counterexample :
    specBucketMatches sampleNegativeBatteryState.mBatMinLevels
      sampleNegativeBatteryState.mBatMaxLevels 50 0 ∧
    sampleNegativeBatteryState.mBatteryLevel = -1 ∧
    (refreshBatteryStatus 1 1 50 sampleNegativeBatteryState).mBatteryLevel = -1 := by
  decide

/-- C8, amended: when a sample is taken (battery component present, cool-down
elapsed) with a percentage `p` in 0..100, the new battery level is the least index
`lv` whose bucket matches, where the thresholds are compared after conversion to
unsigned 32 bits, and if no bucket matches the level keeps its previous value. For
thresholds in the non-negative `int32_t` range the converted test is
`min[lv] <= p <= max[lv]`. With thresholds [(0,20),(21,50),(51,100)] the percentages
0, 20, 21, 75, 100 give the levels 0, 0, 1, 2, 2. -/
theorem refreshBatteryStatus_bucket (s : Controller) (current diffs : Int) (p : Nat)
    (hb : s.mCompExistFlags ⟨CtrlerComp_Battery, by decide⟩ = true) (hd : 1 ≤ diffs)
    (hp : p ≤ 100) (hsz : s.mBatMinLevels.length ≤ 2147483648) :
    (∀ lv, lv < s.mBatMinLevels.length →
      bucketMatches s.mBatMinLevels s.mBatMaxLevels p lv →
      (∀ j, j < lv → ¬ bucketMatches s.mBatMinLevels s.mBatMaxLevels p j) →
      (refreshBatteryStatus current diffs p s).mBatteryLevel = (lv : Int)) ∧
    ((∀ lv, lv < s.mBatMinLevels.length →
        ¬ bucketMatches s.mBatMinLevels s.mBatMaxLevels p lv) →
      (refreshBatteryStatus current diffs p s).mBatteryLevel = s.mBatteryLevel) ∧
    (∀ lv, 0 ≤ s.mBatMinLevels.getD lv 0 → s.mBatMinLevels.getD lv 0 < 2147483648 →
      0 ≤ s.mBatMaxLevels.getD lv 0 → s.mBatMaxLevels.getD lv 0 < 2147483648 →
      (bucketMatches s.mBatMinLevels s.mBatMaxLevels p lv ↔
        specBucketMatches s.mBatMinLevels s.mBatMaxLevels p lv)) ∧
    (s.mBatMinLevels = [0, 21, 51] → s.mBatMaxLevels = [20, 50, 100] →
      (p = 0 → (refreshBatteryStatus current diffs p s).mBatteryLevel = 0) ∧
      (p = 20 → (refreshBatteryStatus current diffs p s).mBatteryLevel = 0) ∧
      (p = 21 → (refreshBatteryStatus current diffs p s).mBatteryLevel = 1) ∧
      (p = 75 → (refreshBatteryStatus current diffs p s).mBatteryLevel = 2) ∧
      (p = 100 → (refreshBatteryStatus current diffs p s).mBatteryLevel = 2)) := by
  have hp32 : p < 4294967296 := by omega
  have hdiff : diffs ≥ 1 := hd
  have hunfold : refreshBatteryStatus current diffs p s =
      match batteryScan p s.mBatMaxLevels s.mBatMinLevels 0 with
      | some lv => { s with mLastUpdateTime := current, mBatteryLevel := lv }
      | none => { s with mLastUpdateTime := current } := by
    unfold refreshBatteryStatus
    simp only [hb, Bool.true_eq_false, if_false, hdiff, if_true]
  refine ⟨?_, ?_, ?_, ?_⟩
  · intro lv hlv hm hleast
    have hscan := batteryScan_some p hp32 s.mBatMinLevels s.mBatMaxLevels s.mBatMinLevels 0
      (fun i _ => by simp) lv (Nat.zero_le _) (by omega) hm (fun j _ hj => hleast j hj)
    rw [hunfold, hscan]
    exact toInt32_of_lt lv (by omega)
  · intro hnone
    have hscan := batteryScan_none p hp32 s.mBatMinLevels s.mBatMaxLevels s.mBatMinLevels 0
      (fun i _ => by simp) (fun j _ hj => hnone j (by omega))
    rw [hunfold, hscan]
  · intro lv h0 h1 h2 h3
    have e1 := toUInt32_of_nonneg _ h0 h1
    have e2 := toUInt32_of_nonneg _ h2 h3
    unfold bucketMatches specBucketMatches
    constructor
    · rintro ⟨a, b⟩
      exact ⟨by rw [← e1]; exact_mod_cast a, by rw [← e2]; exact_mod_cast b⟩
    · rintro ⟨a, b⟩
      rw [← e1] at a
      rw [← e2] at b
      exact ⟨by exact_mod_cast a, by exact_mod_cast b⟩
  · intro hmin hmax
    rw [hunfold, hmin, hmax]
    have s0 : batteryScan 0 [20, 50, 100] [0, 21, 51] 0 = some 0 := by decide
    have s20 : batteryScan 20 [20, 50, 100] [0, 21, 51] 0 = some 0 := by decide
    have s21 : batteryScan 21 [20, 50, 100] [0, 21, 51] 0 = some 1 := by decide
    have s75 : batteryScan 75 [20, 50, 100] [0, 21, 51] 0 = some 2 := by decide
    have s100 : batteryScan 100 [20, 50, 100] [0, 21, 51] 0 = some 2 := by decide
    refine ⟨?_, ?_, ?_, ?_, ?_⟩ <;> intro hpv <;> subst hpv
    · rw [s0]
    · rw [s20]
    · rw [s21]
    · rw [s75]
    · rw [s100]

/-- The witness of C8: the sample 75 on the uploaded table [(0,20),(21,50),(51,100)]
moves the level from -1 to 2. -/
theorem refreshBatteryStatus_bucket_witness :
    sampleBatteryState.mBatteryLevel = -1 ∧
    (refreshBatteryStatus 1 1 75 sampleBatteryState).mBatteryLevel = 2 :=
  ⟨by decide,
    ((refreshBatteryStatus_bucket sampleBatteryState 1 1 75 (by decide) (by decide)
      (by decide) (by decide)).2.2.2 (by decide) (by decide)).2.2.2.1 rfl⟩

/-! ## Input state tracker: aliasing and frame -/

/-- The visual states after `refreshButtonStatus`: the component the identifier maps
to, and the digital trigger when that component is the bumper, hold the state derived
from the action type; every other component keeps its state. -/
theorem refreshButtonStatus_states (s : Controller) (mapping : Option WVR_InputId)
    (iEvent : WVR_Event) (c : CompIdx) :
    (refreshButtonStatus mapping iEvent s).mCompStates c =
      if c.val = btnIDOf s.mIsOneVolumeKey (eventBtnIDOf mapping iEvent) ∨
          (btnIDOf s.mIsOneVolumeKey (eventBtnIDOf mapping iEvent) = CtrlerComp_BumperKey ∧
            c.val = CtrlerComp_DigitalTriggerKey) then
        btnStateOf iEvent.type
      else s.mCompStates c := by
  have hst : (refreshButtonStatus mapping iEvent s).mCompStates =
      if h : btnIDOf s.mIsOneVolumeKey (eventBtnIDOf mapping iEvent) < CtrlerComp_MaxCompNumber then
        if btnIDOf s.mIsOneVolumeKey (eventBtnIDOf mapping iEvent) = CtrlerComp_BumperKey then
          Function.update
            (Function.update s.mCompStates
              ⟨btnIDOf s.mIsOneVolumeKey (eventBtnIDOf mapping iEvent), h⟩ (btnStateOf iEvent.type))
            ⟨CtrlerComp_DigitalTriggerKey, by decide⟩ (btnStateOf iEvent.type)
        else
          Function.update s.mCompStates
            ⟨btnIDOf s.mIsOneVolumeKey (eventBtnIDOf mapping iEvent), h⟩ (btnStateOf iEvent.type)
      else s.mCompStates := by
    simp only [refreshButtonStatus]
    split_ifs <;> rfl
  rw [hst]
  generalize btnIDOf s.mIsOneVolumeKey (eventBtnIDOf mapping iEvent) = b
  by_cases h : b < CtrlerComp_MaxCompNumber
  · by_cases hb : b = CtrlerComp_BumperKey
    · subst hb
      simp only [h, dite_true, if_true, Function.update_apply, Fin.ext_iff, true_and]
      by_cases h1 : c.val = CtrlerComp_DigitalTriggerKey
      · simp [h1]
      · by_cases h2 : c.val = CtrlerComp_BumperKey <;> simp [h1, h2]
    · simp only [h, dite_true, hb, if_false, Function.update_apply, Fin.ext_iff, false_and,
        or_false]
  · have h1 : ¬ c.val = b := by
      intro e; exact h (by rw [← e]; exact c.isLt)
    have h2 : ¬ b = CtrlerComp_BumperKey := by
      intro e; exact h (by rw [e]; decide)
    simp [h, h1, h2]

/-- The routine `refreshButtonStatus` writes no member but the visual states. -/
theorem refreshButtonStatus_frame (s : Controller) (mapping : Option WVR_InputId)
    (iEvent : WVR_Event) :
    refreshButtonStatus mapping iEvent s
      = { s with mCompStates := (refreshButtonStatus mapping iEvent s).mCompStates } := by
  simp only [refreshButtonStatus]
  split_ifs <;> rfl

/-- C11: for every volume-up or volume-down event, `refreshButtonStatus` updates the
combined VolumeKey component and neither VolumeUpKey nor VolumeDownKey when the
single-volume-key flag is set; otherwise it updates VolumeUpKey for volume-up and
VolumeDownKey for volume-down, and not VolumeKey (nor the other of the two). -/
theorem refreshButtonStatus_volume (s : Controller) (mapping : Option WVR_InputId)
    (iEvent : WVR_Event)
    (hv : eventBtnIDOf mapping iEvent = WVR_InputId_Alias1_Volume_Up ∨
      eventBtnIDOf mapping iEvent = WVR_InputId_Alias1_Volume_Down) :
    (s.mIsOneVolumeKey = true →
      (refreshButtonStatus mapping iEvent s).mCompStates ⟨CtrlerComp_VolumeKey, by decide⟩
        = btnStateOf iEvent.type ∧
      (refreshButtonStatus mapping iEvent s).mCompStates ⟨CtrlerComp_VolumeUpKey, by decide⟩
        = s.mCompStates ⟨CtrlerComp_VolumeUpKey, by decide⟩ ∧
      (refreshButtonStatus mapping iEvent s).mCompStates ⟨CtrlerComp_VolumeDownKey, by decide⟩
        = s.mCompStates ⟨CtrlerComp_VolumeDownKey, by decide⟩) ∧
    (s.mIsOneVolumeKey = false →
      eventBtnIDOf mapping iEvent = WVR_InputId_Alias1_Volume_Up →
      (refreshButtonStatus mapping iEvent s).mCompStates ⟨CtrlerComp_VolumeUpKey, by decide⟩
        = btnStateOf iEvent.type ∧
      (refreshButtonStatus mapping iEvent s).mCompStates ⟨CtrlerComp_VolumeKey, by decide⟩
        = s.mCompStates ⟨CtrlerComp_VolumeKey, by decide⟩ ∧
      (refreshButtonStatus mapping iEvent s).mCompStates ⟨CtrlerComp_VolumeDownKey, by decide⟩
        = s.mCompStates ⟨CtrlerComp_VolumeDownKey, by decide⟩) ∧
    (s.mIsOneVolumeKey = false →
      eventBtnIDOf mapping iEvent = WVR_InputId_Alias1_Volume_Down →
      (refreshButtonStatus mapping iEvent s).mCompStates ⟨CtrlerComp_VolumeDownKey, by decide⟩
        = btnStateOf iEvent.type ∧
      (refreshButtonStatus mapping iEvent s).mCompStates ⟨CtrlerComp_VolumeKey, by decide⟩
        = s.mCompStates ⟨CtrlerComp_VolumeKey, by decide⟩ ∧
      (refreshButtonStatus mapping iEvent s).mCompStates ⟨CtrlerComp_VolumeUpKey, by decide⟩
        = s.mCompStates ⟨CtrlerComp_VolumeUpKey, by decide⟩) := by
  refine ⟨?_, ?_, ?_⟩
  · intro hf
    have hid : btnIDOf s.mIsOneVolumeKey (eventBtnIDOf mapping iEvent) = CtrlerComp_VolumeKey := by
      rcases hv with h | h <;> rw [h] <;> simp [btnIDOf, hf]
    simp only [refreshButtonStatus_states, hid]
    simp [CtrlerComp_VolumeKey, CtrlerComp_VolumeUpKey, CtrlerComp_VolumeDownKey,
      CtrlerComp_BumperKey]
  · intro hf hup
    have hid : btnIDOf s.mIsOneVolumeKey (eventBtnIDOf mapping iEvent)
        = CtrlerComp_VolumeUpKey := by
      rw [hup]; simp [btnIDOf, hf]
    simp only [refreshButtonStatus_states, hid]
    simp [CtrlerComp_VolumeKey, CtrlerComp_VolumeUpKey, CtrlerComp_VolumeDownKey,
      CtrlerComp_BumperKey]
  · intro hf hdown
    have hid : btnIDOf s.mIsOneVolumeKey (eventBtnIDOf mapping iEvent)
        = CtrlerComp_VolumeDownKey := by
      rw [hdown]; simp [btnIDOf, hf]
    simp only [refreshButtonStatus_states, hid]
    simp [CtrlerComp_VolumeKey, CtrlerComp_VolumeUpKey, CtrlerComp_VolumeDownKey,
      CtrlerComp_BumperKey]

/-- The witness of C11: a volume-up press on `sampleActive`, whose single-volume-key
flag is clear, presses VolumeUpKey and leaves VolumeKey alone. -/
theorem refreshButtonStatus_volume_witness :
    (refreshButtonStatus none ⟨WVR_InputId_Alias1_Volume_Up, WVR_EventType_ButtonPressed⟩
      sampleActive).mCompStates ⟨CtrlerComp_VolumeUpKey, by decide⟩ = CtrlerBtnState_Pressed ∧
    (refreshButtonStatus none ⟨WVR_InputId_Alias1_Volume_Up, WVR_EventType_ButtonPressed⟩
      sampleActive).mCompStates ⟨CtrlerComp_VolumeKey, by decide⟩ = CtrlerBtnState_None :=
  ⟨((refreshButtonStatus_volume sampleActive none
      ⟨WVR_InputId_Alias1_Volume_Up, WVR_EventType_ButtonPressed⟩ (Or.inl rfl)).2.1
      (by decide) rfl).1,
    ((refreshButtonStatus_volume sampleActive none
      ⟨WVR_InputId_Alias1_Volume_Up, WVR_EventType_ButtonPressed⟩ (Or.inl rfl)).2.1
      (by decide) rfl).2.1⟩

/-- The counterexample of C12: in `sampleMenuPressed` the menu button is Pressed; an
event on the menu button whose action type is none of the four recognised ones leaves
it None, so the state after the call differs from the state before. -/
theorem refreshButtonStatus_otherAction_counterexample :
    sampleMenuPressed.mCompStates ⟨CtrlerComp_AppButton, by decide⟩ = CtrlerBtnState_Pressed ∧
    (refreshButtonStatus none ⟨WVR_InputId_Alias1_Menu, WVR_EventType.other 0⟩
      sampleMenuPressed).mCompStates ⟨CtrlerComp_AppButton, by decide⟩ = CtrlerBtnState_None := by
  decide

/-- C12, amended: for every event whose action type is none of touch-tap,
button-press, button-release and touch-untap, `refreshButtonStatus` takes the derived
state to be None: the component the input identifier maps to (and the digital trigger
for the bumper) is set to None, every other component keeps its state, and when the
identifier maps to no component every state is unchanged. -/
theorem refreshButtonStatus_otherAction (s : Controller) (mapping : Option WVR_InputId)
    (iEvent : WVR_Event) (raw : Nat) (ht : iEvent.type = WVR_EventType.other raw) :
    (∀ c : CompIdx,
      (c.val = btnIDOf s.mIsOneVolumeKey (eventBtnIDOf mapping iEvent) ∨
        (btnIDOf s.mIsOneVolumeKey (eventBtnIDOf mapping iEvent) = CtrlerComp_BumperKey ∧
          c.val = CtrlerComp_DigitalTriggerKey)) →
      (refreshButtonStatus mapping iEvent s).mCompStates c = CtrlerBtnState_None) ∧
    (∀ c : CompIdx,
      ¬ (c.val = btnIDOf s.mIsOneVolumeKey (eventBtnIDOf mapping iEvent) ∨
        (btnIDOf s.mIsOneVolumeKey (eventBtnIDOf mapping iEvent) = CtrlerComp_BumperKey ∧
          c.val = CtrlerComp_DigitalTriggerKey)) →
      (refreshButtonStatus mapping iEvent s).mCompStates c = s.mCompStates c) ∧
    (btnIDOf s.mIsOneVolumeKey (eventBtnIDOf mapping iEvent) = CtrlerComp_MaxCompNumber →
      refreshButtonStatus mapping iEvent s = s) := by
  refine ⟨?_, ?_, ?_⟩
  · intro c hc
    rw [refreshButtonStatus_states, if_pos hc, ht]
    rfl
  · intro c hc
    rw [refreshButtonStatus_states, if_neg hc]
  · intro hmax
    simp [refreshButtonStatus, hmax]

/-- The witness of C12: the event of the counterexample sets the menu button to
None. -/
theorem refreshButtonStatus_otherAction_witness :
    (refreshButtonStatus none ⟨WVR_InputId_Alias1_Menu, WVR_EventType.other 0⟩
      sampleMenuPressed).mCompStates ⟨CtrlerComp_AppButton, by decide⟩ = CtrlerBtnState_None :=
  (refreshButtonStatus_otherAction sampleMenuPressed none
    ⟨WVR_InputId_Alias1_Menu, WVR_EventType.other 0⟩ 0 rfl).1
    ⟨CtrlerComp_AppButton, by decide⟩ (Or.inl rfl)

/-- C13: `refreshButtonStatus` changes at most the visual state of the component its
input identifier maps to, plus DigitalTriggerKey when that component is BumperKey:
every other component keeps its state, all existence flags and texture indices (and
every member other than the visual states) are unchanged, and for an input identifier
outside the 13 recognised ones nothing at all changes, whatever the action type. -/
theorem refreshButtonStatus_frame_effect (s : Controller) (mapping : Option WVR_InputId)
    (iEvent : WVR_Event) :
    (∀ c : CompIdx,
      c.val ≠ btnIDOf s.mIsOneVolumeKey (eventBtnIDOf mapping iEvent) →
      ¬ (btnIDOf s.mIsOneVolumeKey (eventBtnIDOf mapping iEvent) = CtrlerComp_BumperKey ∧
          c.val = CtrlerComp_DigitalTriggerKey) →
      (refreshButtonStatus mapping iEvent s).mCompStates c = s.mCompStates c) ∧
    (refreshButtonStatus mapping iEvent s).mCompExistFlags = s.mCompExistFlags ∧
    (refreshButtonStatus mapping iEvent s).mCompTexID = s.mCompTexID ∧
    refreshButtonStatus mapping iEvent s
      = { s with mCompStates := (refreshButtonStatus mapping iEvent s).mCompStates } ∧
    (∀ raw : Nat, eventBtnIDOf mapping iEvent = WVR_InputId.other raw →
      refreshButtonStatus mapping iEvent s = s) := by
  have hframe := refreshButtonStatus_frame s mapping iEvent
  refine ⟨?_, ?_, ?_, hframe, ?_⟩
  · intro c h1 h2
    rw [refreshButtonStatus_states, if_neg]
    rintro (h | h)
    · exact h1 h
    · exact h2 h
  · rw [hframe]
  · rw [hframe]
  · intro raw hraw
    simp [refreshButtonStatus, hraw, btnIDOf, CtrlerComp_MaxCompNumber]

/-! ## Release and upload: idempotence and per-component data -/

/-- C15: `releaseCtrlerModelGLComp` is idempotent: a second release gives the state of
the first, its texture and battery-texture tables hold no object to delete, and the
deletion log after it is the log after the first. -/
theorem releaseCtrlerModelGLComp_idempotent (s : Controller) :
    releaseCtrlerModelGLComp (releaseCtrlerModelGLComp s) = releaseCtrlerModelGLComp s ∧
    deletedHandles (releaseCtrlerModelGLComp s).mTextureTable = [] ∧
    deletedHandles (releaseCtrlerModelGLComp s).mBatLvTex = [] ∧
    (releaseCtrlerModelGLComp (releaseCtrlerModelGLComp s)).texFreed
      = (releaseCtrlerModelGLComp s).texFreed := by
  have h : releaseCtrlerModelGLComp (releaseCtrlerModelGLComp s)
      = releaseCtrlerModelGLComp s := by
    simp [releaseCtrlerModelGLComp, deletedHandles, Mesh.releaseGLComp]
  exact ⟨h, rfl, rfl, by rw [h]⟩

/-- A fold that overwrites a value at every element satisfying `P` keeps the start
value when no element does. -/
theorem foldl_ite_none {α β : Type} (P : α → Prop) [DecidablePred P] (f : α → β)
    (l : List α) (v0 : β) (h : ∀ y ∈ l, ¬ P y) :
    l.foldl (fun v x => if P x then f x else v) v0 = v0 := by
  induction l generalizing v0 with
  | nil => rfl
  | cons a t ih =>
    have ha : ¬ P a := h a (by simp)
    simp only [List.foldl_cons, ha, if_false]
    exact ih v0 (fun y hy => h y (by simp [hy]))

/-- A fold that overwrites a value at every element satisfying `P` ends with the
value of the last such element. -/
theorem foldl_ite_last {α β : Type} (P : α → Prop) [DecidablePred P] (f : α → β)
    (pre post : List α) (x : α) (v0 : β) (hx : P x) (h : ∀ y ∈ post, ¬ P y) :
    (pre ++ x :: post).foldl (fun v x => if P x then f x else v) v0 = f x := by
  simp only [List.foldl_append, List.foldl_cons, hx, if_true]
  exact foldl_ite_none P f post (f x) h

/-- The texture index, local transform and emitter pose after one iteration of the
component loop. -/
theorem uploadComp_data (s : Controller) (info : WVR_CtrlerCompInfo) (c : CompIdx) :
    (uploadComp s info).mCompTexID c
      = (if getCompIdxByName info.name = c.val then info.texIndex else s.mCompTexID c) ∧
    (uploadComp s info).mCompLocalMats c
      = (if getCompIdxByName info.name = c.val then info.localMat else s.mCompLocalMats c) ∧
    (uploadComp s info).mEmitterPose
      = (if getCompIdxByName info.name = CtrlerComp_Emitter then info.localMat
          else s.mEmitterPose) := by
  have e1 : (uploadComp s info).mCompTexID =
      if h : getCompIdxByName info.name < CtrlerComp_MaxCompNumber then
        Function.update s.mCompTexID ⟨getCompIdxByName info.name, h⟩ info.texIndex
      else s.mCompTexID := by
    simp only [uploadComp]
    split_ifs <;> rfl
  have e2 : (uploadComp s info).mCompLocalMats =
      if h : getCompIdxByName info.name < CtrlerComp_MaxCompNumber then
        Function.update s.mCompLocalMats ⟨getCompIdxByName info.name, h⟩ info.localMat
      else s.mCompLocalMats := by
    simp only [uploadComp]
    split_ifs <;> rfl
  have e3 : (uploadComp s info).mEmitterPose =
      if getCompIdxByName info.name < CtrlerComp_MaxCompNumber then
        (if getCompIdxByName info.name = CtrlerComp_Emitter then info.localMat
          else s.mEmitterPose)
      else s.mEmitterPose := by
    simp only [uploadComp]
    split_ifs <;> simp
  rw [e1, e2, e3]
  generalize getCompIdxByName info.name = g
  by_cases h : g < CtrlerComp_MaxCompNumber
  · simp only [h, dite_true, if_true, Function.update_apply]
    by_cases hc : g = c.val
    · subst hc
      simp
    · have hcc : ¬ c = ⟨g, h⟩ := fun e => hc (by rw [e])
      simp [hc, hcc]
  · have h1 : ¬ g = c.val := fun e => h (by rw [e]; exact c.isLt)
    have h2 : ¬ g = CtrlerComp_Emitter := fun e => h (by rw [e]; decide)
    simp [h, h1, h2]

/-- The texture index, local transform and emitter pose after the component loop, as
folds over the bundle entries. -/
theorem foldl_uploadComp_data (l : List WVR_CtrlerCompInfo) (s : Controller) (c : CompIdx) :
    (l.foldl uploadComp s).mCompTexID c
      = l.foldl (fun v info => if getCompIdxByName info.name = c.val then info.texIndex else v)
          (s.mCompTexID c) ∧
    (l.foldl uploadComp s).mCompLocalMats c
      = l.foldl (fun v info => if getCompIdxByName info.name = c.val then info.localMat else v)
          (s.mCompLocalMats c) ∧
    (l.foldl uploadComp s).mEmitterPose
      = l.foldl (fun v info =>
          if getCompIdxByName info.name = CtrlerComp_Emitter then info.localMat else v)
          s.mEmitterPose := by
  induction l generalizing s with
  | nil => exact ⟨rfl, rfl, rfl⟩
  | cons info rest ih =>
    obtain ⟨a1, a2, a3⟩ := uploadComp_data s info c
    obtain ⟨b1, b2, b3⟩ := ih (uploadComp s info)
    simp only [List.foldl_cons]
    exact ⟨by rw [b1, a1], by rw [b2, a2], by rw [b3, a3]⟩

/-- The battery loop leaves the per-component data alone. -/
theorem uploadBattery_frame_comp (texLoad : WVR_CtrlerTexBitmap → Bool)
    (l : List WVR_BatteryLevel) (lv : Nat) (s : Controller) :
    (uploadBattery texLoad l lv s).mCompTexID = s.mCompTexID ∧
    (uploadBattery texLoad l lv s).mCompLocalMats = s.mCompLocalMats ∧
    (uploadBattery texLoad l lv s).mCompMeshes = s.mCompMeshes ∧
    (uploadBattery texLoad l lv s).mShaders = s.mShaders ∧
    (uploadBattery texLoad l lv s).mBatteryLevel = s.mBatteryLevel ∧
    (uploadBattery texLoad l lv s).mIsShowBattery = s.mIsShowBattery := by
  induction l generalizing lv s with
  | nil => simp [uploadBattery]
  | cons e rest ih =>
    simp only [uploadBattery]
    split
    · obtain ⟨b1, b2, b3, b4, b5, b6⟩ := ih (lv + 1)
        { s with
          mBatMinLevels := s.mBatMinLevels.set lv e.minLv
          mBatMaxLevels := s.mBatMaxLevels.set lv e.maxLv
          mBatLvTex := s.mBatLvTex.set lv
            (loadTextureFromBitmapWithoutCached texLoad e.tex s.texNext).1
          texNext := (loadTextureFromBitmapWithoutCached texLoad e.tex s.texNext).2 }
      exact ⟨b1, b2, b3, b4, b5, b6⟩
    · obtain ⟨b1, b2, b3, b4, b5, b6⟩ := ih (lv + 1)
        { s with
          mBatMinLevels := s.mBatMinLevels.set lv e.minLv
          mBatMaxLevels := s.mBatMaxLevels.set lv e.maxLv }
      exact ⟨b1, b2, b3, b4, b5, b6⟩

/-- The per-component data and the emitter pose after an upload are those the
component loop produced. -/
theorem initializeCtrlerModelGLComp_data (texLoad : WVR_CtrlerTexBitmap → Bool)
    (d : WVR_CtrlerModel) (s : Controller) :
    (initializeCtrlerModelGLComp texLoad d s).mCompTexID
      = (d.compInfos.foldl uploadComp { s with mEmitterPose := Matrix4.identity }).mCompTexID ∧
    (initializeCtrlerModelGLComp texLoad d s).mCompLocalMats
      = (d.compInfos.foldl uploadComp
          { s with mEmitterPose := Matrix4.identity }).mCompLocalMats ∧
    (initializeCtrlerModelGLComp texLoad d s).mEmitterPose
      = (d.compInfos.foldl uploadComp
          { s with mEmitterPose := Matrix4.identity }).mEmitterPose := by
  unfold initializeCtrlerModelGLComp
  simp only [(uploadBattery_frame_comp texLoad _ _ _).1,
    (uploadBattery_frame_comp texLoad _ _ _).2.1,
    (uploadBattery_frame texLoad _ _ _).2.2.2.2.2.2.2.2.1]
  refine ⟨?_, ?_, ?_⟩ <;> split <;> rfl

/-- A bundle entry resolves to the emitter exactly when it carries the emitter name. -/
theorem resolves_emitter_iff (iName : String) :
    getCompIdxByName iName = CtrlerComp_Emitter ↔ iName = "__CM__Emitter" := by
  have h := getCompIdxByName_eq_iff iName ⟨CtrlerComp_Emitter, by decide⟩
  have n : sControllerCompNames.getD CtrlerComp_Emitter "" = "__CM__Emitter" := by decide
  simp only [n] at h
  exact h

/-- C20: after upload of any bundle onto any state, `getEmitterPose` returns the
identity matrix when the bundle has no emitter component, and the local transform of
the emitter component (of the last entry carrying the emitter name) when it has one;
the result does not depend on the state before the upload. -/
theorem getEmitterPose_after_upload (texLoad : WVR_CtrlerTexBitmap → Bool)
    (d : WVR_CtrlerModel) (s : Controller) :
    ((∀ info ∈ d.compInfos, info.name ≠ "__CM__Emitter") →
      getEmitterPose (initializeCtrlerModelGLComp texLoad d s) = Matrix4.identity) ∧
    (∀ (pre : List WVR_CtrlerCompInfo) (info : WVR_CtrlerCompInfo)
      (post : List WVR_CtrlerCompInfo),
      d.compInfos = pre ++ info :: post → info.name = "__CM__Emitter" →
      (∀ j ∈ post, j.name ≠ "__CM__Emitter") →
      getEmitterPose (initializeCtrlerModelGLComp texLoad d s) = info.localMat) ∧
    (∀ s2 : Controller,
      getEmitterPose (initializeCtrlerModelGLComp texLoad d s)
        = getEmitterPose (initializeCtrlerModelGLComp texLoad d s2)) := by
  have hpose : ∀ t : Controller, getEmitterPose (initializeCtrlerModelGLComp texLoad d t)
      = d.compInfos.foldl (fun v info =>
          if getCompIdxByName info.name = CtrlerComp_Emitter then info.localMat else v)
          Matrix4.identity := by
    intro t
    unfold getEmitterPose
    rw [(initializeCtrlerModelGLComp_data texLoad d t).2.2,
      (foldl_uploadComp_data d.compInfos _ ⟨CtrlerComp_Emitter, by decide⟩).2.2]
  refine ⟨?_, ?_, ?_⟩
  · intro hnone
    rw [hpose]
    exact foldl_ite_none (fun info : WVR_CtrlerCompInfo =>
      getCompIdxByName info.name = CtrlerComp_Emitter) (fun info => info.localMat) _ _
      (fun y hy e => hnone y hy ((resolves_emitter_iff y.name).mp e))
  · intro pre info post hsplit hname hpost
    rw [hpose, hsplit]
    exact foldl_ite_last (fun info : WVR_CtrlerCompInfo =>
      getCompIdxByName info.name = CtrlerComp_Emitter) (fun info => info.localMat) pre post info _
      ((resolves_emitter_iff info.name).mpr hname)
      (fun y hy e => hpost y hy ((resolves_emitter_iff y.name).mp e))
  · intro s2
    rw [hpose, hpose]

/-- The witness of C20: the upload of `sampleEmitterModel` onto `sampleActive` leaves
the transform of its last emitter entry as the emitter pose. -/
theorem getEmitterPose_after_upload_witness :
    getEmitterPose (initializeCtrlerModelGLComp (fun _ => true) sampleEmitterModel sampleActive)
      = sampleMat :=
  (getEmitterPose_after_upload (fun _ => true) sampleEmitterModel sampleActive).2.1
    [{ sampleBody with name := "__CM__Emitter", texIndex := 1 },
      { sampleBody with name := "__CM__Unknown" }]
    { sampleBody with name := "__CM__Emitter", localMat := sampleMat, texIndex := 3 }
    [] rfl rfl (by simp)

/-- Entries on which the step function does nothing can be dropped from a fold. -/
theorem foldl_filter_skip {α β : Type} (f : β → α → β) (p : α → Bool) (l : List α) (v0 : β)
    (h : ∀ x, p x = false → ∀ t, f t x = t) :
    (l.filter p).foldl f v0 = l.foldl f v0 := by
  induction l generalizing v0 with
  | nil => rfl
  | cons a t ih =>
    cases hp : p a with
    | true => simp only [List.filter_cons, hp, if_true, List.foldl_cons, ih]
    | false =>
      simp only [List.filter_cons, hp, Bool.false_eq_true, if_false, List.foldl_cons, h a hp v0,
        ih]

/-- A bundle entry whose name is not in the registry leaves the state as it is. -/
theorem uploadComp_unresolved (t : Controller) (info : WVR_CtrlerCompInfo)
    (h : info.name ∉ sControllerCompNames) : uploadComp t info = t := by
  have hmax := getCompIdxByNameLoop_not_mem info.name sControllerCompNames 0 h
  have hid : getCompIdxByName info.name = CtrlerComp_MaxCompNumber := hmax
  simp [uploadComp, hid]

/-- C16: upload of any bundle onto a released state. For every component `c` the
existence flag is true afterwards exactly when some bundle entry carries the registry
name of `c`, and then the stored texture index and local transform of `c` are those of
the last such entry (without such an entry the texture index stays -1). An entry whose
name is not in the registry changes nothing, and the upload of the bundle is the
upload of the bundle without such entries. -/
theorem upload_per_component (texLoad : WVR_CtrlerTexBitmap → Bool) (d : WVR_CtrlerModel)
    (s0 : Controller) (c : CompIdx) :
    ((initializeCtrlerModelGLComp texLoad d (releaseCtrlerModelGLComp s0)).mCompExistFlags c
        = true ↔
      ∃ info ∈ d.compInfos, info.name = sControllerCompNames.getD c.val "") ∧
    (∀ (pre : List WVR_CtrlerCompInfo) (info : WVR_CtrlerCompInfo)
      (post : List WVR_CtrlerCompInfo),
      d.compInfos = pre ++ info :: post →
      info.name = sControllerCompNames.getD c.val "" →
      (∀ j ∈ post, j.name ≠ sControllerCompNames.getD c.val "") →
      (initializeCtrlerModelGLComp texLoad d (releaseCtrlerModelGLComp s0)).mCompTexID c
        = info.texIndex ∧
      (initializeCtrlerModelGLComp texLoad d (releaseCtrlerModelGLComp s0)).mCompLocalMats c
        = info.localMat) ∧
    ((∀ info ∈ d.compInfos, info.name ≠ sControllerCompNames.getD c.val "") →
      (initializeCtrlerModelGLComp texLoad d (releaseCtrlerModelGLComp s0)).mCompTexID c = -1) ∧
    (∀ (t : Controller) (info : WVR_CtrlerCompInfo),
      info.name ∉ sControllerCompNames → uploadComp t info = t) ∧
    initializeCtrlerModelGLComp texLoad
        { d with compInfos :=
            d.compInfos.filter (fun info => decide (info.name ∈ sControllerCompNames)) }
        (releaseCtrlerModelGLComp s0)
      = initializeCtrlerModelGLComp texLoad d (releaseCtrlerModelGLComp s0) := by
  obtain ⟨htex, hmat, -⟩ :=
    initializeCtrlerModelGLComp_data texLoad d (releaseCtrlerModelGLComp s0)
  obtain ⟨ftex, fmat, -⟩ := foldl_uploadComp_data d.compInfos
    { releaseCtrlerModelGLComp s0 with mEmitterPose := Matrix4.identity } c
  refine ⟨?_, ?_, ?_, uploadComp_unresolved, ?_⟩
  · rw [initializeCtrlerModelGLComp_existFlag, ← any_resolves_iff]
    have hrel : (releaseCtrlerModelGLComp s0).mCompExistFlags c = false := rfl
    simp [hrel]
  · intro pre info post hsplit hname hpost
    rw [htex, hmat, ftex, fmat, hsplit]
    exact ⟨foldl_ite_last (fun i : WVR_CtrlerCompInfo => getCompIdxByName i.name = c.val)
        (fun i => i.texIndex) pre post info _
        ((getCompIdxByName_eq_iff info.name c).mpr hname)
        (fun y hy e => hpost y hy ((getCompIdxByName_eq_iff y.name c).mp e)),
      foldl_ite_last (fun i : WVR_CtrlerCompInfo => getCompIdxByName i.name = c.val)
        (fun i => i.localMat) pre post info _
        ((getCompIdxByName_eq_iff info.name c).mpr hname)
        (fun y hy e => hpost y hy ((getCompIdxByName_eq_iff y.name c).mp e))⟩
  · intro hnone
    rw [htex, ftex]
    exact foldl_ite_none (fun i : WVR_CtrlerCompInfo => getCompIdxByName i.name = c.val)
      (fun i => i.texIndex) _ _
      (fun y hy e => hnone y hy ((getCompIdxByName_eq_iff y.name c).mp e))
  · have hfold : ∀ t : Controller,
        (d.compInfos.filter (fun info => decide (info.name ∈ sControllerCompNames))).foldl
          uploadComp t = d.compInfos.foldl uploadComp t := by
      intro t
      apply foldl_filter_skip
      intro x hx u
      exact uploadComp_unresolved u x (by simpa using hx)
    simp only [initializeCtrlerModelGLComp, hfold]

/-- The witness of C16: after the upload of `sampleEmitterModel` onto a released
state the emitter exists with the texture index 3 and the transform of the last
emitter entry, the entry with the unregistered name in between notwithstanding. -/
theorem upload_per_component_witness :
    (initializeCtrlerModelGLComp (fun _ => true) sampleEmitterModel
      (releaseCtrlerModelGLComp sampleActive)).mCompTexID ⟨CtrlerComp_Emitter, by decide⟩ = 3 ∧
    (initializeCtrlerModelGLComp (fun _ => true) sampleEmitterModel
      (releaseCtrlerModelGLComp sampleActive)).mCompLocalMats ⟨CtrlerComp_Emitter, by decide⟩
      = sampleMat :=
  (upload_per_component (fun _ => true) sampleEmitterModel sampleActive
    ⟨CtrlerComp_Emitter, by decide⟩).2.1
    [{ sampleBody with name := "__CM__Emitter", texIndex := 1 },
      { sampleBody with name := "__CM__Unknown" }]
    { sampleBody with name := "__CM__Emitter", localMat := sampleMat, texIndex := 3 }
    [] rfl (by decide) (by simp)

/-! ## Draw routines: null shader -/

/-- With a null shader the button-effect loop draws nothing, whatever it runs over. -/
theorem drawButtonEffects_nullShader (iMode : CtrlerDrawModeEnum) (s : Controller)
    (h : s.mShaders iMode = none) (cs : List CompIdx) :
    drawButtonEffects iMode s cs = some [] := by
  induction cs with
  | nil => rfl
  | cons c rest ih =>
    have hc : drawButtonEffectOf iMode s c = some [] := by
      simp only [drawButtonEffectOf, h]
      split_ifs <;> rfl
    simp [drawButtonEffects, hc, ih]

/-- C19, as the code behaves: with a null shader for the requested mode, the body,
battery, button-effect and ray routines issue no draw call and dereference nothing,
and so does the touchpad routine except when the touchpad exists, is Tapped and the
touch-dot component exists: there it dereferences the null shader. -/
theorem draw_nullShader (iMode : CtrlerDrawModeEnum) (s : Controller)
    (h : s.mShaders iMode = none) :
    drawCtrlerBody iMode s = some [] ∧
    drawCtrlerBattery iMode s = some [] ∧
    drawCtrlerButtonEffect iMode s = some [] ∧
    drawCtrlerRay iMode s = some [] ∧
    drawCtrlerTouchPad iMode s =
      (if s.mCompExistFlags ⟨CtrlerComp_TouchPad, by decide⟩ = true ∧
          s.mCompStates ⟨CtrlerComp_TouchPad, by decide⟩ = CtrlerBtnState_Tapped ∧
          s.mCompExistFlags ⟨CtrlerComp_TouchPad_Touch, by decide⟩ = true then none
        else some []) := by
  refine ⟨?_, ?_, ?_, ?_, ?_⟩
  · simp [drawCtrlerBody, h]
  · simp only [drawCtrlerBattery, h]
    split_ifs <;> rfl
  · exact drawButtonEffects_nullShader iMode s h _
  · simp [drawCtrlerRay, h]
  · simp only [drawCtrlerTouchPad, h]
    split_ifs <;> simp_all

/-- The failing input of C19: in `sampleNullShaderTapped` the shader of the general
mode is null, the touchpad is Tapped and the touch dot exists; the touchpad routine,
and with it the whole render call, dereferences the null shader. -/
theorem draw_nullShader_witness :
    sampleNullShaderTapped.mShaders CtrlerDrawMode_General = none ∧
    drawCtrlerBody CtrlerDrawMode_General sampleNullShaderTapped = some [] ∧
    drawCtrlerTouchPad CtrlerDrawMode_General sampleNullShaderTapped = none ∧
    render sampleEnv CtrlerDrawMode_General sampleNullShaderTapped = none :=
  ⟨rfl, (draw_nullShader CtrlerDrawMode_General sampleNullShaderTapped rfl).1,
    (draw_nullShader CtrlerDrawMode_General sampleNullShaderTapped rfl).2.2.2.2.trans
      (by decide),
    rfl⟩

/-! ## Draw routines: what is drawn -/

/-- A battery sample changes only the sample time and the battery level. -/
theorem refreshBatteryStatus_frame (current diffs : Int) (percentage : Nat) (s : Controller) :
    (refreshBatteryStatus current diffs percentage s).mShaders = s.mShaders ∧
    (refreshBatteryStatus current diffs percentage s).mTextureTable = s.mTextureTable ∧
    (refreshBatteryStatus current diffs percentage s).mCompExistFlags = s.mCompExistFlags ∧
    (refreshBatteryStatus current diffs percentage s).mCompTexID = s.mCompTexID ∧
    (refreshBatteryStatus current diffs percentage s).mCompStates = s.mCompStates ∧
    (refreshBatteryStatus current diffs percentage s).mBatLvTex = s.mBatLvTex ∧
    (refreshBatteryStatus current diffs percentage s).mIsShowBattery = s.mIsShowBattery := by
  simp only [refreshBatteryStatus]
  split_ifs
  · exact ⟨rfl, rfl, rfl, rfl, rfl, rfl, rfl⟩
  · split <;> exact ⟨rfl, rfl, rfl, rfl, rfl, rfl, rfl⟩
  · exact ⟨rfl, rfl, rfl, rfl, rfl, rfl, rfl⟩

/-- The guarded texture bind draws the mesh of `c` at most, and only with a texture
index inside the texture table. -/
theorem drawWithTexture_some (s : Controller) (c : CompIdx) (ds : List DrawCall)
    (h : drawWithTexture s c = some ds) :
    ds = [] ∨ (ds = [DrawCall.comp c] ∧ 0 ≤ s.mCompTexID c ∧
      s.mCompTexID c < (s.mTextureTable.length : Int)) := by
  unfold drawWithTexture at h
  split_ifs at h with hr
  · split at h
    · simp only [Option.some.injEq] at h
      exact Or.inr ⟨h.symm, hr.1, hr.2⟩
    · simp at h
  · simp only [Option.some.injEq] at h
    exact Or.inl h.symm

/-- The guarded texture bind dereferences no null pointer when the texture table
holds none. -/
theorem drawWithTexture_isSome (s : Controller) (c : CompIdx)
    (htab : ∀ t ∈ s.mTextureTable, t ≠ none) : (drawWithTexture s c).isSome = true := by
  unfold drawWithTexture
  by_cases hr : 0 ≤ s.mCompTexID c ∧ s.mCompTexID c < (s.mTextureTable.length : Int)
  · rw [if_pos hr]
    have hlt : (s.mCompTexID c).toNat < s.mTextureTable.length := by omega
    have hmem : s.mTextureTable.getD (s.mCompTexID c).toNat none ∈ s.mTextureTable := by
      rw [List.getD_eq_getElem _ _ hlt]
      exact List.getElem_mem hlt
    have hne := htab _ hmem
    split
    · rfl
    · rename_i heq
      exact absurd heq hne
  · rw [if_neg hr]
    rfl

/-- What `drawCtrlerBody` draws. -/
theorem drawCtrlerBody_some (iMode : CtrlerDrawModeEnum) (s : Controller)
    (ds : List DrawCall) (h : drawCtrlerBody iMode s = some ds) :
    ds = [] ∨ (ds = [DrawCall.comp ⟨CtrlerComp_Body, by decide⟩] ∧
      0 ≤ s.mCompTexID ⟨CtrlerComp_Body, by decide⟩ ∧
      s.mCompTexID ⟨CtrlerComp_Body, by decide⟩ < (s.mTextureTable.length : Int)) := by
  unfold drawCtrlerBody at h
  cases hs : s.mShaders iMode with
  | none =>
    simp only [hs, Option.some.injEq] at h
    exact Or.inl h.symm
  | some sh =>
    simp only [hs] at h
    exact drawWithTexture_some s _ ds h

/-- What `drawCtrlerBattery` draws; the routine dereferences no pointer it has not
tested. -/
theorem drawCtrlerBattery_some (iMode : CtrlerDrawModeEnum) (s : Controller) :
    ∃ ds, drawCtrlerBattery iMode s = some ds ∧
      (ds = [] ∨ (ds = [DrawCall.comp ⟨CtrlerComp_Battery, by decide⟩] ∧
        s.mIsShowBattery = true ∧
        s.mCompExistFlags ⟨CtrlerComp_Battery, by decide⟩ = true ∧
        0 ≤ s.mBatteryLevel ∧ s.mBatteryLevel < (s.mBatLvTex.length : Int) ∧
        s.mBatLvTex.getD s.mBatteryLevel.toNat none ≠ none)) := by
  unfold drawCtrlerBattery
  by_cases h1 : s.mIsShowBattery = false ∨
      s.mCompExistFlags ⟨CtrlerComp_Battery, by decide⟩ = false
  · exact ⟨[], by rw [if_pos h1], Or.inl rfl⟩
  · rw [if_neg h1]
    have hshow : s.mIsShowBattery = true := by
      cases hb : s.mIsShowBattery
      · exact absurd (Or.inl hb) h1
      · rfl
    have hex : s.mCompExistFlags ⟨CtrlerComp_Battery, by decide⟩ = true := by
      cases hb : s.mCompExistFlags ⟨CtrlerComp_Battery, by decide⟩
      · exact absurd (Or.inr hb) h1
      · rfl
    cases hs : s.mShaders iMode with
    | none => exact ⟨[], rfl, Or.inl rfl⟩
    | some sh =>
      simp only []
      by_cases hr : 0 ≤ s.mBatteryLevel ∧ s.mBatteryLevel < (s.mBatLvTex.length : Int)
      · rw [if_pos hr]
        cases ht : s.mBatLvTex.getD s.mBatteryLevel.toNat none with
        | none => exact ⟨[], rfl, Or.inl rfl⟩
        | some t =>
          exact ⟨_, rfl, Or.inr ⟨rfl, hshow, hex, hr.1, hr.2, by simp⟩⟩
      · rw [if_neg hr]
        exact ⟨[], rfl, Or.inl rfl⟩

/-- What the button-effect loop draws: meshes of components of the list that are not
one of the four non-button components, are Pressed, exist and have a texture index
inside the texture table. -/
theorem drawButtonEffects_some (iMode : CtrlerDrawModeEnum) (s : Controller) :
    ∀ (cs : List CompIdx) (ds : List DrawCall), drawButtonEffects iMode s cs = some ds →
      ∀ dc ∈ ds, ∃ c ∈ cs, dc = DrawCall.comp c ∧
        c.val ≠ CtrlerComp_TouchPad_Touch ∧ c.val ≠ CtrlerComp_BeamOrigin ∧
        c.val ≠ CtrlerComp_Emitter ∧ c.val ≠ CtrlerComp_Battery ∧
        s.mCompStates c = CtrlerBtnState_Pressed ∧ s.mCompExistFlags c = true ∧
        0 ≤ s.mCompTexID c ∧ s.mCompTexID c < (s.mTextureTable.length : Int) := by
  intro cs
  induction cs with
  | nil =>
    intro ds h dc hdc
    simp only [drawButtonEffects, Option.some.injEq] at h
    subst h
    simp at hdc
  | cons c rest ih =>
    intro ds h dc hdc
    simp only [drawButtonEffects] at h
    cases h1 : drawButtonEffectOf iMode s c with
    | none => simp [h1] at h
    | some d1 =>
      cases h2 : drawButtonEffects iMode s rest with
      | none => simp [h1, h2] at h
      | some d2 =>
        simp only [h1, h2, Option.some.injEq] at h
        subst h
        rcases List.mem_append.mp hdc with hm | hm
        · refine ⟨c, by simp, ?_⟩
          unfold drawButtonEffectOf at h1
          by_cases hx : c.val = CtrlerComp_TouchPad_Touch ∨ c.val = CtrlerComp_BeamOrigin ∨
              c.val = CtrlerComp_Emitter ∨ c.val = CtrlerComp_Battery
          · rw [if_pos hx] at h1
            simp only [Option.some.injEq] at h1
            subst h1
            simp at hm
          · rw [if_neg hx] at h1
            by_cases hp : s.mCompStates c = CtrlerBtnState_Pressed ∧ s.mCompExistFlags c = true
            · rw [if_pos hp] at h1
              cases hs : s.mShaders iMode with
              | none =>
                simp only [hs, Option.some.injEq] at h1
                subst h1
                simp at hm
              | some sh =>
                simp only [hs] at h1
                rcases drawWithTexture_some s c d1 h1 with e | ⟨e, t1, t2⟩
                · subst e; simp at hm
                · subst e
                  simp only [List.mem_singleton] at hm
                  simp only [not_or] at hx
                  exact ⟨hm, hx.1, hx.2.1, hx.2.2.1, hx.2.2.2, hp.1, hp.2, t1, t2⟩
            · rw [if_neg hp] at h1
              simp only [Option.some.injEq] at h1
              subst h1
              simp at hm
        · obtain ⟨c2, hc2, rest2⟩ := ih d2 h2 dc hm
          exact ⟨c2, by simp [hc2], rest2⟩

/-- What `drawCtrlerTouchPad` draws: the touch dot when the touchpad is Tapped and the
touch-dot component exists, else the touchpad overlay when the touchpad is Pressed. -/
theorem drawCtrlerTouchPad_some (iMode : CtrlerDrawModeEnum) (s : Controller)
    (ds : List DrawCall) (h : drawCtrlerTouchPad iMode s = some ds) :
    ds = [] ∨
    (ds = [DrawCall.comp ⟨CtrlerComp_TouchPad_Touch, by decide⟩] ∧
      s.mCompExistFlags ⟨CtrlerComp_TouchPad, by decide⟩ = true ∧
      s.mCompStates ⟨CtrlerComp_TouchPad, by decide⟩ = CtrlerBtnState_Tapped ∧
      s.mCompExistFlags ⟨CtrlerComp_TouchPad_Touch, by decide⟩ = true ∧
      0 ≤ s.mCompTexID ⟨CtrlerComp_TouchPad_Touch, by decide⟩ ∧
      s.mCompTexID ⟨CtrlerComp_TouchPad_Touch, by decide⟩ < (s.mTextureTable.length : Int)) ∨
    (ds = [DrawCall.comp ⟨CtrlerComp_TouchPad, by decide⟩] ∧
      s.mCompExistFlags ⟨CtrlerComp_TouchPad, by decide⟩ = true ∧
      s.mCompStates ⟨CtrlerComp_TouchPad, by decide⟩ = CtrlerBtnState_Pressed ∧
      0 ≤ s.mCompTexID ⟨CtrlerComp_TouchPad, by decide⟩ ∧
      s.mCompTexID ⟨CtrlerComp_TouchPad, by decide⟩ < (s.mTextureTable.length : Int)) := by
  unfold drawCtrlerTouchPad at h
  by_cases he : s.mCompExistFlags ⟨CtrlerComp_TouchPad, by decide⟩ = true
  · rw [if_pos he] at h
    by_cases ht : s.mCompStates ⟨CtrlerComp_TouchPad, by decide⟩ = CtrlerBtnState_Tapped ∧
        s.mCompExistFlags ⟨CtrlerComp_TouchPad_Touch, by decide⟩ = true
    · rw [if_pos ht] at h
      cases hs : s.mShaders iMode with
      | none => simp [hs] at h
      | some sh =>
        simp only [hs] at h
        rcases drawWithTexture_some s _ ds h with e | ⟨e, t1, t2⟩
        · exact Or.inl e
        · exact Or.inr (Or.inl ⟨e, he, ht.1, ht.2, t1, t2⟩)
    · rw [if_neg ht] at h
      by_cases hp : s.mCompStates ⟨CtrlerComp_TouchPad, by decide⟩ = CtrlerBtnState_Pressed
      · rw [if_pos hp] at h
        cases hs : s.mShaders iMode with
        | none =>
          simp only [hs, Option.some.injEq] at h
          exact Or.inl h.symm
        | some sh =>
          simp only [hs] at h
          rcases drawWithTexture_some s _ ds h with e | ⟨e, t1, t2⟩
          · exact Or.inl e
          · exact Or.inr (Or.inr ⟨e, he, hp, t1, t2⟩)
      · rw [if_neg hp] at h
        simp only [Option.some.injEq] at h
        exact Or.inl h.symm
  · rw [if_neg he] at h
    simp only [Option.some.injEq] at h
    exact Or.inl h.symm

/-- What `drawCtrlerRay` draws; it dereferences no pointer it has not tested. -/
theorem drawCtrlerRay_some (iMode : CtrlerDrawModeEnum) (s : Controller) :
    ∃ ds, drawCtrlerRay iMode s = some ds ∧ (ds = [] ∨ ds = [DrawCall.ray]) := by
  unfold drawCtrlerRay
  cases s.mShaders iMode with
  | none => exact ⟨[], rfl, Or.inl rfl⟩
  | some sh => exact ⟨_, rfl, Or.inr rfl⟩

/-- A render call that gets past the initialized and connected test and dereferences no null pointer returns
the draw state and the draws of the five routines, in the order of the calls. -/
theorem render_drawing (env : RenderEnv) (iMode : CtrlerDrawModeEnum) (s : Controller)
    (hi : (render_initStep env.texLoad s).mInitialized = true) (hc : env.connected = true)
    (r : Controller × List DrawCall) (h : render env iMode s = some r) :
    ∃ body battery buttons touchpad ray,
      drawCtrlerBody iMode (renderDrawState env s) = some body ∧
      drawCtrlerBattery iMode (renderDrawState env s) = some battery ∧
      drawCtrlerButtonEffect iMode (renderDrawState env s) = some buttons ∧
      drawCtrlerTouchPad iMode (renderDrawState env s) = some touchpad ∧
      drawCtrlerRay iMode (renderDrawState env s) = some ray ∧
      r = (renderDrawState env s, body ++ battery ++ buttons ++ touchpad ++ ray) := by
  unfold render at h
  simp only [hi, hc, Bool.true_eq_false, or_self, if_false] at h
  unfold renderDrawState
  cases h1 : drawCtrlerBody iMode
      (refreshBatteryStatus env.current env.diffs env.percentage
        (render_initStep env.texLoad s)) with
  | none => simp [h1] at h
  | some body =>
    cases h2 : drawCtrlerBattery iMode
        (refreshBatteryStatus env.current env.diffs env.percentage
          (render_initStep env.texLoad s)) with
    | none => simp [h1, h2] at h
    | some battery =>
      cases h3 : drawCtrlerButtonEffect iMode
          (refreshBatteryStatus env.current env.diffs env.percentage
            (render_initStep env.texLoad s)) with
      | none => simp [h1, h2, h3] at h
      | some buttons =>
        cases h4 : drawCtrlerTouchPad iMode
            (refreshBatteryStatus env.current env.diffs env.percentage
              (render_initStep env.texLoad s)) with
        | none => simp [h1, h2, h3, h4] at h
        | some touchpad =>
          cases h5 : drawCtrlerRay iMode
              (refreshBatteryStatus env.current env.diffs env.percentage
                (render_initStep env.texLoad s)) with
          | none => simp [h1, h2, h3, h4, h5] at h
          | some ray =>
            simp only [h1, h2, h3, h4, h5, Option.some.injEq] at h
            exact ⟨body, battery, buttons, touchpad, ray, rfl, rfl, rfl, rfl, rfl, h.symm⟩

/-- The button-effect loop dereferences no null pointer when the texture table holds
none. -/
theorem drawButtonEffects_isSome (iMode : CtrlerDrawModeEnum) (s : Controller)
    (htab : ∀ t ∈ s.mTextureTable, t ≠ none) (cs : List CompIdx) :
    (drawButtonEffects iMode s cs).isSome = true := by
  induction cs with
  | nil => rfl
  | cons c rest ih =>
    have h1 : (drawButtonEffectOf iMode s c).isSome = true := by
      unfold drawButtonEffectOf
      split_ifs
      · rfl
      · cases s.mShaders iMode with
        | none => rfl
        | some sh => exact drawWithTexture_isSome s c htab
      · rfl
    obtain ⟨d1, e1⟩ := Option.isSome_iff_exists.mp h1
    obtain ⟨d2, e2⟩ := Option.isSome_iff_exists.mp ih
    simp [drawButtonEffects, e1, e2]

/-- A render call dereferences no null pointer when, after its upload step, the
shader of the mode is not null and the texture table holds no null pointer. -/
theorem render_isSome (env : RenderEnv) (iMode : CtrlerDrawModeEnum) (s : Controller)
    (hsh : (render_initStep env.texLoad s).mShaders iMode ≠ none)
    (htab : ∀ t ∈ (render_initStep env.texLoad s).mTextureTable, t ≠ none) :
    (render env iMode s).isSome = true := by
  obtain ⟨f1, f2, -, -, -, -, -⟩ := refreshBatteryStatus_frame env.current env.diffs
    env.percentage (render_initStep env.texLoad s)
  have hsh2 : (renderDrawState env s).mShaders iMode ≠ none := by
    unfold renderDrawState; rw [f1]; exact hsh
  have htab2 : ∀ t ∈ (renderDrawState env s).mTextureTable, t ≠ none := by
    unfold renderDrawState; rw [f2]; exact htab
  obtain ⟨sh, hsome⟩ := Option.ne_none_iff_exists'.mp hsh2
  have b1 : (drawCtrlerBody iMode (renderDrawState env s)).isSome = true := by
    simp only [drawCtrlerBody, hsome]
    exact drawWithTexture_isSome _ _ htab2
  obtain ⟨battery, b2, -⟩ := drawCtrlerBattery_some iMode (renderDrawState env s)
  have b3 : (drawCtrlerButtonEffect iMode (renderDrawState env s)).isSome = true :=
    drawButtonEffects_isSome iMode _ htab2 _
  have b4 : (drawCtrlerTouchPad iMode (renderDrawState env s)).isSome = true := by
    simp only [drawCtrlerTouchPad, hsome]
    split_ifs
    · exact drawWithTexture_isSome _ _ htab2
    · exact drawWithTexture_isSome _ _ htab2
    · rfl
    · rfl
  obtain ⟨ray, b5, -⟩ := drawCtrlerRay_some iMode (renderDrawState env s)
  obtain ⟨body, e1⟩ := Option.isSome_iff_exists.mp b1
  obtain ⟨buttons, e3⟩ := Option.isSome_iff_exists.mp b3
  obtain ⟨touchpad, e4⟩ := Option.isSome_iff_exists.mp b4
  unfold renderDrawState at e1 b2 e3 e4 b5
  simp only [render]
  split_ifs
  · rfl
  · simp [e1, b2, e3, e4, b5]

/-- C17: `render`, after its upload step. If `initialized` is false or the device
reports disconnected, no draw call is issued. Otherwise the mesh draws issued are, in
this order: the body (at most), the battery (at most), button press effects of Pressed
components from AppButton on that are not touch dot, beam origin, emitter or battery,
then for the touchpad the touch dot when the touchpad is Tapped and the touch-dot
component exists, else the overlay when it is Pressed, and last the ray (at most); the
call dereferences no null pointer when the shader of the mode and all entries of the
texture table are not null. -/
theorem render_order (env : RenderEnv) (iMode : CtrlerDrawModeEnum) (s : Controller) :
    (((render_initStep env.texLoad s).mInitialized = false ∨ env.connected = false) →
      render env iMode s = some (render_initStep env.texLoad s, [])) ∧
    ((render_initStep env.texLoad s).mInitialized = true → env.connected = true →
      ∀ r, render env iMode s = some r →
        r.1 = renderDrawState env s ∧
        ∃ body battery buttons touchpad ray,
          r.2 = body ++ battery ++ buttons ++ touchpad ++ ray ∧
          (body = [] ∨ body = [DrawCall.comp ⟨CtrlerComp_Body, by decide⟩]) ∧
          (battery = [] ∨ battery = [DrawCall.comp ⟨CtrlerComp_Battery, by decide⟩]) ∧
          (∀ dc ∈ buttons, ∃ c : CompIdx, dc = DrawCall.comp c ∧
            CtrlerComp_AppButton ≤ c.val ∧
            c.val ≠ CtrlerComp_TouchPad_Touch ∧ c.val ≠ CtrlerComp_BeamOrigin ∧
            c.val ≠ CtrlerComp_Emitter ∧ c.val ≠ CtrlerComp_Battery ∧
            (renderDrawState env s).mCompStates c = CtrlerBtnState_Pressed) ∧
          (touchpad = [] ∨
            (touchpad = [DrawCall.comp ⟨CtrlerComp_TouchPad_Touch, by decide⟩] ∧
              (renderDrawState env s).mCompStates ⟨CtrlerComp_TouchPad, by decide⟩
                = CtrlerBtnState_Tapped ∧
              (renderDrawState env s).mCompExistFlags ⟨CtrlerComp_TouchPad_Touch, by decide⟩
                = true) ∨
            (touchpad = [DrawCall.comp ⟨CtrlerComp_TouchPad, by decide⟩] ∧
              (renderDrawState env s).mCompStates ⟨CtrlerComp_TouchPad, by decide⟩
                = CtrlerBtnState_Pressed)) ∧
          (ray = [] ∨ ray = [DrawCall.ray])) ∧
    ((render_initStep env.texLoad s).mShaders iMode ≠ none →
      (∀ t ∈ (render_initStep env.texLoad s).mTextureTable, t ≠ none) →
      (render env iMode s).isSome = true) := by
  refine ⟨?_, ?_, render_isSome env iMode s⟩
  · intro h
    unfold render
    simp only []
    rw [if_pos h]
  · intro hi hc r hr
    obtain ⟨body, battery, buttons, touchpad, ray, h1, h2, h3, h4, h5, hrr⟩ :=
      render_drawing env iMode s hi hc r hr
    subst hrr
    refine ⟨rfl, body, battery, buttons, touchpad, ray, rfl, ?_, ?_, ?_, ?_, ?_⟩
    · rcases drawCtrlerBody_some iMode _ body h1 with e | ⟨e, -, -⟩
      · exact Or.inl e
      · exact Or.inr e
    · obtain ⟨ds, e, hd⟩ := drawCtrlerBattery_some iMode (renderDrawState env s)
      rw [h2, Option.some.injEq] at e
      subst e
      rcases hd with e | ⟨e, -⟩
      · exact Or.inl e
      · exact Or.inr e
    · intro dc hdc
      obtain ⟨c, hmem, e, n1, n2, n3, n4, hp, -, -, -⟩ :=
        drawButtonEffects_some iMode _ _ buttons h3 dc hdc
      have hge : CtrlerComp_AppButton ≤ c.val := by
        have := (List.mem_filter.mp hmem).2
        simpa using this
      exact ⟨c, e, hge, n1, n2, n3, n4, hp⟩
    · rcases drawCtrlerTouchPad_some iMode _ touchpad h4 with e | ⟨e, -, t1, t2, -, -⟩ |
        ⟨e, -, t1, -, -⟩
      · exact Or.inl e
      · exact Or.inr (Or.inl ⟨e, t1, t2⟩)
      · exact Or.inr (Or.inr ⟨e, t1⟩)
    · obtain ⟨ds, e, hd⟩ := drawCtrlerRay_some iMode (renderDrawState env s)
      rw [h5, Option.some.injEq] at e
      subst e
      exact hd

/-- The witness of C17: on `sampleFullPressed` a render call with a due battery
sample draws body, battery, menu button, touchpad overlay and ray, in this order. -/
theorem render_order_witness :
    (render sampleSamplingEnv CtrlerDrawMode_General sampleFullPressed).map Prod.snd
      = some [DrawCall.comp ⟨CtrlerComp_Body, by decide⟩,
          DrawCall.comp ⟨CtrlerComp_Battery, by decide⟩,
          DrawCall.comp ⟨CtrlerComp_AppButton, by decide⟩,
          DrawCall.comp ⟨CtrlerComp_TouchPad, by decide⟩, DrawCall.ray] ∧
    (render sampleSamplingEnv CtrlerDrawMode_General sampleFullPressed).isSome = true :=
  ⟨by decide,
    (render_order sampleSamplingEnv CtrlerDrawMode_General sampleFullPressed).2.2
      (by decide) (by decide)⟩

/-! ## Draw guards on reachable states -/

/-- Shader set-up does not touch the per-component data. -/
theorem initializeGLComp_comp (lookup : CtrlerDrawModeEnum → ShaderLookup) (s : Controller) :
    (initializeGLComp lookup s).mCompExistFlags = s.mCompExistFlags ∧
    (initializeGLComp lookup s).mCompTexID = s.mCompTexID := by
  unfold initializeGLComp
  cases shaderOf (lookup CtrlerDrawMode_General) with
  | none => exact ⟨rfl, rfl⟩
  | some sh0 =>
    simp only []
    cases shaderOf (lookup CtrlerDrawMode_Multiview) <;> exact ⟨rfl, rfl⟩

/-- The component loop keeps the link between existence flags and texture indices. -/
theorem texIdInv_foldl (l : List WVR_CtrlerCompInfo) (s : Controller) (h : texIdInv s) :
    texIdInv (l.foldl uploadComp s) := by
  induction l generalizing s with
  | nil => exact h
  | cons info rest ih =>
    apply ih
    intro c hc
    rw [uploadComp_existFlag] at hc
    simp only [Bool.or_eq_false_iff, decide_eq_false_iff_not] at hc
    rw [(uploadComp_data s info c).1, if_neg hc.2]
    exact h c hc.1

/-- An upload keeps the link between existence flags and texture indices. -/
theorem texIdInv_initializeCtrlerModelGLComp (texLoad : WVR_CtrlerTexBitmap → Bool)
    (d : WVR_CtrlerModel) (s : Controller) (h : texIdInv s) :
    texIdInv (initializeCtrlerModelGLComp texLoad d s) := by
  intro c hc
  have h0 : texIdInv ({ s with mEmitterPose := Matrix4.identity } : Controller) := h
  have hf := texIdInv_foldl d.compInfos _ h0 c
  rw [(initializeCtrlerModelGLComp_data texLoad d s).1]
  apply hf
  rw [foldl_uploadComp_existFlag]
  rw [initializeCtrlerModelGLComp_existFlag] at hc
  exact hc

/-- The first step of `render` keeps the link between existence flags and texture
indices. -/
theorem texIdInv_render_initStep (texLoad : WVR_CtrlerTexBitmap → Bool) (s : Controller)
    (h : texIdInv s) : texIdInv (render_initStep texLoad s) := by
  unfold render_initStep
  split_ifs
  · cases hd : s.mCachedData with
    | none => exact h
    | some d =>
      have hrel : texIdInv (releaseCtrlerModelGLComp s) := fun _ _ => rfl
      exact texIdInv_initializeCtrlerModelGLComp texLoad d _ hrel
  · exact h

/-- Every enabled step keeps the link between existence flags and texture indices. -/
theorem step_texIdInv (a : Action) (s t : Sys) (hs : texIdInv s.ctrl) (h : step a s = some t) :
    texIdInv t.ctrl := by
  cases a with
  | taskClear =>
    cases hp : s.task <;> simp [step, hp] at h
    subst h
    exact hs
  | taskFetch result data =>
    cases hp : s.task <;> simp [step, hp] at h
    subst h
    exact hs
  | taskFinish =>
    cases hp : s.task <;> simp [step, hp] at h
    subst h
    show texIdInv (loadModelFunc_finish _ s.ctrl)
    unfold loadModelFunc_finish
    split
    · exact hs
    · exact hs
  | renderInit texLoad =>
    simp only [step, Option.some.injEq] at h
    subst h
    exact texIdInv_render_initStep texLoad s.ctrl hs
  | disconnected =>
    simp only [step, Option.some.injEq] at h
    subst h
    exact fun _ _ => rfl
  | loadAsync name =>
    simp only [step, Option.some.injEq] at h
    subst h
    show texIdInv (loadControllerModelAsync name s.ctrl).1
    unfold loadControllerModelAsync
    split
    · exact hs
    · exact hs
  | buttonEvent mapping iEvent =>
    simp only [step, Option.some.injEq] at h
    subst h
    intro c hc
    have hf := refreshButtonStatus_frame s.ctrl mapping iEvent
    rw [hf] at hc ⊢
    exact hs c hc
  | batteryRefresh current diffs percentage =>
    simp only [step, Option.some.injEq] at h
    subst h
    obtain ⟨-, -, f3, f4, -, -, -⟩ := refreshBatteryStatus_frame current diffs percentage s.ctrl
    intro c hc
    show (refreshBatteryStatus current diffs percentage s.ctrl).mCompTexID c = -1
    rw [f4]
    apply hs
    rw [← f3]
    exact hc
  | resetEffects =>
    simp only [step, Option.some.injEq] at h
    subst h
    exact hs

/-- Every schedule keeps the link between existence flags and texture indices. -/
theorem run_texIdInv (acts : List Action) (s t : Sys) (hs : texIdInv s.ctrl)
    (h : run acts s = some t) : texIdInv t.ctrl := by
  induction acts generalizing s with
  | nil =>
    simp only [run, Option.some.injEq] at h
    subst h
    exact hs
  | cons a rest ih =>
    simp only [run] at h
    cases hstep : step a s with
    | none => simp [hstep] at h
    | some s1 =>
      simp only [hstep] at h
      exact ih s1 (step_texIdInv a s s1 hs hstep) h

/-- The link between existence flags and texture indices holds in every state
reached from a fresh controller. -/
theorem reachable_texIdInv (lookup : CtrlerDrawModeEnum → ShaderLookup) (now : Int)
    (acts : List Action) (sys : Sys) (h : run acts (initSys lookup now) = some sys) :
    texIdInv sys.ctrl := by
  apply run_texIdInv acts (initSys lookup now) sys _ h
  intro c _
  show (ctor lookup now).mCompTexID c = -1
  unfold ctor
  rw [(initializeGLComp_comp lookup _).2]

/-- The counterexample of C18: a fresh controller fetches a bundle whose battery
component has the texture index -1; the next render call, with a battery sample due,
uploads it and draws the battery mesh although -1 is no index of the texture table
(of size 1). -/
theorem render_draws_guarded_counterexample :
    run sampleNoTexSchedule (initSys sampleLookup 0) = some sampleNoTexSys ∧
    (render sampleSamplingEnv CtrlerDrawMode_General sampleNoTexSys.ctrl).map Prod.snd
      = some [DrawCall.comp ⟨CtrlerComp_Body, by decide⟩,
          DrawCall.comp ⟨CtrlerComp_Battery, by decide⟩, DrawCall.ray] ∧
    (render sampleSamplingEnv CtrlerDrawMode_General sampleNoTexSys.ctrl).map
        (fun r => r.1.mCompTexID ⟨CtrlerComp_Battery, by decide⟩) = some (-1) ∧
    (render sampleSamplingEnv CtrlerDrawMode_General sampleNoTexSys.ctrl).map
        (fun r => r.1.mTextureTable.length) = some 1 :=
  ⟨rfl, by decide, by decide, by decide⟩

/-- C18, amended: in every state reached from a fresh controller by load tasks,
render upload steps, releases and input events, a render call that dereferences no
null pointer issues a mesh draw for a model component `c` only if the existence flag
of `c` is true and, for `c` other than the battery, the texture index of `c` is an
index of the texture table; the battery mesh is drawn only if the battery display is
on and the battery level indexes a non-null entry of the battery texture table. No
null pointer is dereferenced when the shader of the mode and all entries of the
texture table are not null. -/
theorem render_draws_guarded (lookup : CtrlerDrawModeEnum → ShaderLookup) (now : Int)
    (acts : List Action) (sys : Sys) (hreach : run acts (initSys lookup now) = some sys)
    (env : RenderEnv) (iMode : CtrlerDrawModeEnum) :
    (∀ r, render env iMode sys.ctrl = some r → ∀ c : CompIdx, DrawCall.comp c ∈ r.2 →
      r.1.mCompExistFlags c = true ∧
      (c.val ≠ CtrlerComp_Battery →
        0 ≤ r.1.mCompTexID c ∧ r.1.mCompTexID c < (r.1.mTextureTable.length : Int)) ∧
      (c.val = CtrlerComp_Battery →
        r.1.mIsShowBattery = true ∧ 0 ≤ r.1.mBatteryLevel ∧
        r.1.mBatteryLevel < (r.1.mBatLvTex.length : Int) ∧
        r.1.mBatLvTex.getD r.1.mBatteryLevel.toNat none ≠ none)) ∧
    ((render_initStep env.texLoad sys.ctrl).mShaders iMode ≠ none →
      (∀ t ∈ (render_initStep env.texLoad sys.ctrl).mTextureTable, t ≠ none) →
      (render env iMode sys.ctrl).isSome = true) := by
  refine ⟨?_, render_isSome env iMode sys.ctrl⟩
  intro r hr c hc
  have hinv0 := reachable_texIdInv lookup now acts sys hreach
  have hinv : texIdInv (renderDrawState env sys.ctrl) := by
    have h1 := texIdInv_render_initStep env.texLoad sys.ctrl hinv0
    obtain ⟨-, -, f3, f4, -, -, -⟩ := refreshBatteryStatus_frame env.current env.diffs
      env.percentage (render_initStep env.texLoad sys.ctrl)
    intro c2 hc2
    unfold renderDrawState at hc2 ⊢
    rw [f4]
    apply h1
    rw [← f3]
    exact hc2
  by_cases hgate : (render_initStep env.texLoad sys.ctrl).mInitialized = false ∨
      env.connected = false
  · have hnone : render env iMode sys.ctrl
        = some (render_initStep env.texLoad sys.ctrl, []) := by
      unfold render
      simp only []
      rw [if_pos hgate]
    rw [hnone, Option.some.injEq] at hr
    subst hr
    simp at hc
  · have hi : (render_initStep env.texLoad sys.ctrl).mInitialized = true := by
      cases hb : (render_initStep env.texLoad sys.ctrl).mInitialized
      · exact absurd (Or.inl hb) hgate
      · rfl
    have hcon : env.connected = true := by
      cases hb : env.connected
      · exact absurd (Or.inr hb) hgate
      · rfl
    obtain ⟨body, battery, buttons, touchpad, ray, h1, h2, h3, h4, h5, hrr⟩ :=
      render_drawing env iMode sys.ctrl hi hcon r hr
    subst hrr
    have hexist : ∀ c2 : CompIdx, 0 ≤ (renderDrawState env sys.ctrl).mCompTexID c2 →
        (renderDrawState env sys.ctrl).mCompExistFlags c2 = true := by
      intro c2 h0
      cases hb : (renderDrawState env sys.ctrl).mCompExistFlags c2
      · have := hinv c2 hb
        omega
      · rfl
    simp only [List.mem_append] at hc
    rcases hc with (((hc | hc) | hc) | hc) | hc
    · rcases drawCtrlerBody_some iMode _ body h1 with e | ⟨e, t1, t2⟩
      · subst e; simp at hc
      · subst e
        simp only [List.mem_singleton, DrawCall.comp.injEq] at hc
        subst hc
        exact ⟨hexist _ t1, fun _ => ⟨t1, t2⟩, fun hb => absurd hb (by decide)⟩
    · obtain ⟨ds, e, hd⟩ := drawCtrlerBattery_some iMode (renderDrawState env sys.ctrl)
      rw [h2, Option.some.injEq] at e
      subst e
      rcases hd with e | ⟨e, b1, b2, b3, b4, b5⟩
      · subst e; simp at hc
      · subst e
        simp only [List.mem_singleton, DrawCall.comp.injEq] at hc
        subst hc
        exact ⟨b2, fun hb => absurd rfl hb, fun _ => ⟨b1, b3, b4, b5⟩⟩
    · obtain ⟨c2, -, e, -, -, -, n4, -, hex, t1, t2⟩ :=
        drawButtonEffects_some iMode _ _ buttons h3 _ hc
      simp only [DrawCall.comp.injEq] at e
      subst e
      exact ⟨hex, fun _ => ⟨t1, t2⟩, fun hb => absurd hb n4⟩
    · rcases drawCtrlerTouchPad_some iMode _ touchpad h4 with e | ⟨e, -, -, hex, t1, t2⟩ |
        ⟨e, hex, -, t1, t2⟩
      · subst e; simp at hc
      · subst e
        simp only [List.mem_singleton, DrawCall.comp.injEq] at hc
        subst hc
        exact ⟨hex, fun _ => ⟨t1, t2⟩, fun hb => absurd hb (by decide)⟩
      · subst e
        simp only [List.mem_singleton, DrawCall.comp.injEq] at hc
        subst hc
        exact ⟨hex, fun _ => ⟨t1, t2⟩, fun hb => absurd hb (by decide)⟩
    · obtain ⟨ds, e, hd⟩ := drawCtrlerRay_some iMode (renderDrawState env sys.ctrl)
      rw [h5, Option.some.injEq] at e
      subst e
      rcases hd with e | e
      · subst e; simp at hc
      · subst e; simp at hc

/-- The witness of C18: the render call on the state `sampleNoTexSchedule` reaches
returns `sampleNoTexRendered`; the body it draws exists and has a texture index inside
the texture table, and the battery it draws exists. -/
theorem render_draws_guarded_witness :
    render sampleSamplingEnv CtrlerDrawMode_General sampleNoTexSys.ctrl
      = some sampleNoTexRendered ∧
    (sampleNoTexRendered.1.mCompExistFlags ⟨CtrlerComp_Body, by decide⟩ = true ∧
      (0 ≤ sampleNoTexRendered.1.mCompTexID ⟨CtrlerComp_Body, by decide⟩ ∧
        sampleNoTexRendered.1.mCompTexID ⟨CtrlerComp_Body, by decide⟩
          < (sampleNoTexRendered.1.mTextureTable.length : Int))) ∧
    sampleNoTexRendered.1.mCompExistFlags ⟨CtrlerComp_Battery, by decide⟩ = true :=
  ⟨rfl,
    ⟨((render_draws_guarded sampleLookup 0 sampleNoTexSchedule sampleNoTexSys rfl
        sampleSamplingEnv CtrlerDrawMode_General).1 sampleNoTexRendered rfl
        ⟨CtrlerComp_Body, by decide⟩ (by decide)).1,
      ((render_draws_guarded sampleLookup 0 sampleNoTexSchedule sampleNoTexSys rfl
        sampleSamplingEnv CtrlerDrawMode_General).1 sampleNoTexRendered rfl
        ⟨CtrlerComp_Body, by decide⟩ (by decide)).2.1 (by decide)⟩,
    ((render_draws_guarded sampleLookup 0 sampleNoTexSchedule sampleNoTexSys rfl
      sampleSamplingEnv CtrlerDrawMode_General).1 sampleNoTexRendered rfl
      ⟨CtrlerComp_Battery, by decide⟩ (by decide)).1⟩

/-! ## Texture objects: allocation and deletion -/

/-- The battery loop is the iteration of its step. -/
theorem uploadBattery_cons (texLoad : WVR_CtrlerTexBitmap → Bool) (e : WVR_BatteryLevel)
    (rest : List WVR_BatteryLevel) (lv : Nat) (s : Controller) :
    uploadBattery texLoad (e :: rest) lv s
      = uploadBattery texLoad rest (lv + 1) (uploadBatteryStep texLoad e lv s) := rfl

/-- A list from position `n` on, when position `n` holds `x`. -/
theorem drop_of_getElem? {α : Type} (l : List α) (n : Nat) (x : α) (h : l[n]? = some x) :
    l.drop n = x :: l.drop (n + 1) := by
  have hlt : n < l.length := by
    by_contra hc
    simp [List.getElem?_eq_none (not_lt.mp hc)] at h
  rw [List.drop_eq_getElem_cons hlt]
  rw [List.getElem?_eq_getElem hlt] at h
  simp only [Option.some.injEq] at h
  rw [h]

/-- Lists that agree from position `n` on have the same part from `n` on. -/
theorem drop_congr_getElem? {α : Type} (l1 l2 : List α) (n : Nat)
    (h : ∀ i, n ≤ i → l1[i]? = l2[i]?) : l1.drop n = l2.drop n := by
  apply List.ext_getElem?
  intro i
  rw [List.getElem?_drop, List.getElem?_drop]
  exact h (n + i) (by omega)

/-- The handles of a list with a first element. -/
theorem deletedHandles_cons (x : Option Texture) (l : List (Option Texture)) :
    deletedHandles (x :: l) = deletedHandles [x] ++ deletedHandles l := by
  cases x <;> simp [deletedHandles, List.filterMap_cons]

/-- What one iteration of the battery loop does to the battery textures and to the
allocation counter: slot `lv` receives a fresh object, or a null pointer, or keeps its
entry; no other slot changes. -/
theorem uploadBatteryStep_tex (texLoad : WVR_CtrlerTexBitmap → Bool) (e : WVR_BatteryLevel)
    (lv : Nat) (s : Controller) (hlt : lv < s.mBatLvTex.length) :
    (uploadBatteryStep texLoad e lv s).mBatLvTex.length = s.mBatLvTex.length ∧
    (∀ i, i ≠ lv → (uploadBatteryStep texLoad e lv s).mBatLvTex[i]? = s.mBatLvTex[i]?) ∧
    (((uploadBatteryStep texLoad e lv s).mBatLvTex[lv]? = some (some ⟨s.texNext⟩) ∧
        (uploadBatteryStep texLoad e lv s).texNext = s.texNext + 1) ∨
      ((uploadBatteryStep texLoad e lv s).mBatLvTex[lv]? = some none ∧
        (uploadBatteryStep texLoad e lv s).texNext = s.texNext) ∨
      ((uploadBatteryStep texLoad e lv s).mBatLvTex[lv]? = s.mBatLvTex[lv]? ∧
        (uploadBatteryStep texLoad e lv s).texNext = s.texNext)) := by
  by_cases hb : e.tex.bitmap.isSome = true
  · by_cases hl : texLoad e.tex = true
    · have hs : uploadBatteryStep texLoad e lv s =
          { s with
            mBatMinLevels := s.mBatMinLevels.set lv e.minLv
            mBatMaxLevels := s.mBatMaxLevels.set lv e.maxLv
            mBatLvTex := s.mBatLvTex.set lv (some ⟨s.texNext⟩)
            texNext := s.texNext + 1 } := by
        simp [uploadBatteryStep, hb, hl, loadTextureFromBitmapWithoutCached]
      rw [hs]
      exact ⟨List.length_set _ _ _, fun i hi => List.getElem?_set_ne (Ne.symm hi),
        Or.inl ⟨List.getElem?_set_self hlt, rfl⟩⟩
    · have hs : uploadBatteryStep texLoad e lv s =
          { s with
            mBatMinLevels := s.mBatMinLevels.set lv e.minLv
            mBatMaxLevels := s.mBatMaxLevels.set lv e.maxLv
            mBatLvTex := s.mBatLvTex.set lv none
            texNext := s.texNext } := by
        simp [uploadBatteryStep, hb, hl, loadTextureFromBitmapWithoutCached]
      rw [hs]
      exact ⟨List.length_set _ _ _, fun i hi => List.getElem?_set_ne (Ne.symm hi),
        Or.inr (Or.inl ⟨List.getElem?_set_self hlt, rfl⟩)⟩
  · have hs : uploadBatteryStep texLoad e lv s =
        { s with
          mBatMinLevels := s.mBatMinLevels.set lv e.minLv
          mBatMaxLevels := s.mBatMaxLevels.set lv e.maxLv } := by
      simp [uploadBatteryStep, hb]
    rw [hs]
    exact ⟨rfl, fun _ _ => rfl, Or.inr (Or.inr ⟨rfl, rfl⟩)⟩

/-- The battery loop from level `lv` on: the table keeps its length and its part
before `lv`, the allocation counter does not decrease, every handle in the part from
`lv` on is either one that was there or one allocated by the loop, and when the
handles that were there are older than the counter, each handle allocated by the loop
occurs exactly once. -/
theorem uploadBattery_handles (texLoad : WVR_CtrlerTexBitmap → Bool) :
    ∀ (l : List WVR_BatteryLevel) (lv : Nat) (s : Controller),
      lv + l.length ≤ s.mBatLvTex.length →
      (uploadBattery texLoad l lv s).mBatLvTex.length = s.mBatLvTex.length ∧
      (∀ i, i < lv → (uploadBattery texLoad l lv s).mBatLvTex[i]? = s.mBatLvTex[i]?) ∧
      s.texNext ≤ (uploadBattery texLoad l lv s).texNext ∧
      (∀ h ∈ deletedHandles ((uploadBattery texLoad l lv s).mBatLvTex.drop lv),
        h ∈ deletedHandles (s.mBatLvTex.drop lv) ∨
          (s.texNext ≤ h ∧ h < (uploadBattery texLoad l lv s).texNext)) ∧
      ((∀ h ∈ deletedHandles (s.mBatLvTex.drop lv), h < s.texNext) →
        ∀ h, s.texNext ≤ h → h < (uploadBattery texLoad l lv s).texNext →
          (deletedHandles ((uploadBattery texLoad l lv s).mBatLvTex.drop lv)).count h = 1) := by
  intro l
  induction l with
  | nil =>
    intro lv s _
    refine ⟨rfl, fun _ _ => rfl, le_refl _, fun h hh => Or.inl hh, ?_⟩
    intro _ h h1 h2
    have h3 : h < s.texNext := h2
    omega
  | cons e rest ih =>
    intro lv s hlen
    have hlen2 : lv + (rest.length + 1) ≤ s.mBatLvTex.length := by simpa using hlen
    have hlt : lv < s.mBatLvTex.length := by omega
    obtain ⟨len2, other2, alt⟩ := uploadBatteryStep_tex texLoad e lv s hlt
    rw [uploadBattery_cons]
    generalize uploadBatteryStep texLoad e lv s = s2 at len2 other2 alt ⊢
    obtain ⟨flen, fpre, fnext, fmem, fcount⟩ := ih (lv + 1) s2 (by omega)
    generalize uploadBattery texLoad rest (lv + 1) s2 = f at flen fpre fnext fmem fcount ⊢
    have hnext2 : s.texNext ≤ s2.texNext := by
      rcases alt with ⟨-, e⟩ | ⟨-, e⟩ | ⟨-, e⟩ <;> omega
    have hdrop2 : s2.mBatLvTex.drop (lv + 1) = s.mBatLvTex.drop (lv + 1) :=
      drop_congr_getElem? _ _ _ (fun i hi => other2 i (by omega))
    obtain ⟨y, hy⟩ : ∃ y, s.mBatLvTex[lv]? = some y := ⟨_, List.getElem?_eq_getElem hlt⟩
    obtain ⟨x, hx2⟩ : ∃ x, s2.mBatLvTex[lv]? = some x :=
      ⟨_, List.getElem?_eq_getElem (by omega)⟩
    have hxf : f.mBatLvTex[lv]? = some x := by
      rw [fpre lv (by omega)]; exact hx2
    have hfdrop := drop_of_getElem? _ _ _ hxf
    have hsdrop := drop_of_getElem? _ _ _ hy
    have hsub : ∀ h ∈ deletedHandles (s.mBatLvTex.drop (lv + 1)),
        h ∈ deletedHandles (s.mBatLvTex.drop lv) := by
      intro h hh
      rw [hsdrop, deletedHandles_cons]
      exact List.mem_append_right _ hh
    refine ⟨flen.trans len2, ?_, le_trans hnext2 fnext, ?_, ?_⟩
    · intro i hi
      rw [fpre i (by omega)]
      exact other2 i (by omega)
    · intro h hh
      rw [hfdrop, deletedHandles_cons] at hh
      rcases List.mem_append.mp hh with h1 | h1
      · rcases alt with ⟨ex, en⟩ | ⟨ex, en⟩ | ⟨ex, en⟩
        · rw [hx2, Option.some.injEq] at ex
          subst ex
          simp only [deletedHandles, List.filterMap_cons, Option.map_some', List.filterMap_nil,
            List.mem_singleton] at h1
          right
          omega
        · rw [hx2, Option.some.injEq] at ex
          subst ex
          simp [deletedHandles] at h1
        · rw [hx2, hy, Option.some.injEq] at ex
          subst ex
          left
          rw [hsdrop, deletedHandles_cons]
          exact List.mem_append_left _ h1
      · rcases fmem h h1 with h2 | ⟨h2, h3⟩
        · left
          rw [hdrop2] at h2
          exact hsub h h2
        · right
          exact ⟨by omega, h3⟩
    · intro hW h hlo hhi
      have hW2 : ∀ k ∈ deletedHandles (s2.mBatLvTex.drop (lv + 1)), k < s2.texNext := by
        intro k hk
        rw [hdrop2] at hk
        have := hW k (hsub k hk)
        omega
      have hc := fcount hW2
      rw [hfdrop, deletedHandles_cons, List.count_append]
      rcases alt with ⟨ex, en⟩ | ⟨ex, en⟩ | ⟨ex, en⟩
      · rw [hx2, Option.some.injEq] at ex
        subst ex
        by_cases hn : h = s.texNext
        · subst hn
          have hz : (deletedHandles (f.mBatLvTex.drop (lv + 1))).count s.texNext = 0 := by
            apply List.count_eq_zero.mpr
            intro hm
            rcases fmem _ hm with h2 | ⟨h2, -⟩
            · rw [hdrop2] at h2
              have := hW _ (hsub _ h2)
              omega
            · omega
          rw [hz]
          simp [deletedHandles]
        · rw [hc h (by omega) hhi]
          have hz : (deletedHandles [some (⟨s.texNext⟩ : Texture)]).count h = 0 := by
            apply List.count_eq_zero.mpr
            simp only [deletedHandles, List.filterMap_cons, Option.map_some',
              List.filterMap_nil, List.mem_singleton]
            exact hn
          rw [hz]
      · rw [hx2, Option.some.injEq] at ex
        subst ex
        rw [hc h (by omega) hhi]
        simp [deletedHandles]
      · rw [hx2, hy, Option.some.injEq] at ex
        subst ex
        rw [hc h (by omega) hhi]
        have hz : (deletedHandles [x]).count h = 0 := by
          apply List.count_eq_zero.mpr
          intro hm
          have hm2 : h ∈ deletedHandles (s.mBatLvTex.drop lv) := by
            rw [hsdrop, deletedHandles_cons]
            exact List.mem_append_left _ hm
          have := hW h hm2
          omega
        rw [hz]

/-- The texture loop allocates consecutive objects: the handles in the table it builds
are the numbers from the allocation counter before to the counter after. -/
theorem uploadTextures_handles (texLoad : WVR_CtrlerTexBitmap → Bool) :
    ∀ (l : List WVR_CtrlerTexBitmap) (n : Nat),
      n ≤ (uploadTextures texLoad l n).2 ∧
      deletedHandles (uploadTextures texLoad l n).1
        = List.range' n ((uploadTextures texLoad l n).2 - n) := by
  intro l
  induction l with
  | nil => intro n; simp [uploadTextures, deletedHandles]
  | cons b rest ih =>
    intro n
    by_cases hl : texLoad b = true
    · obtain ⟨h1, h2⟩ := ih (n + 1)
      have hs : uploadTextures texLoad (b :: rest) n
          = (some ⟨n⟩ :: (uploadTextures texLoad rest (n + 1)).1,
              (uploadTextures texLoad rest (n + 1)).2) := by
        simp [uploadTextures, loadTextureFromBitmapWithoutCached, hl]
      rw [hs]
      refine ⟨by simp only []; omega, ?_⟩
      simp only []
      rw [deletedHandles_cons, h2]
      have hk : (uploadTextures texLoad rest (n + 1)).2 - n
          = ((uploadTextures texLoad rest (n + 1)).2 - (n + 1)) + 1 := by omega
      rw [hk, List.range'_succ]
      simp [deletedHandles]
    · obtain ⟨h1, h2⟩ := ih n
      have hs : uploadTextures texLoad (b :: rest) n
          = (none :: (uploadTextures texLoad rest n).1, (uploadTextures texLoad rest n).2) := by
        simp [uploadTextures, loadTextureFromBitmapWithoutCached, hl]
      rw [hs]
      refine ⟨h1, ?_⟩
      simp only []
      rw [deletedHandles_cons, h2]
      simp [deletedHandles]

/-- A resized vector has the requested size. -/
theorem vectorResize_length {α : Type} (xs : List α) (n : Nat) (d : α) :
    (vectorResize xs n d).length = n := by
  simp only [vectorResize, List.length_append, List.length_take, List.length_replicate]
  omega

/-- Resizing a texture vector brings in no handle. -/
theorem deletedHandles_vectorResize (xs : List (Option Texture)) (n : Nat) :
    ∀ h ∈ deletedHandles (vectorResize xs n none), h ∈ deletedHandles xs := by
  intro h hh
  simp only [deletedHandles, vectorResize, List.filterMap_append, List.mem_append,
    List.mem_filterMap] at hh ⊢
  rcases hh with ⟨a, ha, e⟩ | ⟨a, ha, e⟩
  · exact ⟨a, List.mem_of_mem_take ha, e⟩
  · have : a = none := List.eq_of_mem_replicate ha
    subst this
    simp at e

/-- An upload is the battery loop run on the state left by the component and texture
loops; that state holds the resized battery-texture vector, the texture table built by
the texture loop and its allocation counter. -/
theorem initializeCtrlerModelGLComp_tex (texLoad : WVR_CtrlerTexBitmap → Bool)
    (d : WVR_CtrlerModel) (s : Controller) :
    ∃ s4 : Controller,
      initializeCtrlerModelGLComp texLoad d s = uploadBattery texLoad d.batteryLevels 0 s4 ∧
      s4.mBatLvTex = vectorResize s.mBatLvTex d.batteryLevels.length none ∧
      s4.texNext = (uploadTextures texLoad d.bitmapInfos s.texNext).2 ∧
      s4.mTextureTable = (uploadTextures texLoad d.bitmapInfos s.texNext).1 := by
  obtain ⟨-, -, -, -, a5, -, -, a8, -, -, -⟩ :=
    foldl_uploadComp_frame d.compInfos { s with mEmitterPose := Matrix4.identity }
  have a5 : (d.compInfos.foldl uploadComp { s with mEmitterPose := Matrix4.identity }).mBatLvTex
      = s.mBatLvTex := a5
  have a8 : (d.compInfos.foldl uploadComp { s with mEmitterPose := Matrix4.identity }).texNext
      = s.texNext := a8
  unfold initializeCtrlerModelGLComp
  refine ⟨_, rfl, ?_, ?_, ?_⟩
  · simp only []
    split <;> simp only [a5]
  · simp only []
    split <;> simp only [a8]
  · simp only []
    split <;> simp only [a8]

/-- A release keeps the texture bookkeeping sound. -/
theorem texSound_release (s : Controller) (h : texSound s) :
    texSound (releaseCtrlerModelGLComp s) := by
  obtain ⟨h1, h2, h3⟩ := h
  refine ⟨?_, ?_, ?_⟩
  · intro k hk
    have hk2 : k ∈ s.texFreed ++ deletedHandles s.mTextureTable
        ++ deletedHandles s.mBatLvTex := hk
    simp only [List.mem_append] at hk2
    rcases hk2 with (hk2 | hk2) | hk2
    · exact h1 k hk2
    · exact h2 k hk2
    · exact h3 k hk2
  · intro k hk
    have hk2 : k ∈ deletedHandles ([] : List (Option Texture)) := hk
    simp [deletedHandles] at hk2
  · intro k hk
    have hk2 : k ∈ deletedHandles ([] : List (Option Texture)) := hk
    simp [deletedHandles] at hk2

/-- An upload keeps the texture bookkeeping sound. -/
theorem texSound_initializeCtrlerModelGLComp (texLoad : WVR_CtrlerTexBitmap → Bool)
    (d : WVR_CtrlerModel) (s : Controller) (h : texSound s) :
    texSound (initializeCtrlerModelGLComp texLoad d s) := by
  obtain ⟨h1, -, h3⟩ := h
  obtain ⟨ffreed, -, -, -⟩ := initializeCtrlerModelGLComp_frame texLoad d s
  obtain ⟨s4, hu, hb4, hn4, ht4⟩ := initializeCtrlerModelGLComp_tex texLoad d s
  obtain ⟨tle, thandles⟩ := uploadTextures_handles texLoad d.bitmapInfos s.texNext
  have hlen4 : 0 + d.batteryLevels.length ≤ s4.mBatLvTex.length := by
    rw [hb4, vectorResize_length]; omega
  obtain ⟨-, -, bnext, bmem, -⟩ := uploadBattery_handles texLoad d.batteryLevels 0 s4 hlen4
  refine ⟨?_, ?_, ?_⟩
  · intro k hk
    rw [ffreed] at hk
    have := h1 k hk
    rw [hu]
    omega
  · intro k hk
    rw [hu, (uploadBattery_frame texLoad _ _ _).2.2.2.1, ht4, thandles,
      List.mem_range'_1] at hk
    rw [hu]
    omega
  · intro k hk
    rw [hu] at hk ⊢
    rw [← List.drop_zero (uploadBattery texLoad d.batteryLevels 0 s4).mBatLvTex] at hk
    rcases bmem k hk with h2 | ⟨-, h2⟩
    · rw [List.drop_zero, hb4] at h2
      have := h3 k (deletedHandles_vectorResize _ _ k h2)
      omega
    · exact h2

/-- The first step of `render` keeps the texture bookkeeping sound. -/
theorem texSound_render_initStep (texLoad : WVR_CtrlerTexBitmap → Bool) (s : Controller)
    (h : texSound s) : texSound (render_initStep texLoad s) := by
  unfold render_initStep
  split_ifs
  · cases hd : s.mCachedData with
    | none => exact h
    | some d =>
      exact texSound_initializeCtrlerModelGLComp texLoad d _ (texSound_release s h)
  · exact h

/-- A battery sample changes only the sample time and the battery level. -/
theorem refreshBatteryStatus_eq (current diffs : Int) (percentage : Nat) (s : Controller) :
    ∃ (t : Int) (lvl : Int), refreshBatteryStatus current diffs percentage s
      = { s with mLastUpdateTime := t, mBatteryLevel := lvl } := by
  simp only [refreshBatteryStatus]
  split_ifs
  · exact ⟨s.mLastUpdateTime, s.mBatteryLevel, rfl⟩
  · split
    · exact ⟨current, _, rfl⟩
    · exact ⟨current, s.mBatteryLevel, rfl⟩
  · exact ⟨s.mLastUpdateTime, s.mBatteryLevel, rfl⟩

/-- Every enabled step keeps the texture bookkeeping sound. -/
theorem step_texSound (a : Action) (s t : Sys) (hs : texSound s.ctrl) (h : step a s = some t) :
    texSound t.ctrl := by
  cases a with
  | taskClear =>
    cases hp : s.task <;> simp [step, hp] at h
    subst h
    exact hs
  | taskFetch result data =>
    cases hp : s.task <;> simp [step, hp] at h
    subst h
    exact hs
  | taskFinish =>
    cases hp : s.task <;> simp [step, hp] at h
    subst h
    show texSound (loadModelFunc_finish _ s.ctrl)
    unfold loadModelFunc_finish
    split
    · exact hs
    · exact hs
  | renderInit texLoad =>
    simp only [step, Option.some.injEq] at h
    subst h
    exact texSound_render_initStep texLoad s.ctrl hs
  | disconnected =>
    simp only [step, Option.some.injEq] at h
    subst h
    exact texSound_release { s.ctrl with mCurrentRenderModelName := "" } hs
  | loadAsync name =>
    simp only [step, Option.some.injEq] at h
    subst h
    show texSound (loadControllerModelAsync name s.ctrl).1
    unfold loadControllerModelAsync
    split
    · exact hs
    · exact hs
  | buttonEvent mapping iEvent =>
    simp only [step, Option.some.injEq] at h
    subst h
    show texSound (refreshButtonStatus mapping iEvent s.ctrl)
    rw [refreshButtonStatus_frame]
    exact hs
  | batteryRefresh current diffs percentage =>
    simp only [step, Option.some.injEq] at h
    subst h
    obtain ⟨t, lvl, e⟩ := refreshBatteryStatus_eq current diffs percentage s.ctrl
    show texSound (refreshBatteryStatus current diffs percentage s.ctrl)
    rw [e]
    exact hs
  | resetEffects =>
    simp only [step, Option.some.injEq] at h
    subst h
    exact hs

/-- The texture bookkeeping is sound in every state reached from a fresh
controller. -/
theorem reachable_texSound (lookup : CtrlerDrawModeEnum → ShaderLookup) (now : Int)
    (acts : List Action) (sys : Sys) (h : run acts (initSys lookup now) = some sys) :
    texSound sys.ctrl := by
  have hgen : ∀ (acts : List Action) (s t : Sys), texSound s.ctrl → run acts s = some t →
      texSound t.ctrl := by
    intro acts
    induction acts with
    | nil =>
      intro s t hs h
      simp only [run, Option.some.injEq] at h
      subst h
      exact hs
    | cons a rest ih =>
      intro s t hs h
      simp only [run] at h
      cases hstep : step a s with
      | none => simp [hstep] at h
      | some s1 =>
        simp only [hstep] at h
        exact ih s1 t (step_texSound a s s1 hs hstep) h
  apply hgen acts (initSys lookup now) sys _ h
  have hc : (ctor lookup now).texFreed = [] ∧ (ctor lookup now).mTextureTable = [] ∧
      (ctor lookup now).mBatLvTex = [] := by
    unfold ctor initializeGLComp
    cases shaderOf (lookup CtrlerDrawMode_General) with
    | none => exact ⟨rfl, rfl, rfl⟩
    | some sh0 =>
      simp only []
      cases shaderOf (lookup CtrlerDrawMode_Multiview) <;> exact ⟨rfl, rfl, rfl⟩
  obtain ⟨c1, c2, c3⟩ := hc
  refine ⟨?_, ?_, ?_⟩
  · intro k hk
    have hk2 : k ∈ (ctor lookup now).texFreed := hk
    rw [c1] at hk2
    simp at hk2
  · intro k hk
    have hk2 : k ∈ deletedHandles (ctor lookup now).mTextureTable := hk
    rw [c2] at hk2
    simp [deletedHandles] at hk2
  · intro k hk
    have hk2 : k ∈ deletedHandles (ctor lookup now).mBatLvTex := hk
    rw [c3] at hk2
    simp [deletedHandles] at hk2

/-- C14: for every bundle and every prior state whose bookkeeping is sound (every
handle in the deletion log and in the battery-texture vector was allocated before),
after upload followed by `releaseCtrlerModelGLComp` every existence flag is false, every
texture index is -1, every visual state is None, the texture table and the three
battery tables are empty, and each texture object created by the upload (the handles
from the allocation counter before the upload to the counter after it) occurs exactly
once in the deletion log; the upload itself deletes nothing. -/
theorem upload_release_spec (texLoad : WVR_CtrlerTexBitmap → Bool) (d : WVR_CtrlerModel)
    (s : Controller) (hfreed : ∀ h ∈ s.texFreed, h < s.texNext)
    (hbat : ∀ h ∈ deletedHandles s.mBatLvTex, h < s.texNext) :
    (∀ c : CompIdx, (releaseCtrlerModelGLComp
      (initializeCtrlerModelGLComp texLoad d s)).mCompExistFlags c = false) ∧
    (∀ c : CompIdx, (releaseCtrlerModelGLComp
      (initializeCtrlerModelGLComp texLoad d s)).mCompTexID c = -1) ∧
    (∀ c : CompIdx, (releaseCtrlerModelGLComp
      (initializeCtrlerModelGLComp texLoad d s)).mCompStates c = CtrlerBtnState_None) ∧
    (releaseCtrlerModelGLComp (initializeCtrlerModelGLComp texLoad d s)).mTextureTable = [] ∧
    (releaseCtrlerModelGLComp (initializeCtrlerModelGLComp texLoad d s)).mBatLvTex = [] ∧
    (releaseCtrlerModelGLComp (initializeCtrlerModelGLComp texLoad d s)).mBatMinLevels = [] ∧
    (releaseCtrlerModelGLComp (initializeCtrlerModelGLComp texLoad d s)).mBatMaxLevels = [] ∧
    (initializeCtrlerModelGLComp texLoad d s).texFreed = s.texFreed ∧
    s.texNext ≤ (initializeCtrlerModelGLComp texLoad d s).texNext ∧
    (∀ h, s.texNext ≤ h → h < (initializeCtrlerModelGLComp texLoad d s).texNext →
      (releaseCtrlerModelGLComp
        (initializeCtrlerModelGLComp texLoad d s)).texFreed.count h = 1) := by
  obtain ⟨ffreed, -, -, -⟩ := initializeCtrlerModelGLComp_frame texLoad d s
  obtain ⟨s4, hu, hb4, hn4, ht4⟩ := initializeCtrlerModelGLComp_tex texLoad d s
  obtain ⟨tle, thandles⟩ := uploadTextures_handles texLoad d.bitmapInfos s.texNext
  have hlen4 : 0 + d.batteryLevels.length ≤ s4.mBatLvTex.length := by
    rw [hb4, vectorResize_length]; omega
  obtain ⟨-, -, bnext, bmem, bcount⟩ :=
    uploadBattery_handles texLoad d.batteryLevels 0 s4 hlen4
  have htab : (initializeCtrlerModelGLComp texLoad d s).mTextureTable
      = (uploadTextures texLoad d.bitmapInfos s.texNext).1 := by
    rw [hu, (uploadBattery_frame texLoad _ _ _).2.2.2.1, ht4]
  have hold4 : ∀ h ∈ deletedHandles (s4.mBatLvTex.drop 0), h < s.texNext := by
    intro h hh
    rw [List.drop_zero, hb4] at hh
    exact hbat h (deletedHandles_vectorResize _ _ h hh)
  have hnext : s.texNext ≤ (initializeCtrlerModelGLComp texLoad d s).texNext := by
    rw [hu]; omega
  refine ⟨fun _ => rfl, fun _ => rfl, fun _ => rfl, rfl, rfl, rfl, rfl, ffreed, hnext, ?_⟩
  intro h hlo hhi
  have hlog : (releaseCtrlerModelGLComp (initializeCtrlerModelGLComp texLoad d s)).texFreed
      = s.texFreed ++ deletedHandles (uploadTextures texLoad d.bitmapInfos s.texNext).1
        ++ deletedHandles ((uploadBattery texLoad d.batteryLevels 0 s4).mBatLvTex.drop 0) := by
    show (initializeCtrlerModelGLComp texLoad d s).texFreed
        ++ deletedHandles (initializeCtrlerModelGLComp texLoad d s).mTextureTable
        ++ deletedHandles (initializeCtrlerModelGLComp texLoad d s).mBatLvTex = _
    rw [ffreed, htab, List.drop_zero, hu]
  rw [hu] at hhi
  rw [hlog, List.count_append, List.count_append, thandles]
  have z1 : s.texFreed.count h = 0 := by
    apply List.count_eq_zero.mpr
    intro hm
    have := hfreed h hm
    omega
  rw [z1]
  by_cases hsplit : h < s4.texNext
  · have c2 : (List.range' s.texNext
        ((uploadTextures texLoad d.bitmapInfos s.texNext).2 - s.texNext)).count h = 1 := by
      apply List.count_eq_one_of_mem (List.nodup_range' _ _)
      rw [List.mem_range'_1]
      omega
    have z3 : (deletedHandles
        ((uploadBattery texLoad d.batteryLevels 0 s4).mBatLvTex.drop 0)).count h = 0 := by
      apply List.count_eq_zero.mpr
      intro hm
      rcases bmem h hm with h2 | ⟨h2, -⟩
      · have := hold4 h h2
        omega
      · omega
    rw [c2, z3]
  · have z2 : (List.range' s.texNext
        ((uploadTextures texLoad d.bitmapInfos s.texNext).2 - s.texNext)).count h = 0 := by
      apply List.count_eq_zero.mpr
      rw [List.mem_range'_1]
      omega
    have c3 := bcount (fun k hk => by have := hold4 k hk; omega) h (by omega) hhi
    rw [z2, c3]

/-- The witness of C14: the upload of `sampleFullModel` onto `sampleActive` creates
the texture objects 1 and 2; after the release each occurs once in the deletion
log. -/
theorem upload_release_spec_witness :
    (releaseCtrlerModelGLComp (initializeCtrlerModelGLComp (fun _ => true) sampleFullModel
      sampleActive)).texFreed.count 1 = 1 ∧
    (releaseCtrlerModelGLComp (initializeCtrlerModelGLComp (fun _ => true) sampleFullModel
      sampleActive)).texFreed.count 2 = 1 ∧
    sampleActive.texNext = 1 ∧
    (initializeCtrlerModelGLComp (fun _ => true) sampleFullModel sampleActive).texNext = 3 :=
  ⟨(upload_release_spec (fun _ => true) sampleFullModel sampleActive (by decide)
      (by decide)).2.2.2.2.2.2.2.2.2 1 (by decide) (by decide),
    (upload_release_spec (fun _ => true) sampleFullModel sampleActive (by decide)
      (by decide)).2.2.2.2.2.2.2.2.2 2 (by decide) (by decide),
    by decide, by decide⟩

/-! ## Reload after a disconnect -/

/-- The upload step of a render call leaves the stored model name alone. -/
theorem render_initStep_name (texLoad : WVR_CtrlerTexBitmap → Bool) (s : Controller) :
    (render_initStep texLoad s).mCurrentRenderModelName = s.mCurrentRenderModelName := by
  unfold render_initStep
  split_ifs
  · split
    · exact (initializeCtrlerModelGLComp_frame texLoad _ _).2.2.2
    · rfl
  · rfl

/-- A step other than a load request keeps an empty stored model name empty. -/
theorem step_nameEmpty (a : Action) (s t : Sys) (h0 : s.ctrl.mCurrentRenderModelName = "")
    (hna : ∀ n, a ≠ Action.loadAsync n) (h : step a s = some t) :
    t.ctrl.mCurrentRenderModelName = "" := by
  cases a with
  | taskClear =>
    simp only [step] at h
    split at h
    · simp only [Option.some.injEq] at h
      rw [← h]
      exact h0
    · exact absurd h (by simp)
  | taskFetch result data =>
    simp only [step] at h
    split at h
    · simp only [Option.some.injEq] at h
      rw [← h]
      exact h0
    · exact absurd h (by simp)
  | taskFinish =>
    simp only [step] at h
    split at h
    · simp only [Option.some.injEq] at h
      rw [← h]
      simp only [loadModelFunc_finish]
      split_ifs
      · exact h0
      · exact h0
    · exact absurd h (by simp)
  | renderInit texLoad =>
    simp only [step, Option.some.injEq] at h
    rw [← h]
    exact (render_initStep_name texLoad s.ctrl).trans h0
  | disconnected =>
    simp only [step, Option.some.injEq] at h
    rw [← h]
    rfl
  | loadAsync name => exact absurd rfl (hna name)
  | buttonEvent mapping iEvent =>
    simp only [step, Option.some.injEq] at h
    rw [← h]
    show (refreshButtonStatus mapping iEvent s.ctrl).mCurrentRenderModelName = ""
    rw [refreshButtonStatus_frame]
    exact h0
  | batteryRefresh current diffs percentage =>
    simp only [step, Option.some.injEq] at h
    rw [← h]
    obtain ⟨t1, lvl, he⟩ := refreshBatteryStatus_eq current diffs percentage s.ctrl
    show (refreshBatteryStatus current diffs percentage s.ctrl).mCurrentRenderModelName = ""
    rw [he]
    exact h0
  | resetEffects =>
    simp only [step, Option.some.injEq] at h
    rw [← h]
    exact h0

/-- A schedule without load requests keeps an empty stored model name empty. -/
theorem run_nameEmpty (acts : List Action) :
    ∀ (s t : Sys), s.ctrl.mCurrentRenderModelName = "" →
      (∀ a ∈ acts, ∀ n, a ≠ Action.loadAsync n) → run acts s = some t →
      t.ctrl.mCurrentRenderModelName = "" := by
  induction acts with
  | nil =>
    intro s t h0 _ h
    simp only [run, Option.some.injEq] at h
    rw [← h]
    exact h0
  | cons a rest ih =>
    intro s t h0 hna h
    simp only [run] at h
    cases hs : step a s with
    | none => rw [hs] at h; exact absurd h (by simp)
    | some s1 =>
      rw [hs] at h
      exact ih s1 t (step_nameEmpty a s s1 h0 (hna a (List.mem_cons_self _ _)) hs)
        (fun b hb => hna b (List.mem_cons_of_mem _ hb)) h

/-- C21: `handleDisconnected` stores the empty string as the render-model name, so
for every non-empty name N the first `loadControllerModelAsync` call after the
disconnect during which the device reports N starts a background task and stores N,
also when N was the name accepted just before the disconnect (where a call without
the disconnect starts none), and also when any steps other than load requests run
between the disconnect and the call. -/
theorem handleDisconnected_reload (s : Controller) (N : String) (hN : N ≠ "") :
    (handleDisconnected s).mCurrentRenderModelName = "" ∧
    (loadControllerModelAsync N (handleDisconnected s)).2 = true ∧
    (loadControllerModelAsync N (handleDisconnected s)).1.mCurrentRenderModelName = N ∧
    (loadControllerModelAsync N (loadControllerModelAsync N s).1).2 = false ∧
    (loadControllerModelAsync N
      (handleDisconnected (loadControllerModelAsync N s).1)).2 = true ∧
    (∀ (acts : List Action) (t : TaskPhase) (r : Sys),
      (∀ a ∈ acts, ∀ n, a ≠ Action.loadAsync n) →
      run acts ⟨handleDisconnected s, t⟩ = some r →
      (loadControllerModelAsync N r.ctrl).2 = true ∧
      (loadControllerModelAsync N r.ctrl).1.mCurrentRenderModelName = N) := by
  have hstart : ∀ u : Controller, u.mCurrentRenderModelName = "" →
      (loadControllerModelAsync N u).2 = true ∧
      (loadControllerModelAsync N u).1.mCurrentRenderModelName = N := by
    intro u hu
    have hne : ¬ N = u.mCurrentRenderModelName := by rw [hu]; exact hN
    simp [loadControllerModelAsync, hne]
  have hacc : (loadControllerModelAsync N s).1.mCurrentRenderModelName = N := by
    simp only [loadControllerModelAsync]
    split_ifs with he
    · exact he.symm
    · rfl
  refine ⟨rfl, (hstart _ rfl).1, (hstart _ rfl).2, ?_, (hstart _ rfl).1, ?_⟩
  · rw [loadControllerModelAsync_same N _ hacc.symm]
  · intro acts t r hna hr
    exact hstart r.ctrl (run_nameEmpty acts ⟨handleDisconnected s, t⟩ r rfl hna hr)

/-- The witness of C21: the name "vive" is accepted on a fresh controller; a repeated
call starts no task, and after a disconnect the call with the same name starts one,
also after an intervening button reset. -/
theorem handleDisconnected_reload_witness :
    (loadControllerModelAsync "vive" (ctor sampleLookup 0)).1.mCurrentRenderModelName
      = "vive" ∧
    (loadControllerModelAsync "vive"
      (loadControllerModelAsync "vive" (ctor sampleLookup 0)).1).2 = false ∧
    (loadControllerModelAsync "vive" (handleDisconnected
      (loadControllerModelAsync "vive" (ctor sampleLookup 0)).1)).2 = true ∧
    (loadControllerModelAsync "vive" (resetButtonEffects (handleDisconnected
      (loadControllerModelAsync "vive" (ctor sampleLookup 0)).1))).2 = true :=
  ⟨by decide,
    (handleDisconnected_reload (ctor sampleLookup 0) "vive" (by decide)).2.2.2.1,
    (handleDisconnected_reload (ctor sampleLookup 0) "vive" (by decide)).2.2.2.2.1,
    ((handleDisconnected_reload (loadControllerModelAsync "vive" (ctor sampleLookup 0)).1
      "vive" (by decide)).2.2.2.2.2 [Action.resetEffects] TaskPhase.idle
      ⟨resetButtonEffects (handleDisconnected
        (loadControllerModelAsync "vive" (ctor sampleLookup 0)).1), TaskPhase.idle⟩
      (by simp) rfl).1⟩

/-! ## Battery status sampler: thresholds modulo 2^32 -/

/-- Conversion to `uint32_t` adds 2^32 to a negative `int32_t` value. -/
theorem toUInt32_of_neg (x : Int) (h0 : -2147483648 ≤ x) (h1 : x < 0) :
    ((toUInt32 x : Nat) : Int) = x + 4294967296 := by
  unfold toUInt32
  have h : x % 4294967296 = x + 4294967296 := by omega
  rw [h]
  exact Int.toNat_of_nonneg (by omega)

/-- A level returned by the scan is a level of the scanned range whose bucket
matches. -/
theorem batteryScan_sound (p : Nat) (hp : p < 4294967296) (allMins maxs : List Int) :
    ∀ (mins : List Int) (lv0 : Nat) (k : Int),
      (∀ i, i < mins.length → mins.getD i 0 = allMins.getD (lv0 + i) 0) →
      batteryScan p maxs mins lv0 = some k →
      ∃ lv, lv0 ≤ lv ∧ lv < lv0 + mins.length ∧ bucketMatches allMins maxs p lv ∧
        k = toInt32 lv := by
  intro mins
  induction mins with
  | nil => intro lv0 k _ h; simp [batteryScan] at h
  | cons mn rest ih =>
    intro lv0 k hsuf h
    have hmn : mn = allMins.getD lv0 0 := by
      have := hsuf 0 (by simp)
      simpa using this
    have hpm : p % 4294967296 = p := Nat.mod_eq_of_lt hp
    simp only [batteryScan, hpm, hmn] at h
    split_ifs at h with hm
    · simp only [Option.some.injEq] at h
      exact ⟨lv0, le_refl _, by simp, hm, h.symm⟩
    · obtain ⟨lv, a1, a2, a3, a4⟩ := ih (lv0 + 1) k (by
        intro i hi
        have := hsuf (i + 1) (by simp; omega)
        simp only [List.getD_cons_succ] at this
        rw [this]
        congr 1
        omega) h
      exact ⟨lv, by omega, by simp only [List.length_cons]; omega, a3, a4⟩

/-- C22: in `refreshBatteryStatus` the unsigned 32-bit percentage is compared with
the signed 32-bit thresholds after their conversion modulo 2^32 (a negative threshold
x becomes x + 2^32). For every percentage p in 0..100: a bucket whose minimum is
negative never matches, so the scan passes over it, never assigns its level, and a
table of such buckets leaves the level unchanged; a bucket whose minimum is in 0..p and
whose maximum is negative always matches, so the scan stops at it when it reaches it
and its level is assigned when no earlier bucket matches. -/
theorem refreshBatteryStatus_wrap (p : Nat) (hp : p ≤ 100) :
    (∀ x : Int, -2147483648 ≤ x → x < 0 → ((toUInt32 x : Nat) : Int) = x + 4294967296) ∧
    (∀ (maxs : List Int) (mn : Int) (rest : List Int) (lv : Nat),
      -2147483648 ≤ mn → mn < 0 →
      batteryScan p maxs (mn :: rest) lv = batteryScan p maxs rest (lv + 1)) ∧
    (∀ (maxs : List Int) (mn : Int) (rest : List Int) (lv : Nat),
      0 ≤ mn → mn ≤ (p : Int) → -2147483648 ≤ maxs.getD lv 0 → maxs.getD lv 0 < 0 →
      batteryScan p maxs (mn :: rest) lv = some (toInt32 lv)) ∧
    (∀ (mins maxs : List Int) (lv : Nat),
      -2147483648 ≤ mins.getD lv 0 → mins.getD lv 0 < 0 →
      ¬ bucketMatches mins maxs p lv) ∧
    (∀ (mins maxs : List Int) (lv : Nat),
      0 ≤ mins.getD lv 0 → mins.getD lv 0 ≤ (p : Int) →
      -2147483648 ≤ maxs.getD lv 0 → maxs.getD lv 0 < 0 →
      bucketMatches mins maxs p lv) ∧
    (∀ (s : Controller) (current diffs : Int),
      s.mCompExistFlags ⟨CtrlerComp_Battery, by decide⟩ = true → 1 ≤ diffs →
      s.mBatMinLevels.length ≤ 2147483648 →
      (∀ lv, lv < s.mBatMinLevels.length →
        -2147483648 ≤ s.mBatMinLevels.getD lv 0 → s.mBatMinLevels.getD lv 0 < 0 →
        batteryScan p s.mBatMaxLevels s.mBatMinLevels 0 ≠ some (lv : Int)) ∧
      ((∀ lv, lv < s.mBatMinLevels.length →
          -2147483648 ≤ s.mBatMinLevels.getD lv 0 ∧ s.mBatMinLevels.getD lv 0 < 0) →
        (refreshBatteryStatus current diffs p s).mBatteryLevel = s.mBatteryLevel) ∧
      (∀ lv, lv < s.mBatMinLevels.length →
        0 ≤ s.mBatMinLevels.getD lv 0 → s.mBatMinLevels.getD lv 0 ≤ (p : Int) →
        -2147483648 ≤ s.mBatMaxLevels.getD lv 0 → s.mBatMaxLevels.getD lv 0 < 0 →
        (∀ j, j < lv → ¬ bucketMatches s.mBatMinLevels s.mBatMaxLevels p j) →
        (refreshBatteryStatus current diffs p s).mBatteryLevel = (lv : Int))) := by
  have hp32 : p < 4294967296 := by omega
  have hpm : p % 4294967296 = p := Nat.mod_eq_of_lt hp32
  have hneg : ∀ x : Int, -2147483648 ≤ x → x < 0 → ¬ toUInt32 x ≤ p := by
    intro x h0 h1 hle
    have e := toUInt32_of_neg x h0 h1
    have : ((toUInt32 x : Nat) : Int) ≤ (p : Int) := by exact_mod_cast hle
    omega
  have hmin : ∀ x : Int, 0 ≤ x → x ≤ (p : Int) → toUInt32 x ≤ p := by
    intro x h0 h1
    have e := toUInt32_of_nonneg x h0 (by omega)
    have : ((toUInt32 x : Nat) : Int) ≤ (p : Int) := by rw [e]; exact h1
    exact_mod_cast this
  have hmax : ∀ x : Int, -2147483648 ≤ x → x < 0 → p ≤ toUInt32 x := by
    intro x h0 h1
    have e := toUInt32_of_neg x h0 h1
    have : (p : Int) ≤ ((toUInt32 x : Nat) : Int) := by omega
    exact_mod_cast this
  have hno : ∀ (mins maxs : List Int) (lv : Nat),
      -2147483648 ≤ mins.getD lv 0 → mins.getD lv 0 < 0 →
      ¬ bucketMatches mins maxs p lv := by
    intro mins maxs lv h0 h1 hm
    exact hneg _ h0 h1 hm.1
  have hyes : ∀ (mins maxs : List Int) (lv : Nat),
      0 ≤ mins.getD lv 0 → mins.getD lv 0 ≤ (p : Int) →
      -2147483648 ≤ maxs.getD lv 0 → maxs.getD lv 0 < 0 →
      bucketMatches mins maxs p lv := by
    intro mins maxs lv h0 h1 h2 h3
    exact ⟨hmin _ h0 h1, hmax _ h2 h3⟩
  refine ⟨toUInt32_of_neg, ?_, ?_, hno, hyes, ?_⟩
  · intro maxs mn rest lv h0 h1
    simp only [batteryScan, hpm]
    rw [if_neg (fun hc => hneg mn h0 h1 hc.1)]
  · intro maxs mn rest lv h0 h1 h2 h3
    simp only [batteryScan, hpm]
    rw [if_pos ⟨hmin mn h0 h1, hmax _ h2 h3⟩]
  · intro s current diffs hb hd hsz
    have hdiff : diffs ≥ 1 := hd
    have hunfold : refreshBatteryStatus current diffs p s =
        match batteryScan p s.mBatMaxLevels s.mBatMinLevels 0 with
        | some lv => { s with mLastUpdateTime := current, mBatteryLevel := lv }
        | none => { s with mLastUpdateTime := current } := by
      unfold refreshBatteryStatus
      simp only [hb, Bool.true_eq_false, if_false, hdiff, if_true]
    refine ⟨?_, ?_, ?_⟩
    · intro lv hlv h0 h1 hscan
      obtain ⟨lv1, -, b2, b3, b4⟩ := batteryScan_sound p hp32 s.mBatMinLevels s.mBatMaxLevels
        s.mBatMinLevels 0 (lv : Int) (fun i _ => by simp) hscan
      rw [toInt32_of_lt lv1 (by omega)] at b4
      have : lv = lv1 := by exact_mod_cast b4
      subst this
      exact hno _ _ _ h0 h1 b3
    · intro hall
      have hscan := batteryScan_none p hp32 s.mBatMinLevels s.mBatMaxLevels s.mBatMinLevels 0
        (fun i _ => by simp)
        (fun j _ hj => hno _ _ j (hall j (by omega)).1 (hall j (by omega)).2)
      rw [hunfold, hscan]
    · intro lv hlv h0 h1 h2 h3 hleast
      have hscan := batteryScan_some p hp32 s.mBatMinLevels s.mBatMaxLevels s.mBatMinLevels 0
        (fun i _ => by simp) lv (Nat.zero_le _) (by omega) (hyes _ _ lv h0 h1 h2 h3)
        (fun j _ hj => hleast j hj)
      rw [hunfold, hscan]
      exact toInt32_of_lt lv (by omega)

/-- The witness of C22: on the uploaded table [(-1,100),(0,-1)] the sample 50 passes
over level 0, whose minimum is negative, and stops at level 1, whose maximum is
negative; on the single bucket (-1,100) the level stays at -1. -/
theorem refreshBatteryStatus_wrap_witness :
    sampleWrapBatteryState.mBatMinLevels = [-1, 0] ∧
    sampleWrapBatteryState.mBatMaxLevels = [100, -1] ∧
    sampleWrapBatteryState.mBatteryLevel = -1 ∧
    ¬ bucketMatches sampleWrapBatteryState.mBatMinLevels
      sampleWrapBatteryState.mBatMaxLevels 50 0 ∧
    bucketMatches sampleWrapBatteryState.mBatMinLevels
      sampleWrapBatteryState.mBatMaxLevels 50 1 ∧
    (refreshBatteryStatus 1 1 50 sampleWrapBatteryState).mBatteryLevel = 1 ∧
    (refreshBatteryStatus 1 1 50 sampleNegativeBatteryState).mBatteryLevel = -1 :=
  ⟨by decide, by decide, by decide,
    (refreshBatteryStatus_wrap 50 (by decide)).2.2.2.1 _ _ 0 (by decide) (by decide),
    (refreshBatteryStatus_wrap 50 (by decide)).2.2.2.2.1 _ _ 1 (by decide) (by decide)
      (by decide) (by decide),
    ((refreshBatteryStatus_wrap 50 (by decide)).2.2.2.2.2 sampleWrapBatteryState 1 1
      (by decide) (by decide) (by decide)).2.2 1 (by decide) (by decide) (by decide)
      (by decide) (by decide) (by decide),
    ((refreshBatteryStatus_wrap 50 (by decide)).2.2.2.2.2 sampleNegativeBatteryState 1 1
      (by decide) (by decide) (by decide)).2.1 (by decide)⟩

end Vrdji
